import Mathlib

/-!
# Parameter validation of the eth2-merge Kurtosis module

A shallow embedding of `kurtosis-module/impl/module_io/params_deserializer.go`
and the properties of `DeserializeAndValidateParams` that follow from it.

Conventions of the embedding

* Go `string` is `String`; `len` of a string is its UTF-8 byte length.
* Go `uint32` is a `Nat` below `2 ^ 32`; every arithmetic operation of the
  source is followed by an explicit `% 2 ^ 32`.
* A Go slice that may be `nil` is an `Option (List _)`, `none` standing for `nil`.
* A Go `map` is the list of its entries; the order of the list stands for the
  order in which a `range` over the map visits them, which Go leaves open.
* `(*T, error)` results are `Except StackError T`; `logrus.Warnf` lines are
  collected, in order, next to the returned value.
-/

namespace ParamsDeserializer


/-! ## Data model -/

/-- An error value built by the `stacktrace` package: `NewError` carries the
formatted message, `Propagate` the cause and the message wrapped around it. -/
inductive StackError where
  | newError (msg : String)
  | propagate (cause : String) (msg : String)
  deriving DecidableEq, Repr

/-- Modelled from the spec: the declaration of the Go struct `ParticipantParams`
is not among the sources; these are the fields `DeserializeAndValidateParams`
reads or writes (EL kind/image/extra-args, CL kind/image/extra-beacon-args/
extra-validator-args). Fields the function never touches are left out. -/
structure ParticipantParams where
  ELClientType : String
  ELClientImage : String
  ELExtraParams : Option (List String)
  CLClientType : String
  CLClientImage : String
  BeaconExtraParams : Option (List String)
  ValidatorExtraParams : Option (List String)
  deriving DecidableEq, Repr

/-- Modelled from the spec: the declaration of the Go struct `NetworkParams` is
not among the sources; these are the fields `DeserializeAndValidateParams`
reads. The three numeric fields are `uint32` in the source. -/
structure NetworkParams where
  NetworkID : String
  PremineAccountMnemonic : String
  DepositContractAddress : String
  SecondsPerSlot : Nat
  SlotsPerEpoch : Nat
  NumValidatorKeysPerNode : Nat
  PreregisteredValidatorKeysMnemonic : String
  deriving DecidableEq, Repr

/-- Modelled from the spec: the declaration of the Go struct `ExecuteParams` is
not among the sources; these are the fields `DeserializeAndValidateParams`
reads or writes. -/
structure ExecuteParams where
  Participants : List ParticipantParams
  Network : NetworkParams
  ClientLogLevel : String
  deriving DecidableEq, Repr

/-- Modelled from the spec: the package-level declarations that
`params_deserializer.go` refers to and that are declared in files not among the
sources (the default parameters, the YAML decoder, the enumerated client-kind
sets, the default-image tables, the use-default keywords and the two named EL
kinds). They are parameters of the embedding. -/
structure PackageDecls where
  GetDefaultExecuteParams : ExecuteParams
  /-- `yaml.Unmarshal([]byte(paramsStr), paramsObj)`: the decoded object, or the
  decoder's error text. -/
  yamlUnmarshal : String → ExecuteParams → Except String ExecuteParams
  validGlobalClientLogLevels : List String
  ParticipantELClientType_Nethermind : String
  ParticipantELClientType_Besu : String
  validParticipantELClientTypes : List String
  validParticipantCLClientTypes : List String
  defaultElImages : List (String × String)
  defaultClImages : List (String × String)
  useDefaultElImageKeyword : String
  useDefaultClImageKeyword : String

/-- What one call leaves behind: the `logrus.Warnf` lines it wrote, oldest
first, and the pair it returned. -/
structure Outcome where
  warnings : List String
  ret : Except StackError ExecuteParams

/-! ## Constants of `params_deserializer.go` -/

def expectedSecondsPerSlot : Nat := 12

def expectedSlotsPerEpoch : Nat := 32

/-- Width of the Go `uint32` type. -/
def uint32Modulus : Nat := 2 ^ 32

/-! ## Library functions used by the source -/

/-- Go `unicode.IsSpace`: the Latin-1 spaces `\t \n \v \f \r`, space, U+0085,
U+00A0, and the other code points with the `White_Space` property. -/
def unicodeIsSpace (r : Char) : Bool :=
  let n := r.toNat
  (0x09 ≤ n && n ≤ 0x0D) || n == 0x20 || n == 0x85 || n == 0xA0 || n == 0x1680 ||
    (0x2000 ≤ n && n ≤ 0x200A) || n == 0x2028 || n == 0x2029 || n == 0x202F ||
    n == 0x205F || n == 0x3000

/-- Go `strings.TrimSpace`: the string without its leading and trailing white
space, as `unicode.IsSpace` defines it. -/
def stringsTrimSpace (s : String) : String :=
  String.mk ((s.data.dropWhile unicodeIsSpace).reverse.dropWhile unicodeIsSpace).reverse

/-- Go `len` on a string: the number of bytes of its UTF-8 encoding. -/
def goLen (s : String) : Nat := s.utf8ByteSize

/-- Go `strings.Join`. -/
def stringsJoin : List String → String → String
  | [], _ => ""
  | [a], _ => a
  | a :: b :: rest, sep => a ++ sep ++ stringsJoin (b :: rest) sep

/-- The `%v` verb applied to an integer. -/
def fmtNat (n : Nat) : String := toString n

/-! ## Error and warning texts, as the source formats them -/

def errDeserializing (cause : String) : StackError :=
  .propagate cause "An error occurred deserializing the serialized params"

def errLogLevel (level : String) : StackError :=
  .newError ("Unrecognized client log level '" ++ level ++ "'")

def errNoParticipants : StackError :=
  .newError "At least one participant is required"

def errBootnodeClient : StackError :=
  .newError "Cannot use a Nethermind/Besu client for the first participant because Nethermind/Besu clients don't mine on Eth1"

def errUnrecognizedEL (idx : Nat) (elClientType : String) (validClientTypes : List String) :
    StackError :=
  .newError ("Participant " ++ fmtNat idx ++ " declares unrecognized EL client type '" ++
    elClientType ++ "'; valid values are: " ++ stringsJoin validClientTypes ", ")

def errNoDefaultELImage (elClientType : String) : StackError :=
  .newError ("EL client image wasn't provided, and no default image was defined for EL client type '" ++
    elClientType ++ "'; this is a bug in the module")

def errUnrecognizedCL (idx : Nat) (clClientType : String) (validClientTypes : List String) :
    StackError :=
  .newError ("Participant " ++ fmtNat idx ++ " declares unrecognized CL client type '" ++
    clClientType ++ "'; valid values are: " ++ stringsJoin validClientTypes ", ")

def errNoDefaultCLImage (clClientType : String) : StackError :=
  .newError ("CL client image wasn't provided, and no default image was defined for CL client type '" ++
    clClientType ++ "'; this is a bug in the module")

def errNetworkID : StackError := .newError "Network ID must not be empty"

def errAccountMnemonic : StackError := .newError "Account mnemonic must not be empty"

def errDepositContract : StackError := .newError "Deposit contract address must not be empty"

def errSecondsPerSlot : StackError := .newError "Each slot must be >= 1 second"

def errSlotsPerEpoch : StackError := .newError "Each epoch must be composed of >= 1 slot"

def errNumValidators (requiredNumValidators actualNumValidators : Nat) : StackError :=
  .newError ("We need " ++ fmtNat requiredNumValidators ++
    " validators (enough for two epochs, with one validator per slot), but only have " ++
    fmtNat actualNumValidators)

def errValidatorMnemonic : StackError :=
  .newError "Preregistered validator keys mnemonic must not be empty"

def errNethermindPeering : StackError :=
  .newError "Due to a bug in Nethermind peering, Nethermind cannot be either the first or second EL node (see https://discord.com/channels/783719264308953108/933134266580234290/958049716065665094)"

def warnSecondsPerSlot (secondsPerSlot : Nat) : String :=
  "The current seconds-per-slot value is set to '" ++ fmtNat secondsPerSlot ++
    "'; values that aren't '" ++ fmtNat expectedSecondsPerSlot ++
    "' may cause the network to behave strangely"

def warnSlotsPerEpoch (slotsPerEpoch : Nat) : String :=
  "The current slots-per-epoch value is set to '" ++ fmtNat slotsPerEpoch ++
    "'; values that aren't '" ++ fmtNat expectedSlotsPerEpoch ++
    "' may cause the network to behave strangely"

/-! ## `DeserializeAndValidateParams` -/

/-- Lines 31 to 88: the body of the `range` loop for the participant at `idx`.
`participant` is the by-value copy the loop reads; the value returned is the
slot `paramsObj.Participants[idx]` after the writes of this iteration. -/
def rangeBody (d : PackageDecls) (idx : Nat) (participant : ParticipantParams) :
    Except StackError ParticipantParams :=
  if idx = 0 ∧ (participant.ELClientType = d.ParticipantELClientType_Nethermind ∨
      participant.ELClientType = d.ParticipantELClientType_Besu) then
    .error errBootnodeClient
  else
    let elClientType := participant.ELClientType
    if elClientType ∉ d.validParticipantELClientTypes then
      .error (errUnrecognizedEL idx elClientType d.validParticipantELClientTypes)
    else
      let afterELImage : Except StackError ParticipantParams :=
        if participant.ELClientImage = d.useDefaultElImageKeyword then
          match d.defaultElImages.lookup elClientType with
          | none => .error (errNoDefaultELImage elClientType)
          | some defaultElClientImage =>
            .ok { participant with ELClientImage := defaultElClientImage }
        else .ok participant
      match afterELImage with
      | .error e => .error e
      | .ok slot1 =>
        let slot2 : ParticipantParams :=
          if participant.ELExtraParams.isNone then { slot1 with ELExtraParams := some [] }
          else slot1
        let clClientType := participant.CLClientType
        if clClientType ∉ d.validParticipantCLClientTypes then
          .error (errUnrecognizedCL idx clClientType d.validParticipantCLClientTypes)
        else
          let afterCLImage : Except StackError ParticipantParams :=
            if participant.CLClientImage = d.useDefaultClImageKeyword then
              match d.defaultClImages.lookup clClientType with
              | none => .error (errNoDefaultCLImage clClientType)
              | some defaultClClientImage =>
                .ok { slot2 with CLClientImage := defaultClClientImage }
            else .ok slot2
          match afterCLImage with
          | .error e => .error e
          | .ok slot3 =>
            let slot4 : ParticipantParams :=
              if participant.BeaconExtraParams.isNone then
                { slot3 with BeaconExtraParams := some [] }
              else slot3
            let slot5 : ParticipantParams :=
              if participant.ValidatorExtraParams.isNone then
                { slot4 with ValidatorExtraParams := some [] }
              else slot4
            .ok slot5

/-- Lines 30 to 89: the `range` loop over `paramsObj.Participants`, started at
index `idx`. It returns at the first iteration that fails; otherwise it yields
the participant list with every slot rewritten. -/
def rangeParticipants (d : PackageDecls) :
    Nat → List ParticipantParams → Except StackError (List ParticipantParams)
  | _, [] => .ok []
  | idx, participant :: rest =>
    match rangeBody d idx participant with
    | .error e => .error e
    | .ok slot =>
      match rangeParticipants d (idx + 1) rest with
      | .error e => .error e
      | .ok slots => .ok (slot :: slots)

/-- Line 132 and 133: `hasNethermindAsBootnodeOrSecondNode`. -/
def hasNethermindAsBootnodeOrSecondNode (d : PackageDecls)
    (participantParams : List ParticipantParams) : Bool :=
  (decide (participantParams.length ≥ 1) &&
      (participantParams.get? 0).any
        (fun p => decide (p.ELClientType = d.ParticipantELClientType_Nethermind))) ||
    (decide (participantParams.length ≥ 2) &&
      (participantParams.get? 1).any
        (fun p => decide (p.ELClientType = d.ParticipantELClientType_Nethermind)))

/-- Lines 22 to 140: everything `DeserializeAndValidateParams` does with the
decoded `paramsObj`. -/
def validateParamsObj (d : PackageDecls) (paramsObj : ExecuteParams) : Outcome :=
  if paramsObj.ClientLogLevel ∉ d.validGlobalClientLogLevels then
    ⟨[], .error (errLogLevel paramsObj.ClientLogLevel)⟩
  else if paramsObj.Participants.length = 0 then
    ⟨[], .error errNoParticipants⟩
  else
    match rangeParticipants d 0 paramsObj.Participants with
    | .error e => ⟨[], .error e⟩
    | .ok slots =>
      let paramsObj : ExecuteParams := { paramsObj with Participants := slots }
      let networkParams := paramsObj.Network
      if goLen (stringsTrimSpace networkParams.NetworkID) = 0 then
        ⟨[], .error errNetworkID⟩
      else if goLen (stringsTrimSpace networkParams.PremineAccountMnemonic) = 0 then
        ⟨[], .error errAccountMnemonic⟩
      else if goLen (stringsTrimSpace networkParams.DepositContractAddress) = 0 then
        ⟨[], .error errDepositContract⟩
      else if networkParams.SecondsPerSlot = 0 then
        ⟨[], .error errSecondsPerSlot⟩
      else
        let log1 : List String :=
          if networkParams.SecondsPerSlot ≠ expectedSecondsPerSlot then
            [warnSecondsPerSlot networkParams.SecondsPerSlot]
          else []
        if networkParams.SlotsPerEpoch = 0 then
          ⟨log1, .error errSlotsPerEpoch⟩
        else
          let log2 : List String :=
            if networkParams.SlotsPerEpoch ≠ expectedSlotsPerEpoch then
              log1 ++ [warnSlotsPerEpoch networkParams.SlotsPerEpoch]
            else log1
          let requiredNumValidators := (2 * networkParams.SlotsPerEpoch) % uint32Modulus
          let actualNumValidators :=
            ((paramsObj.Participants.length % uint32Modulus) *
              networkParams.NumValidatorKeysPerNode) % uint32Modulus
          if actualNumValidators < requiredNumValidators then
            ⟨log2, .error (errNumValidators requiredNumValidators actualNumValidators)⟩
          else if goLen (stringsTrimSpace networkParams.PreregisteredValidatorKeysMnemonic) = 0 then
            ⟨log2, .error errValidatorMnemonic⟩
          else
            let participantParams := paramsObj.Participants
            if hasNethermindAsBootnodeOrSecondNode d participantParams then
              ⟨log2, .error errNethermindPeering⟩
            else
              ⟨log2, .ok paramsObj⟩

/-- Lines 16 to 141. -/
def DeserializeAndValidateParams (d : PackageDecls) (paramsStr : String) : Outcome :=
  match d.yamlUnmarshal paramsStr d.GetDefaultExecuteParams with
  | .error err => ⟨[], .error (errDeserializing err)⟩
  | .ok paramsObj => validateParamsObj d paramsObj

/-! ## Predicates and functions used to state the properties -/

/-- The value the loop body leaves in a slot when the iteration passes all its
checks: images resolved through the default tables, `nil` lists made empty. It
is used to state what `rangeBody` computes. -/
def normalizeParticipant (d : PackageDecls) (p : ParticipantParams) : ParticipantParams :=
  { ELClientType := p.ELClientType
    ELClientImage :=
      if p.ELClientImage = d.useDefaultElImageKeyword then
        (d.defaultElImages.lookup p.ELClientType).getD p.ELClientImage
      else p.ELClientImage
    ELExtraParams := some (p.ELExtraParams.getD [])
    CLClientType := p.CLClientType
    CLClientImage :=
      if p.CLClientImage = d.useDefaultClImageKeyword then
        (d.defaultClImages.lookup p.CLClientType).getD p.CLClientImage
      else p.CLClientImage
    BeaconExtraParams := some (p.BeaconExtraParams.getD [])
    ValidatorExtraParams := some (p.ValidatorExtraParams.getD []) }

/-- The checks of one loop iteration, in the order the source makes them. -/
def bodyChecksPass (d : PackageDecls) (idx : Nat) (p : ParticipantParams) : Prop :=
  ¬ (idx = 0 ∧ (p.ELClientType = d.ParticipantELClientType_Nethermind ∨
      p.ELClientType = d.ParticipantELClientType_Besu)) ∧
  p.ELClientType ∈ d.validParticipantELClientTypes ∧
  (p.ELClientImage = d.useDefaultElImageKeyword →
      (d.defaultElImages.lookup p.ELClientType).isSome) ∧
  p.CLClientType ∈ d.validParticipantCLClientTypes ∧
  (p.CLClientImage = d.useDefaultClImageKeyword →
      (d.defaultClImages.lookup p.CLClientType).isSome)

instance (d : PackageDecls) (idx : Nat) (p : ParticipantParams) :
    Decidable (bodyChecksPass d idx p) := by
  unfold bodyChecksPass; infer_instance

/-- Go `len(strings.TrimSpace(s)) == 0`. -/
def isBlank (s : String) : Prop := goLen (stringsTrimSpace s) = 0

instance (s : String) : Decidable (isBlank s) := by unfold isBlank; infer_instance

/-- The `uint32` value of `requiredNumValidators` at line 117. -/
def requiredNumValidators (networkParams : NetworkParams) : Nat :=
  (2 * networkParams.SlotsPerEpoch) % uint32Modulus

/-- The `uint32` value of `actualNumValidators` at line 118. -/
def actualNumValidators (numParticipants : Nat) (networkParams : NetworkParams) : Nat :=
  ((numParticipants % uint32Modulus) * networkParams.NumValidatorKeysPerNode) % uint32Modulus

/-- Every check of `DeserializeAndValidateParams` on the decoded object, in
source order. -/
def allChecksPass (d : PackageDecls) (o : ExecuteParams) : Prop :=
  o.ClientLogLevel ∈ d.validGlobalClientLogLevels ∧
  o.Participants.length ≠ 0 ∧
  (∀ (i : Nat) (h : i < o.Participants.length),
      bodyChecksPass d i (o.Participants.get ⟨i, h⟩)) ∧
  ¬ isBlank o.Network.NetworkID ∧
  ¬ isBlank o.Network.PremineAccountMnemonic ∧
  ¬ isBlank o.Network.DepositContractAddress ∧
  o.Network.SecondsPerSlot ≠ 0 ∧
  o.Network.SlotsPerEpoch ≠ 0 ∧
  ¬ (actualNumValidators o.Participants.length o.Network < requiredNumValidators o.Network) ∧
  ¬ isBlank o.Network.PreregisteredValidatorKeysMnemonic ∧
  hasNethermindAsBootnodeOrSecondNode d o.Participants = false

/-- The object `DeserializeAndValidateParams` returns for an accepted input. -/
def normalizeParams (d : PackageDecls) (o : ExecuteParams) : ExecuteParams :=
  { o with Participants := o.Participants.map (normalizeParticipant d) }

/-- The object with another seconds-per-slot value. -/
def withSecondsPerSlot (v : Nat) (o : ExecuteParams) : ExecuteParams :=
  { o with Network := { o.Network with SecondsPerSlot := v } }

/-- Every check that comes before the Nethermind peering check of line 134. -/
def checksBeforePeering (d : PackageDecls) (o : ExecuteParams) : Prop :=
  o.ClientLogLevel ∈ d.validGlobalClientLogLevels ∧
  o.Participants.length ≠ 0 ∧
  (∀ (i : Nat) (h : i < o.Participants.length),
      bodyChecksPass d i (o.Participants.get ⟨i, h⟩)) ∧
  ¬ isBlank o.Network.NetworkID ∧
  ¬ isBlank o.Network.PremineAccountMnemonic ∧
  ¬ isBlank o.Network.DepositContractAddress ∧
  o.Network.SecondsPerSlot ≠ 0 ∧
  o.Network.SlotsPerEpoch ≠ 0 ∧
  ¬ (actualNumValidators o.Participants.length o.Network < requiredNumValidators o.Network) ∧
  ¬ isBlank o.Network.PreregisteredValidatorKeysMnemonic

/-- Every check other than the validator-count check of line 119. -/
def checksOtherThanValidatorCount (d : PackageDecls) (o : ExecuteParams) : Prop :=
  o.ClientLogLevel ∈ d.validGlobalClientLogLevels ∧
  o.Participants.length ≠ 0 ∧
  (∀ (i : Nat) (h : i < o.Participants.length),
      bodyChecksPass d i (o.Participants.get ⟨i, h⟩)) ∧
  ¬ isBlank o.Network.NetworkID ∧
  ¬ isBlank o.Network.PremineAccountMnemonic ∧
  ¬ isBlank o.Network.DepositContractAddress ∧
  o.Network.SecondsPerSlot ≠ 0 ∧
  o.Network.SlotsPerEpoch ≠ 0 ∧
  ¬ isBlank o.Network.PreregisteredValidatorKeysMnemonic ∧
  hasNethermindAsBootnodeOrSecondNode d o.Participants = false

/-- The participant with EL kind `k` in place of Nethermind. -/
def withoutNethermind (d : PackageDecls) (k : String) (p : ParticipantParams) :
    ParticipantParams :=
  if p.ELClientType = d.ParticipantELClientType_Nethermind then { p with ELClientType := k }
  else p

/-- The document in which the first two participants use EL kind `k` wherever
they declared Nethermind: the document as it would be if the excluded kind
were not used in the excluded positions. -/
def replaceNethermindInFirstTwo (d : PackageDecls) (k : String) (o : ExecuteParams) :
    ExecuteParams :=
  { o with
    Participants :=
      match o.Participants with
      | [] => []
      | [a] => [withoutNethermind d k a]
      | a :: b :: rest => withoutNethermind d k a :: withoutNethermind d k b :: rest }

/-- The loop reaches participant `i`: the log level is recognized and every
participant in front of `i` passes the checks of its iteration. -/
def reachesParticipant (d : PackageDecls) (o : ExecuteParams) (i : Nat) : Prop :=
  o.ClientLogLevel ∈ d.validGlobalClientLogLevels ∧
  ∀ (j : Nat) (h : j < o.Participants.length), j < i →
    bodyChecksPass d j (o.Participants.get ⟨j, h⟩)

instance (d : PackageDecls) (o : ExecuteParams) (i : Nat) :
    Decidable (reachesParticipant d o i) := by
  unfold reachesParticipant; infer_instance

/-- An image after normalization: the table's entry for the kind when the
input was the use-default keyword, the input otherwise. -/
def imageResolved (keyword : String) (defaults : List (String × String))
    (kind input output : String) : Prop :=
  (input = keyword → defaults.lookup kind = some output) ∧ (input ≠ keyword → output = input)

/-- An extra-args list after normalization: not `nil`, empty when the input
was `nil`, the input list otherwise. -/
def argsNormalized (input output : Option (List String)) : Prop :=
  output ≠ none ∧ (input = none → output = some []) ∧
    (∀ l : List String, input = some l → output = some l)

/-! ## Concrete tables and documents -/

/-- A stand-in for the YAML decoder on a finite set of documents: each listed
text decodes to the object listed with it, the empty text leaves the defaults
as they are, and every other text is a decoding error. -/
def tableUnmarshal (table : List (String × ExecuteParams)) (paramsStr : String)
    (paramsObj : ExecuteParams) : Except String ExecuteParams :=
  if paramsStr = "" then .ok paramsObj
  else
    match table.lookup paramsStr with
    | some decoded => .ok decoded
    | none => .error "yaml: unmarshal errors"

/-- A participant with images and extra-args lists left unset. -/
def plainParticipant (elClientType clClientType : String) : ParticipantParams :=
  { ELClientType := elClientType
    ELClientImage := ""
    ELExtraParams := none
    CLClientType := clClientType
    CLClientImage := ""
    BeaconExtraParams := none
    ValidatorExtraParams := none }

def sampleNetwork : NetworkParams :=
  { NetworkID := "3151908"
    PremineAccountMnemonic := "giant issue aisle"
    DepositContractAddress := "0x4242"
    SecondsPerSlot := 12
    SlotsPerEpoch := 32
    NumValidatorKeysPerNode := 64
    PreregisteredValidatorKeysMnemonic := "success illegal bike" }

def sampleDefaults : ExecuteParams :=
  { Participants := [plainParticipant "geth" "lighthouse"]
    Network := sampleNetwork
    ClientLogLevel := "info" }

/-- One participant, 2^31 slots per epoch, one key per node. -/
def objWrap : ExecuteParams :=
  { sampleDefaults with
    Network := { sampleNetwork with SlotsPerEpoch := 2147483648, NumValidatorKeysPerNode := 1 } }

/-- Nethermind as the first participant, Geth after it. -/
def objNethermindFirst : ExecuteParams :=
  { sampleDefaults with
    Participants := [plainParticipant "nethermind" "lighthouse", plainParticipant "geth" "teku"] }

/-- Nethermind as the second participant, and again as the third. -/
def objNethermindSecond : ExecuteParams :=
  { sampleDefaults with
    Participants := [plainParticipant "geth" "lighthouse", plainParticipant "nethermind" "teku",
      plainParticipant "nethermind" "lighthouse"] }

/-- Besu as the first participant, an unknown CL kind, a blank network id and
no validator keys. -/
def objBesuFirst : ExecuteParams :=
  { Participants := [plainParticipant "besu" "no-such-client"]
    Network := { sampleNetwork with NetworkID := "  ", NumValidatorKeysPerNode := 0 }
    ClientLogLevel := "info" }

/-- A participant with an EL extra-args list and an explicit CL image, the EL
image and the beacon extra-args list left unset, the validator list empty. -/
def argsParticipant : ParticipantParams :=
  { ELClientType := "geth"
    ELClientImage := ""
    ELExtraParams := some ["--syncmode=full"]
    CLClientType := "lighthouse"
    CLClientImage := "sigp/lighthouse:v3"
    BeaconExtraParams := none
    ValidatorExtraParams := some [] }

def objArgs : ExecuteParams :=
  { sampleDefaults with Participants := [argsParticipant] }

/-- Besu alone, with a known CL kind and unset images. -/
def objBesuOnly : ExecuteParams :=
  { sampleDefaults with Participants := [plainParticipant "besu" "lighthouse"] }

/-- Besu alone, with a CL kind that is not in the valid set. -/
def objBesuUnknownCL : ExecuteParams :=
  { sampleDefaults with Participants := [plainParticipant "besu" "no-such-client"] }

/-- Besu as the second participant, with unset images. -/
def objGethBesu : ExecuteParams :=
  { sampleDefaults with
    Participants := [plainParticipant "geth" "lighthouse", plainParticipant "besu" "teku"] }

/-- An EL kind that is not in the valid set, as the second participant. -/
def objUnknownEL : ExecuteParams :=
  { sampleDefaults with
    Participants := [plainParticipant "geth" "lighthouse", plainParticipant "no-such-el" "teku"] }

/-- No participants, everything else as in the defaults. -/
def objNoParticipants : ExecuteParams :=
  { sampleDefaults with Participants := [] }

/-- A network id of two spaces and a tab. -/
def objBlankNetworkID : ExecuteParams :=
  { sampleDefaults with Network := { sampleNetwork with NetworkID := "  \t" } }

def sampleTable : List (String × ExecuteParams) :=
  [("network: wrap", objWrap),
   ("participants: nethermind, geth", objNethermindFirst),
   ("participants: geth, nethermind, nethermind", objNethermindSecond),
   ("participants: besu", objBesuFirst),
   ("participants: geth with args", objArgs),
   ("participants: besu/lighthouse", objBesuOnly),
   ("participants: besu/no-such-client", objBesuUnknownCL),
   ("participants: geth, besu", objGethBesu),
   ("participants: geth, no-such-el", objUnknownEL),
   ("participants: none", objNoParticipants),
   ("network: blank id", objBlankNetworkID),
   ("network: 0 seconds per slot", withSecondsPerSlot 0 sampleDefaults),
   ("network: 1 second per slot", withSecondsPerSlot 1 objArgs)]

/-- An instance of the package-level declarations: three EL kinds and two CL
kinds, each with a default image, and the empty string as use-default keyword. -/
def sampleDecls : PackageDecls :=
  { GetDefaultExecuteParams := sampleDefaults
    yamlUnmarshal := tableUnmarshal sampleTable
    validGlobalClientLogLevels := ["error", "warn", "info", "debug", "trace"]
    ParticipantELClientType_Nethermind := "nethermind"
    ParticipantELClientType_Besu := "besu"
    validParticipantELClientTypes := ["geth", "nethermind", "besu"]
    validParticipantCLClientTypes := ["lighthouse", "teku"]
    defaultElImages :=
      [("geth", "ethereum/client-go"), ("nethermind", "nethermind/nethermind"),
        ("besu", "hyperledger/besu")]
    defaultClImages := [("lighthouse", "sigp/lighthouse"), ("teku", "consensys/teku")]
    useDefaultElImageKeyword := ""
    useDefaultClImageKeyword := "" }

/-- The sample declarations with no default EL image for Besu. -/
def gapDecls : PackageDecls :=
  { sampleDecls with
    defaultElImages :=
      [("geth", "ethereum/client-go"), ("nethermind", "nethermind/nethermind")] }

/-- Three participants and 32 slots per epoch, with the given number of keys
per node. -/
def objThree (keysPerNode : Nat) : ExecuteParams :=
  { Participants := [plainParticipant "geth" "lighthouse", plainParticipant "geth" "teku",
      plainParticipant "besu" "teku"]
    Network := { sampleNetwork with NumValidatorKeysPerNode := keysPerNode }
    ClientLogLevel := "info" }

end ParamsDeserializer

/-!
# The launch orchestration: genesis generation, the Lighthouse launcher, Prometheus

The container runtime (the Kurtosis enclave API), the REST client of a beacon
node and the clock are collaborators outside the sources. They are a
`Runtime`: each primitive maps the state of the outside world and its
arguments to a response and a new state. A run of the embedded code is the
value it returns together with the list of primitive calls it made, each with
the response it got, in order.
-/

namespace Kurtosis

/-! ## Errors, services and the runtime -/

/-- An error value as the `stacktrace` package builds it: `NewError` carries
the formatted message, `Propagate` wraps a cause in a message. `external` is
an error returned by a collaborator outside the sources. -/
inductive TracedError where
  | external (text : String)
  | newError (msg : String)
  | propagate (cause : TracedError) (msg : String)
  deriving DecidableEq, Repr

/-- The messages of an error, outermost first. -/
def TracedError.messages : TracedError → List String
  | .external text => [text]
  | .newError msg => [msg]
  | .propagate cause msg => msg :: cause.messages

inductive PortProtocol where
  | TCP
  | UDP
  deriving DecidableEq, Repr

/-- Modelled from the spec: `services.PortSpec` of the Kurtosis SDK, a port
number (`uint16`) and a protocol. -/
structure PortSpec where
  number : Nat
  protocol : PortProtocol
  deriving DecidableEq, Repr

/-- Modelled from the spec: what `services.NewContainerConfigBuilder(image)`
builds, one field per `With...` call the sources make; a Go map is the list of
its entries. -/
structure ContainerConfig where
  image : String
  usedPorts : List (String × PortSpec) := []
  cmdOverride : List String := []
  entrypointOverride : List String := []
  files : List (String × String) := []
  environmentVariableOverrides : List (String × String) := []
  privateIPAddrPlaceholder : String := ""
  deriving DecidableEq, Repr

/-- Modelled from the spec: `services.ServiceContext`, a running service with
its id, private address and declared ports. -/
structure ServiceContext where
  serviceID : String
  privateIPAddress : String
  privatePorts : List (String × PortSpec)
  deriving DecidableEq, Repr

/-- The struct `clGenesisConfigTemplateData` of `cl_genesis_data_generator.go`. -/
structure clGenesisConfigTemplateData where
  NetworkId : String
  SecondsPerSlot : Nat
  UnixTimestamp : Nat
  TotalTerminalDifficulty : Nat
  AltairForkEpoch : Nat
  MergeForkEpoch : Nat
  NumValidatorKeysToPreregister : Nat
  PreregisteredValidatorKeysMnemonic : String
  DepositContractAddress : String
  deriving DecidableEq, Repr

/-- Modelled from the spec: `cl.CLNodeMetricsInfo`, a metrics endpoint (node
label, URL path, address), built by `cl.NewCLNodeMetricsInfo`. -/
structure CLNodeMetricsInfo where
  name : String
  path : String
  url : String
  deriving DecidableEq, Repr

/-- The struct `configTemplateData` of `prometheus_launcher.go`. -/
structure configTemplateData where
  CLNodesMetricsInfo : List CLNodeMetricsInfo
  deriving DecidableEq, Repr

/-- The data given to a template: one case per template-data struct of the
sources. -/
inductive TemplateData where
  | clGenesis (data : clGenesisConfigTemplateData)
  | prometheus (data : configTemplateData)
  deriving DecidableEq, Repr

/-- The value of `enclaves.NewTemplateAndData(template, data)`. -/
structure TemplateAndData where
  template : String
  data : TemplateData
  deriving DecidableEq, Repr

/-- The value of `cl_client_rest_client.NewCLClientRESTClient(ipAddr, portNum)`. -/
structure CLClientRESTClient where
  ipAddr : String
  portNum : Nat
  deriving DecidableEq, Repr

/-- Modelled from the spec: the node identity the beacon API reports; the
sources read its `ENR`. -/
structure NodeIdentity where
  ENR : String
  deriving DecidableEq, Repr

/-- One call of a runtime primitive, with its arguments and the response. -/
inductive Event where
  | renderTemplates (files : List (String × TemplateAndData)) (res : Except String String)
  | addService (serviceId : String) (config : ContainerConfig)
      (res : Except String ServiceContext)
  | execCommand (serviceId : String) (cmd : List String) (res : Except String (Int × String))
  | storeServiceFiles (serviceId : String) (dirpath : String) (res : Except String String)
  | removeService (serviceId : String) (res : Option String)
  | waitForBeaconClientAvailability (client : CLClientRESTClient) (numRetries : Nat)
      (secondsBetweenRetries : Nat) (res : Option String)
  | getNodeIdentity (client : CLClientRESTClient) (res : Except String NodeIdentity)

/-- The collaborators outside the sources, over a world state `σ`. A response
`Except String _` is `(value, nil)` or `(_, err)`; `Option String` is an
`error` that may be `nil`. -/
structure Runtime (σ : Type) where
  RenderTemplates : σ → List (String × TemplateAndData) → Except String String × σ
  AddService : σ → String → ContainerConfig → Except String ServiceContext × σ
  ExecCommand : σ → String → List String → Except String (Int × String) × σ
  StoreServiceFiles : σ → String → String → Except String String × σ
  RemoveService : σ → String → Option String × σ
  WaitForBeaconClientAvailability : σ → CLClientRESTClient → Nat → Nat → Option String × σ
  GetNodeIdentity : σ → CLClientRESTClient → Except String NodeIdentity × σ
  /-- `time.Now().Unix()`. -/
  timeNowUnix : σ → Int

/-- An intermediate result: a value, the calls made to get it, the world after. -/
structure Step (σ α : Type) where
  val : α
  events : List Event
  world : σ

/-- A finished run: the returned pair, the calls it made in order, the
`logrus.Warnf` lines it wrote, and the world after. -/
structure Run (σ α : Type) where
  ret : Except TracedError α
  events : List Event
  warnings : List String
  world : σ

/-- A Go map literal or a sequence of map assignments: a later entry replaces
an earlier one with the same key. -/
def goMapOf {β : Type} : List (String × β) → List (String × β)
  | [] => []
  | (k, v) :: rest => (k, v) :: (goMapOf rest).filter (fun e => e.1 != k)

/-- Go map semantics applied to entries written in source order. -/
def goMap {β : Type} (entries : List (String × β)) : List (String × β) :=
  (goMapOf entries.reverse).reverse

/-- The order in which a `range` over a map visits its entries is not fixed
by Go; `reversed` picks between the two orders of a map of at most two
entries. -/
def goRange {β : Type} (reversed : Bool) (m : List (String × β)) : List (String × β) :=
  if reversed then m.reverse else m

/-- The verbs `%v` and `%+v` applied to a `[]string`. -/
def fmtStrings (l : List String) : String :=
  "[" ++ String.intercalate " " l ++ "]"

/-! ## The Go package `path` -/

/-- The pieces of a path between its slashes, as `strings.Split(p, "/")`. -/
def splitSlash : List Char → List (List Char)
  | [] => [[]]
  | c :: cs =>
    if c = '/' then [] :: splitSlash cs
    else
      match splitSlash cs with
      | [] => [[c]]
      | piece :: pieces => (c :: piece) :: pieces

/-- One step of `path.Clean` on the elements kept so far (last one first):
an empty element and `.` are dropped, `..` removes the element before it, is
dropped at the root, and is kept at the start of a relative path. -/
def cleanStep (rooted : Bool) (kept : List (List Char)) (piece : List Char) :
    List (List Char) :=
  if piece = [] ∨ piece = ['.'] then kept
  else if piece = ['.', '.'] then
    match kept with
    | [] => if rooted then [] else [piece]
    | top :: below => if top = ['.', '.'] then piece :: kept else below
  else piece :: kept

/-- The kept elements written with a slash between them. -/
def joinSlash : List (List Char) → List Char
  | [] => []
  | [a] => a
  | a :: b :: rest => a ++ '/' :: joinSlash (b :: rest)

/-- Go `path.Clean`: the shortest path equivalent to `p` by lexical
processing. -/
def pathClean (p : String) : String :=
  let rooted : Bool := p.data.head? = some '/'
  let kept := ((splitSlash p.data).foldl (cleanStep rooted) []).reverse
  let body := joinSlash kept
  let out := if rooted then '/' :: body else body
  if out = [] then "." else String.mk out

/-- The loop of `path.Join`: elements are appended with a slash between
them, empty elements in front of the first non-empty one are skipped. -/
def joinBuf : List Char → List String → List Char
  | buf, [] => buf
  | buf, e :: rest =>
    if buf ≠ [] ∨ e ≠ "" then
      joinBuf ((if buf ≠ [] then buf ++ ['/'] else buf) ++ e.data) rest
    else joinBuf buf rest

/-- Go `path.Join`. -/
def pathJoin (elem : List String) : String :=
  if (elem.map String.length).sum = 0 then ""
  else pathClean (String.mk (joinBuf [] elem))

/-- A path without its trailing slashes. -/
def stripTrailingSlashes (p : List Char) : List Char :=
  (p.reverse.dropWhile (fun c => c = '/')).reverse

/-- The part of a path after its last slash (the whole path if it has none). -/
def afterLastSlash (p : List Char) : List Char :=
  (p.reverse.takeWhile (fun c => c ≠ '/')).reverse

/-- Go `path.Base`: the last element of the path. -/
def pathBase (p : String) : String :=
  if p = "" then "."
  else
    let last := afterLastSlash (stripTrailingSlashes p.data)
    if last = [] then "/" else String.mk last

/-- Go `path.Dir`: all but the last element of the path, cleaned. -/
def pathDir (p : String) : String :=
  pathClean (String.mk (p.data.reverse.dropWhile (fun c => c ≠ '/')).reverse)

end Kurtosis

namespace PrelaunchDataGenerator

open Kurtosis

/-! ## `prelaunch_data_generator_launcher.go` -/

def image : String := "skylenet/ethereum-genesis-generator:latest"

def serviceIdPrefix : String := "prelaunch-data-generator-"

def entrypointArgs : List String := ["sleep", "999999"]

/-- The supplier built by `getContainerConfigSupplier`; it does not use the
address it is given. -/
def getContainerConfigSupplier (filesArtifactMountpoints : List (String × String))
    (_privateIpAddr : String) : ContainerConfig :=
  { image := image
    entrypointOverride := entrypointArgs
    files := filesArtifactMountpoints }

/-- `LaunchPrelaunchDataGenerator`. The runtime is handed the container
config the supplier yields. -/
def LaunchPrelaunchDataGenerator {σ : Type} (rt : Runtime σ)
    (filesArtifactMountpoints : List (String × String)) (w : σ) :
    Step σ (Except TracedError ServiceContext) :=
  let containerConfigSupplier := getContainerConfigSupplier filesArtifactMountpoints
  let serviceId := serviceIdPrefix ++ toString (rt.timeNowUnix w)
  let r := rt.AddService w serviceId (containerConfigSupplier "")
  let events := [Event.addService serviceId (containerConfigSupplier "") r.1]
  match r.1 with
  | .error err =>
    ⟨.error (.propagate (.external err)
      ("An error occurred launching the prelaunch data generator container with service ID '" ++
        serviceIdPrefix ++ "'")), events, r.2⟩
  | .ok serviceCtx => ⟨.ok serviceCtx, events, r.2⟩

end PrelaunchDataGenerator

namespace CLGenesis

open Kurtosis

/-! ## `cl_genesis_data_generator.go` -/

/-- Modelled from the spec: `el_genesis.ELGenesisData`, declared outside the
sources; the three values `GenerateCLGenesisData` reads through its getters. -/
structure ELGenesisData where
  filesArtifactUUID : String
  jwtSecretRelativeFilepath : String
  gethGenesisJsonRelativeFilepath : String
  deriving DecidableEq, Repr

/-- Modelled from the spec: `CLGenesisData`, declared outside the sources: an
artifact handle and the relative paths of the JWT secret, the genesis config
and the genesis state, in the order `newCLGenesisData` takes them. -/
structure CLGenesisData where
  filesArtifactUUID : String
  jwtSecretRelativeFilepath : String
  configYMLRelativeFilepath : String
  genesisSSZRelativeFilepath : String
  deriving DecidableEq, Repr

def newCLGenesisData (filesArtifactUUID jwtSecretRelativeFilepath configYMLRelativeFilepath
    genesisSSZRelativeFilepath : String) : CLGenesisData :=
  ⟨filesArtifactUUID, jwtSecretRelativeFilepath, configYMLRelativeFilepath,
    genesisSSZRelativeFilepath⟩

def elGenesisDirpathOnGenerator : String := "/el-genesis"

def configDirpathOnGenerator : String := "/config"

def genesisConfigYmlFilename : String := "config.yaml"

def mnemonicsYmlFilename : String := "mnemonics.yaml"

def outputDirpathOnGenerator : String := "/output"

def tranchesDiranme : String := "tranches"

def genesisStateFilename : String := "genesis.ssz"

def deployBlockFilename : String := "deploy_block.txt"

def depositContractFilename : String := "deposit_contract.txt"

def clGenesisGenerationBinaryFilepathOnContainer : String := "/usr/local/bin/eth2-testnet-genesis"

def deployBlock : String := "0"

def successfulExecCmdExitCode : Int := 0

/-- Lines 228 to 247: `execCommand`. -/
def execCommand {σ : Type} (rt : Runtime σ) (serviceCtx : ServiceContext) (cmd : List String)
    (w : σ) : Step σ (Option TracedError) :=
  let r := rt.ExecCommand w serviceCtx.serviceID cmd
  let events := [Event.execCommand serviceCtx.serviceID cmd r.1]
  match r.1 with
  | .error err =>
    ⟨some (.propagate (.external err)
      ("An error occurred executing command '" ++ fmtStrings cmd ++
        "' on the generator container")), events, r.2⟩
  | .ok (exitCode, output) =>
    if exitCode ≠ successfulExecCmdExitCode then
      ⟨some (.newError ("Command '" ++ fmtStrings cmd ++ "' should have returned " ++
        toString successfulExecCmdExitCode ++ " but returned " ++ toString exitCode ++
        " with the following output:\n" ++ output)), events, r.2⟩
    else ⟨none, events, r.2⟩

/-- Lines 135 to 149: the loop that copies files to the output directory. -/
def copyLoop {σ : Type} (rt : Runtime σ) (serviceCtx : ServiceContext) :
    List String → σ → Step σ (Option TracedError)
  | [], w => ⟨none, [], w⟩
  | filepathOnGenerator :: rest, w =>
    let cmd := ["cp", filepathOnGenerator, outputDirpathOnGenerator]
    let s := execCommand rt serviceCtx cmd w
    match s.val with
    | some err =>
      ⟨some (.propagate err ("An error occurred executing command '" ++ fmtStrings cmd ++
        "' to copy a file to CL genesis output directory '" ++ outputDirpathOnGenerator ++
        "'")), s.events, s.world⟩
    | none =>
      let t := copyLoop rt serviceCtx rest s.world
      ⟨t.val, s.events ++ t.events, t.world⟩

/-- The command of lines 158 to 166 that writes `content` to `destFilename`
in the output directory. -/
def writeCmd (content destFilename : String) : List String :=
  ["sh", "-c", "echo " ++ content ++ " > " ++ pathJoin [outputDirpathOnGenerator, destFilename]]

/-- Lines 156 to 176: the loop over `contentToWriteToOutputFilename`, given
the entries in the order the `range` visits them. -/
def writeLoop {σ : Type} (rt : Runtime σ) (serviceCtx : ServiceContext) :
    List (String × String) → σ → Step σ (Option TracedError)
  | [], w => ⟨none, [], w⟩
  | (content, destFilename) :: rest, w =>
    let destFilepath := pathJoin [outputDirpathOnGenerator, destFilename]
    let cmd := writeCmd content destFilename
    let s := execCommand rt serviceCtx cmd w
    match s.val with
    | some err =>
      ⟨some (.propagate err ("An error occurred executing command '" ++ fmtStrings cmd ++
        "' to write content '" ++ content ++ "' to file '" ++ destFilepath ++ "'")),
        s.events, s.world⟩
    | none =>
      let t := writeLoop rt serviceCtx rest s.world
      ⟨t.val, s.events ++ t.events, t.world⟩

/-- Lines 104 to 119: the directory creation command. -/
def dirCreationCmd : List String :=
  let allDirpathsToCreateOnGenerator := [configDirpathOnGenerator, outputDirpathOnGenerator]
  let allDirpathCreationCommands :=
    allDirpathsToCreateOnGenerator.map (fun dirpath => "mkdir -p " ++ dirpath)
  ["bash", "-c", String.intercalate " && " allDirpathCreationCommands]

/-- Lines 129 to 133: `allFilepathsToCopyToOuptutDirectory`. -/
def allFilepathsToCopyToOuptutDirectory (elGenesisData : ELGenesisData) : List String :=
  [pathJoin [configDirpathOnGenerator, genesisConfigYmlFilename],
   pathJoin [configDirpathOnGenerator, mnemonicsYmlFilename],
   pathJoin [elGenesisDirpathOnGenerator, elGenesisData.jwtSecretRelativeFilepath]]

/-- Lines 152 to 155: the map `contentToWriteToOutputFilename`, keyed by the
content to write. -/
def contentToWriteToOutputFilename (depositContractAddress : String) : List (String × String) :=
  goMap [(deployBlock, deployBlockFilename), (depositContractAddress, depositContractFilename)]

/-- Lines 178 to 186: `clGenesisGenerationCmdArgs`. -/
def clGenesisGenerationCmdArgs (elGenesisData : ELGenesisData) : List String :=
  [clGenesisGenerationBinaryFilepathOnContainer,
   "merge",
   "--config", pathJoin [outputDirpathOnGenerator, genesisConfigYmlFilename],
   "--mnemonics", pathJoin [outputDirpathOnGenerator, mnemonicsYmlFilename],
   "--eth1-config",
   pathJoin [elGenesisDirpathOnGenerator, elGenesisData.gethGenesisJsonRelativeFilepath],
   "--tranches-dir", pathJoin [outputDirpathOnGenerator, tranchesDiranme],
   "--state-output", pathJoin [outputDirpathOnGenerator, genesisStateFilename]]

/-- Lines 206 to 223: the value returned on success. -/
def resultFor (elGenesisData : ELGenesisData) (clGenesisDataArtifactUuid : String) :
    CLGenesisData :=
  let jwtSecretRelFilepath :=
    pathJoin [pathBase outputDirpathOnGenerator, pathBase elGenesisData.jwtSecretRelativeFilepath]
  let genesisConfigRelFilepath :=
    pathJoin [pathBase outputDirpathOnGenerator, genesisConfigYmlFilename]
  let genesisSszRelFilepath := pathJoin [pathBase outputDirpathOnGenerator, genesisStateFilename]
  newCLGenesisData clGenesisDataArtifactUuid jwtSecretRelFilepath genesisConfigRelFilepath
    genesisSszRelFilepath

/-- Lines 104 to 225: what `GenerateCLGenesisData` does on the launched
generator service, up to its `return`. `rangeReversed` fixes the order of the
`range` over `contentToWriteToOutputFilename`. -/
def generateOnService {σ : Type} (rt : Runtime σ) (rangeReversed : Bool)
    (elGenesisData : ELGenesisData) (depositContractAddress : String)
    (serviceCtx : ServiceContext) (w : σ) : Step σ (Except TracedError CLGenesisData) :=
  let s1 := execCommand rt serviceCtx dirCreationCmd w
  match s1.val with
  | some err =>
    ⟨.error (.propagate err ("An error occurred executing dir creation command '" ++
      fmtStrings dirCreationCmd ++ "' on the generator container")), s1.events, s1.world⟩
  | none =>
    let s2 := copyLoop rt serviceCtx (allFilepathsToCopyToOuptutDirectory elGenesisData) s1.world
    match s2.val with
    | some err => ⟨.error err, s1.events ++ s2.events, s2.world⟩
    | none =>
      let s3 := writeLoop rt serviceCtx
        (goRange rangeReversed (contentToWriteToOutputFilename depositContractAddress)) s2.world
      match s3.val with
      | some err => ⟨.error err, s1.events ++ s2.events ++ s3.events, s3.world⟩
      | none =>
        let s4 := execCommand rt serviceCtx (clGenesisGenerationCmdArgs elGenesisData) s3.world
        match s4.val with
        | some err =>
          ⟨.error (.propagate err ("An error occurred executing command '" ++
            fmtStrings (clGenesisGenerationCmdArgs elGenesisData) ++
            "' to generate CL genesis data in directory '" ++ outputDirpathOnGenerator ++ "'")),
            s1.events ++ s2.events ++ s3.events ++ s4.events, s4.world⟩
        | none =>
          let r := rt.StoreServiceFiles s4.world serviceCtx.serviceID outputDirpathOnGenerator
          let events := s1.events ++ s2.events ++ s3.events ++ s4.events ++
            [Event.storeServiceFiles serviceCtx.serviceID outputDirpathOnGenerator r.1]
          match r.1 with
          | .error err =>
            ⟨.error (.propagate (.external err) ("An error occurred storing the CL genesis files at '" ++
              outputDirpathOnGenerator ++ "' in service '" ++ serviceCtx.serviceID ++ "'")),
              events, r.2⟩
          | .ok clGenesisDataArtifactUuid =>
            ⟨.ok (resultFor elGenesisData clGenesisDataArtifactUuid), events, r.2⟩

/-- Lines 97 to 102: the deferred removal of the generator service. -/
def removeGenerator {σ : Type} (rt : Runtime σ) (serviceCtx : ServiceContext) (w : σ) :
    Step σ (List String) :=
  let serviceId := serviceCtx.serviceID
  let r := rt.RemoveService w serviceId
  let events := [Event.removeService serviceId r.1]
  match r.1 with
  | some err =>
    ⟨["Tried to remove prelaunch data generator service '" ++ serviceId ++
      "', but doing so threw an error:\n" ++ err], events, r.2⟩
  | none => ⟨[], events, r.2⟩

/-- `GenerateCLGenesisData`. -/
def GenerateCLGenesisData {σ : Type} (rt : Runtime σ) (rangeReversed : Bool)
    (genesisGenerationConfigYmlTemplate genesisGenerationMnemonicsYmlTemplate : String)
    (elGenesisData : ELGenesisData) (genesisUnixTimestamp : Nat) (networkId : String)
    (depositContractAddress : String) (secondsPerSlot : Nat)
    (preregisteredValidatorKeysMnemonic : String) (totalNumValidatorKeysToPreregister : Nat)
    (w : σ) : Run σ CLGenesisData :=
  let templateData : clGenesisConfigTemplateData :=
    { NetworkId := networkId
      SecondsPerSlot := secondsPerSlot
      UnixTimestamp := genesisUnixTimestamp
      TotalTerminalDifficulty := 0
      AltairForkEpoch := 0
      MergeForkEpoch := 0
      NumValidatorKeysToPreregister := totalNumValidatorKeysToPreregister
      PreregisteredValidatorKeysMnemonic := preregisteredValidatorKeysMnemonic
      DepositContractAddress := depositContractAddress }
  let genesisGenerationMnemonicsTemplateAndData : TemplateAndData :=
    ⟨genesisGenerationMnemonicsYmlTemplate, .clGenesis templateData⟩
  let genesisGenerationConfigTemplateAndData : TemplateAndData :=
    ⟨genesisGenerationConfigYmlTemplate, .clGenesis templateData⟩
  let templateAndDataByRelDestFilepath :=
    goMap [(mnemonicsYmlFilename, genesisGenerationMnemonicsTemplateAndData),
      (genesisConfigYmlFilename, genesisGenerationConfigTemplateAndData)]
  let r := rt.RenderTemplates w templateAndDataByRelDestFilepath
  let ev1 := [Event.renderTemplates templateAndDataByRelDestFilepath r.1]
  match r.1 with
  | .error err =>
    ⟨.error (.propagate (.external err)
      "An error occurred rendering the CL genesis generation template files"), ev1, [], r.2⟩
  | .ok genesisGenerationConfigArtifactUuid =>
    let launch := PrelaunchDataGenerator.LaunchPrelaunchDataGenerator rt
      (goMap [(genesisGenerationConfigArtifactUuid, configDirpathOnGenerator),
        (elGenesisData.filesArtifactUUID, elGenesisDirpathOnGenerator)]) r.2
    match launch.val with
    | .error err =>
      ⟨.error (.propagate err "An error occurred launching the generator container"),
        ev1 ++ launch.events, [], launch.world⟩
    | .ok serviceCtx =>
      let body := generateOnService rt rangeReversed elGenesisData depositContractAddress
        serviceCtx launch.world
      let removal := removeGenerator rt serviceCtx body.world
      ⟨body.val, ev1 ++ launch.events ++ body.events ++ removal.events, removal.val,
        removal.world⟩

end CLGenesis

namespace Kurtosis

/-! ## Reading a list of calls -/

/-- The call is an in-container command. -/
def Event.isExec : Event → Bool
  | .execCommand _ _ _ => true
  | _ => false

/-- The call is an in-container command that returned an execution error or a
non-zero exit code. -/
def Event.isFailedExec : Event → Bool
  | .execCommand _ _ (.error _) => true
  | .execCommand _ _ (.ok (exitCode, _)) => decide (exitCode ≠ 0)
  | _ => false

/-- The call is `StoreServiceFiles`. -/
def Event.isStore : Event → Bool
  | .storeServiceFiles _ _ _ => true
  | _ => false

/-- The call is `RemoveService`. -/
def Event.isRemove : Event → Bool
  | .removeService _ _ => true
  | _ => false

/-- The command of an in-container command call. -/
def Event.command? : Event → Option (List String)
  | .execCommand _ cmd _ => some cmd
  | _ => none

/-- The commands issued during a run, in order. -/
def commandsOf (events : List Event) : List (List String) :=
  events.filterMap Event.command?

/-- A runtime over a one-state world in which every primitive succeeds. -/
def okRuntime : Runtime Unit :=
  { RenderTemplates := fun _ _ => (.ok "rendered-artifact", ())
    AddService := fun _ serviceId config =>
      (.ok ⟨serviceId, "172.16.0.2", config.usedPorts⟩, ())
    ExecCommand := fun _ _ _ => (.ok (0, ""), ())
    StoreServiceFiles := fun _ _ _ => (.ok "stored-artifact", ())
    RemoveService := fun _ _ => (none, ())
    WaitForBeaconClientAvailability := fun _ _ _ _ => (none, ())
    GetNodeIdentity := fun _ _ => (.ok ⟨"enr:-sample"⟩, ())
    timeNowUnix := fun _ => 1650000000 }

end Kurtosis

namespace CLGenesis

open Kurtosis

/-- The outcome of a sequence of commands that stops at the first failure:
either no error and every call is a command that succeeded, or an error and
the calls are commands that succeeded followed by one that failed. -/
def CmdTrace (val : Option TracedError) (events : List Event) : Prop :=
  (val = none ∧ ∀ ev ∈ events, ev.isExec = true ∧ ev.isFailedExec = false) ∨
  (val ≠ none ∧ ∃ (front : List Event) (last : Event), events = front ++ [last] ∧
    (∀ ev ∈ front, ev.isExec = true ∧ ev.isFailedExec = false) ∧
    last.isExec = true ∧ last.isFailedExec = true)

/-- A base name that is the name of a file: not `.`, `..` or `/`. -/
def properBase (base : String) : Prop :=
  base ≠ "." ∧ base ≠ ".." ∧ base ≠ "/"

/-- An EL genesis input with a JWT secret file in its output directory. -/
def sampleELGenesis : ELGenesisData :=
  ⟨"el-genesis-artifact", "output/jwtsecret", "output/genesis.json"⟩

/-- An EL genesis input whose JWT secret path is the empty string. -/
def emptyJwtELGenesis : ELGenesisData :=
  ⟨"el-genesis-artifact", "", "output/genesis.json"⟩

/-- A run on `okRuntime` with fixed templates and network parameters. -/
def sampleRun (rangeReversed : Bool) (elGenesisData : ELGenesisData)
    (depositContractAddress : String) : Run Unit CLGenesisData :=
  GenerateCLGenesisData okRuntime rangeReversed "config-template" "mnemonics-template"
    elGenesisData 1650000000 "3151908" depositContractAddress 12 "giant issue aisle" 64 ()

end CLGenesis

namespace Kurtosis

/-- A runtime whose world counts the in-container commands run so far; the
command with number `k` (from 0) exits with code 1, everything else
succeeds. -/
def failAtRuntime (k : Nat) : Runtime Nat :=
  { RenderTemplates := fun w _ => (.ok "rendered-artifact", w)
    AddService := fun w serviceId config =>
      (.ok ⟨serviceId, "172.16.0.2", config.usedPorts⟩, w)
    ExecCommand := fun w _ _ => (if w = k then .ok (1, "failed") else .ok (0, ""), w + 1)
    StoreServiceFiles := fun w _ _ => (.ok "stored-artifact", w)
    RemoveService := fun w _ => (none, w)
    WaitForBeaconClientAvailability := fun w _ _ _ => (none, w)
    GetNodeIdentity := fun w _ => (.ok ⟨"enr:-sample"⟩, w)
    timeNowUnix := fun _ => 1650000000 }

end Kurtosis

namespace CLGenesis

open Kurtosis

/-- A run in which the second copy command (command number 2) fails. -/
def failedCopyRun : Run Nat CLGenesisData :=
  GenerateCLGenesisData (failAtRuntime 2) false "config-template" "mnemonics-template"
    sampleELGenesis 1650000000 "3151908" "0x4242" 12 "giant issue aisle" 64 0

/-- The commands a successful run issues, in order. -/
def commandsOnSuccess (rangeReversed : Bool) (elGenesisData : ELGenesisData)
    (depositContractAddress : String) : List (List String) :=
  [dirCreationCmd] ++
    (allFilepathsToCopyToOuptutDirectory elGenesisData).map
      (fun f => ["cp", f, outputDirpathOnGenerator]) ++
    (goRange rangeReversed (contentToWriteToOutputFilename depositContractAddress)).map
      (fun e => writeCmd e.1 e.2) ++
    [clGenesisGenerationCmdArgs elGenesisData]

end CLGenesis

namespace Lighthouse

open Kurtosis CLGenesis

/-! ## `cl_client_launcher.go` and `lighthouse_launcher.go` -/

/-- Modelled from the spec: `cl.CLClientContext`, declared outside the
sources, with the six values `cl.NewCLClientContext` takes: client name,
ENR, address, HTTP port number, metrics endpoints (a slice that may be
`nil`) and REST client. -/
structure CLClientContext where
  clientName : String
  enr : String
  ipAddr : String
  httpPortNum : Nat
  nodesMetricsInfo : Option (List CLNodeMetricsInfo)
  restClient : CLClientRESTClient
  deriving DecidableEq, Repr

def NewCLClientContext (clientName enr ipAddr : String) (httpPortNum : Nat)
    (nodesMetricsInfo : Option (List CLNodeMetricsInfo)) (restClient : CLClientRESTClient) :
    CLClientContext :=
  ⟨clientName, enr, ipAddr, httpPortNum, nodesMetricsInfo, restClient⟩

def NewCLNodeMetricsInfo (name path url : String) : CLNodeMetricsInfo := ⟨name, path, url⟩

/-- Modelled from the spec: `el.ELClientContext`, declared outside the
sources: address, legacy-RPC port and engine-API port. -/
structure ELClientContext where
  ipAddress : String
  rpcPortNum : Nat
  engineRpcPortNum : Nat
  deriving DecidableEq, Repr

/-- Modelled from the spec: `mev_boost.MEVBoostContext`, declared outside the
sources; `endpoint` is the value of its `Endpoint()` method. -/
structure MEVBoostContext where
  endpoint : String
  deriving DecidableEq, Repr

/-- Modelled from the spec: `cl_validator_keystores.KeystoreFiles`, declared
outside the sources: an artifact handle and the relative directories of the
raw keys and the raw secrets. -/
structure KeystoreFiles where
  FilesArtifactUUID : String
  RawKeysRelativeDirpath : String
  RawSecretsRelativeDirpath : String
  deriving DecidableEq, Repr

/-- Modelled from the spec: the five constants `module_io.GlobalClientLogLevel_*`,
declared outside the sources. -/
structure GlobalClientLogLevels where
  Error : String
  Warn : String
  Info : String
  Debug : String
  Trace : String

structure LighthouseCLClientLauncher where
  genesisData : CLGenesisData
  deriving DecidableEq, Repr

def lighthouseBinaryCommand : String := "lighthouse"

def genesisDataMountpointOnClients : String := "/genesis"

def validatorKeysMountpointOnClients : String := "/validator-keys"

def rustBacktraceEnvvarName : String := "RUST_BACKTRACE"

def rustFullBacktraceKeyword : String := "full"

def consensusDataDirpathOnBeaconServiceContainer : String := "/consensus-data"

def beaconTcpDiscoveryPortID : String := "tcp-discovery"

def beaconUdpDiscoveryPortID : String := "udp-discovery"

def beaconHttpPortID : String := "http"

def beaconMetricsPortID : String := "metrics"

def beaconDiscoveryPortNum : Nat := 9000

def beaconHttpPortNum : Nat := 4000

def beaconMetricsPortNum : Nat := 5054

def maxNumHealthcheckRetries : Nat := 10

/-- `1 * time.Second`, in seconds. -/
def timeBetweenHealthcheckRetries : Nat := 1

def validatingRewardsAccount : String := "0x0000000000000000000000000000000000000000"

def validatorHttpPortID : String := "http"

def validatorMetricsPortID : String := "metrics"

def validatorHttpPortNum : Nat := 5042

def validatorMetricsPortNum : Nat := 5064

def metricsPath : String := "/metrics"

def beaconSuffixServiceId : String := "beacon"

def validatorSuffixServiceId : String := "validator"

def privateIPAddrPlaceholder : String := "KURTOSIS_IP_ADDR_PLACEHOLDER"

def beaconUsedPorts : List (String × PortSpec) :=
  goMap [(beaconTcpDiscoveryPortID, ⟨beaconDiscoveryPortNum, .TCP⟩),
    (beaconUdpDiscoveryPortID, ⟨beaconDiscoveryPortNum, .UDP⟩),
    (beaconHttpPortID, ⟨beaconHttpPortNum, .TCP⟩),
    (beaconMetricsPortID, ⟨beaconMetricsPortNum, .TCP⟩)]

def validatorUsedPorts : List (String × PortSpec) :=
  goMap [(validatorHttpPortID, ⟨validatorHttpPortNum, .TCP⟩),
    (validatorMetricsPortID, ⟨validatorMetricsPortNum, .TCP⟩)]

def lighthouseLogLevels (levels : GlobalClientLogLevels) : List (String × String) :=
  goMap [(levels.Error, "error"), (levels.Warn, "warn"), (levels.Info, "info"),
    (levels.Debug, "debug"), (levels.Trace, "trace")]

/-- Go `len` of a slice that may be `nil`. -/
def sliceLen {α : Type} (s : Option (List α)) : Nat := (s.getD []).length

/-- The elements `append(_, s...)` adds for a slice that may be `nil`. -/
def sliceElems {α : Type} (s : Option (List α)) : List α := s.getD []

/-- Lines 220 to 256 of `getBeaconContainerConfig`: the initial `cmdArgs`. -/
def beaconBaseArgs (launcher : LighthouseCLClientLauncher) (elClientCtx : ELClientContext)
    (logLevel : String) : List String :=
  let elClientRpcUrlStr :=
    "http://" ++ elClientCtx.ipAddress ++ ":" ++ toString elClientCtx.rpcPortNum
  let elClientEngineRpcUrlStr :=
    "http://" ++ elClientCtx.ipAddress ++ ":" ++ toString elClientCtx.engineRpcPortNum
  let genesisConfigParentDirpathOnClient :=
    pathJoin [genesisDataMountpointOnClients, pathDir launcher.genesisData.configYMLRelativeFilepath]
  let jwtSecretFilepath :=
    pathJoin [genesisDataMountpointOnClients, launcher.genesisData.jwtSecretRelativeFilepath]
  [lighthouseBinaryCommand,
   "beacon_node",
   "--debug-level=" ++ logLevel,
   "--datadir=" ++ consensusDataDirpathOnBeaconServiceContainer,
   "--testnet-dir=" ++ genesisConfigParentDirpathOnClient,
   "--eth1",
   "--disable-enr-auto-update",
   "--enr-address=" ++ privateIPAddrPlaceholder,
   "--enr-udp-port=" ++ toString beaconDiscoveryPortNum,
   "--enr-tcp-port=" ++ toString beaconDiscoveryPortNum,
   "--listen-address=0.0.0.0",
   "--port=" ++ toString beaconDiscoveryPortNum,
   "--http",
   "--http-address=0.0.0.0",
   "--http-port=" ++ toString beaconHttpPortNum,
   "--merge",
   "--http-allow-sync-stalled",
   "--disable-packet-filter",
   "--execution-endpoints=" ++ elClientEngineRpcUrlStr,
   "--eth1-endpoints=" ++ elClientRpcUrlStr,
   "--jwt-secrets=" ++ jwtSecretFilepath,
   "--suggested-fee-recipient=" ++ validatingRewardsAccount,
   "--subscribe-all-subnets",
   "--metrics",
   "--metrics-address=0.0.0.0",
   "--metrics-allow-origin=*",
   "--metrics-port=" ++ toString beaconMetricsPortNum]

/-- Lines 220 to 265 of `getBeaconContainerConfig`: the final `cmdArgs`. -/
def beaconCmdArgs (launcher : LighthouseCLClientLauncher)
    (bootClClientCtx : Option CLClientContext) (elClientCtx : ELClientContext)
    (mevBoostContext : Option MEVBoostContext) (logLevel : String)
    (extraParams : Option (List String)) : List String :=
  let cmdArgs := beaconBaseArgs launcher elClientCtx logLevel
  let cmdArgs :=
    match bootClClientCtx with
    | some ctx => cmdArgs ++ ["--boot-nodes=" ++ ctx.enr]
    | none => cmdArgs
  let cmdArgs :=
    match mevBoostContext with
    | some mev => cmdArgs ++ ["--builder", mev.endpoint]
    | none => cmdArgs
  if sliceLen extraParams > 0 then cmdArgs ++ sliceElems extraParams else cmdArgs

/-- `getBeaconContainerConfig`. -/
def getBeaconContainerConfig (launcher : LighthouseCLClientLauncher) (image : String)
    (bootClClientCtx : Option CLClientContext) (elClientCtx : ELClientContext)
    (mevBoostContext : Option MEVBoostContext) (logLevel : String)
    (extraParams : Option (List String)) : ContainerConfig :=
  { image := image
    usedPorts := beaconUsedPorts
    cmdOverride :=
      beaconCmdArgs launcher bootClClientCtx elClientCtx mevBoostContext logLevel extraParams
    files := goMap [(launcher.genesisData.filesArtifactUUID, genesisDataMountpointOnClients)]
    environmentVariableOverrides := goMap [(rustBacktraceEnvvarName, rustFullBacktraceKeyword)]
    privateIPAddrPlaceholder := privateIPAddrPlaceholder }

/-- Lines 295 to 317 of `getValidatorContainerConfig`: the initial `cmdArgs`. -/
def validatorBaseArgs (launcher : LighthouseCLClientLauncher) (logLevel : String)
    (beaconClientHttpUrl : String) (nodeKeystoreFiles : KeystoreFiles) : List String :=
  let genesisConfigParentDirpathOnClient :=
    pathJoin [genesisDataMountpointOnClients, pathDir launcher.genesisData.configYMLRelativeFilepath]
  let validatorKeysDirpath :=
    pathJoin [validatorKeysMountpointOnClients, nodeKeystoreFiles.RawKeysRelativeDirpath]
  let validatorSecretsDirpath :=
    pathJoin [validatorKeysMountpointOnClients, nodeKeystoreFiles.RawSecretsRelativeDirpath]
  ["lighthouse",
   "validator_client",
   "--debug-level=" ++ logLevel,
   "--testnet-dir=" ++ genesisConfigParentDirpathOnClient,
   "--validators-dir=" ++ validatorKeysDirpath,
   "--secrets-dir=" ++ validatorSecretsDirpath,
   "--init-slashing-protection",
   "--http",
   "--unencrypted-http-transport",
   "--http-address=0.0.0.0",
   "--http-port=" ++ toString validatorHttpPortNum,
   "--beacon-nodes=" ++ beaconClientHttpUrl,
   "--enable-doppelganger-protection=false",
   "--metrics",
   "--metrics-address=0.0.0.0",
   "--metrics-allow-origin=*",
   "--metrics-port=" ++ toString validatorMetricsPortNum]

/-- Lines 295 to 323 of `getValidatorContainerConfig`: the final `cmdArgs`. -/
def validatorCmdArgs (launcher : LighthouseCLClientLauncher) (logLevel : String)
    (beaconClientHttpUrl : String) (nodeKeystoreFiles : KeystoreFiles)
    (mevBoostContext : Option MEVBoostContext) (extraParams : Option (List String)) :
    List String :=
  let cmdArgs := validatorBaseArgs launcher logLevel beaconClientHttpUrl nodeKeystoreFiles
  let cmdArgs :=
    match mevBoostContext with
    | some _ => cmdArgs ++ ["--builder-proposals"]
    | none => cmdArgs
  if sliceLen extraParams > 0 then cmdArgs ++ sliceElems extraParams else cmdArgs

/-- `getValidatorContainerConfig`. -/
def getValidatorContainerConfig (launcher : LighthouseCLClientLauncher) (image logLevel : String)
    (beaconClientHttpUrl : String) (nodeKeystoreFiles : KeystoreFiles)
    (mevBoostContext : Option MEVBoostContext) (extraParams : Option (List String)) :
    ContainerConfig :=
  { image := image
    usedPorts := validatorUsedPorts
    cmdOverride :=
      validatorCmdArgs launcher logLevel beaconClientHttpUrl nodeKeystoreFiles mevBoostContext
        extraParams
    files := goMap [(launcher.genesisData.filesArtifactUUID, genesisDataMountpointOnClients),
      (nodeKeystoreFiles.FilesArtifactUUID, validatorKeysMountpointOnClients)]
    environmentVariableOverrides :=
      goMap [(rustBacktraceEnvvarName, rustFullBacktraceKeyword)] }

/-- The argument begins with the given text. -/
def startsWith (front s : String) : Bool := front.data.isPrefixOf s.data

/-! ## Concrete launcher inputs -/

def sampleLauncher : LighthouseCLClientLauncher :=
  ⟨resultFor sampleELGenesis "cl-genesis-artifact"⟩

def sampleELContext : ELClientContext := ⟨"172.16.0.10", 8545, 8551⟩

def sampleBootnode : CLClientContext :=
  ⟨"lighthouse", "enr:-boot", "172.16.0.11", 4000, none, ⟨"172.16.0.11", 4000⟩⟩

def sampleMev : MEVBoostContext := ⟨"http://172.16.0.12:18550"⟩

/-- An MEV-relay context whose endpoint text begins with `--boot-nodes=`. -/
def oddMev : MEVBoostContext := ⟨"--boot-nodes=enr:-other"⟩

def sampleKeystore : KeystoreFiles := ⟨"keystore-artifact", "node-0/keys", "node-0/secrets"⟩

/-! ## `LighthouseCLClientLauncher.Launch` -/

/-- Line 102: `beaconNodeServiceId`. -/
def beaconNodeServiceIdOf (serviceId : String) : String :=
  serviceId ++ "-" ++ beaconSuffixServiceId

/-- Line 103: `validatorNodeServiceId`. -/
def validatorNodeServiceIdOf (serviceId : String) : String :=
  serviceId ++ "-" ++ validatorSuffixServiceId

def NewCLClientRESTClient (ipAddr : String) (portNum : Nat) : CLClientRESTClient :=
  ⟨ipAddr, portNum⟩

def errLaunchLogLevel (cause : TracedError) (participantLogLevel globalLogLevel : String) :
    TracedError :=
  .propagate cause ("An error occurred getting the client log level using participant log level '" ++
    participantLogLevel ++ "' and global log level '" ++ globalLogLevel ++ "'")

def errBeaconLaunch (cause : String) (beaconNodeServiceId : String) : TracedError :=
  .propagate (.external cause)
    ("An error occurred launching the Lighthouse Beacon node with service ID '" ++
      beaconNodeServiceId ++ "'")

def errBeaconPort (portID : String) : TracedError :=
  .newError ("Expected new Lighthouse Beacon service to have port with ID '" ++ portID ++
    "', but none was found")

def errBeaconWait (cause : String) : TracedError :=
  .propagate (.external cause)
    "An error occurred waiting for the new Lighthouse Beacon node to become available"

def errValidatorLaunch (cause : String) (validatorNodeServiceId : String) : TracedError :=
  .propagate (.external cause)
    ("An error occurred launching the Lighthouse validator node with service ID '" ++
      validatorNodeServiceId ++ "'")

def errIdentity (cause : String) : TracedError :=
  .propagate (.external cause)
    "An error occurred getting the new Lighthouse Beacon node's identity, which is necessary to retrieve its ENR"

def errValidatorPort (portID : String) : TracedError :=
  .newError ("Expected new Lighthouse Validator service to have port with ID '" ++ portID ++
    "', but none was found")

/-- Lines 161 to 180: the context returned on success. -/
def launchResult (serviceId : String) (nodeIdentity : NodeIdentity)
    (beaconServiceCtx validatorServiceCtx : ServiceContext)
    (beaconMetricsPort validatorMetricsPort : PortSpec) (beaconRestClient : CLClientRESTClient) :
    CLClientContext :=
  let beaconMetricsUrl :=
    beaconServiceCtx.privateIPAddress ++ ":" ++ toString beaconMetricsPort.number
  let validatorMetricsUrl :=
    validatorServiceCtx.privateIPAddress ++ ":" ++ toString validatorMetricsPort.number
  let beaconNodeMetricsInfo :=
    NewCLNodeMetricsInfo (beaconNodeServiceIdOf serviceId) metricsPath beaconMetricsUrl
  let validatorNodeMetricsInfo :=
    NewCLNodeMetricsInfo (validatorNodeServiceIdOf serviceId) metricsPath validatorMetricsUrl
  let nodesMetricsInfo := [beaconNodeMetricsInfo, validatorNodeMetricsInfo]
  NewCLClientContext "lighthouse" nodeIdentity.ENR beaconServiceCtx.privateIPAddress
    beaconHttpPortNum (some nodesMetricsInfo) beaconRestClient

/-- `LighthouseCLClientLauncher.Launch`. `GetClientLogLevelStrOrDefault` is
the function of that name of package `module_io`, declared outside the
sources. -/
def Launch {σ : Type} (rt : Runtime σ)
    (GetClientLogLevelStrOrDefault :
      String → String → List (String × String) → Except TracedError String)
    (levels : GlobalClientLogLevels) (launcher : LighthouseCLClientLauncher)
    (serviceId image participantLogLevel globalLogLevel : String)
    (bootnodeContext : Option CLClientContext) (elClientContext : ELClientContext)
    (mevBoostContext : Option MEVBoostContext) (nodeKeystoreFiles : KeystoreFiles)
    (extraBeaconParams extraValidatorParams : Option (List String)) (w : σ) :
    Run σ CLClientContext :=
  let beaconNodeServiceId := beaconNodeServiceIdOf serviceId
  let validatorNodeServiceId := validatorNodeServiceIdOf serviceId
  match GetClientLogLevelStrOrDefault participantLogLevel globalLogLevel
      (lighthouseLogLevels levels) with
  | .error err => ⟨.error (errLaunchLogLevel err participantLogLevel globalLogLevel), [], [], w⟩
  | .ok logLevel =>
    let beaconContainerConfig := getBeaconContainerConfig launcher image bootnodeContext
      elClientContext mevBoostContext logLevel extraBeaconParams
    let r1 := rt.AddService w beaconNodeServiceId beaconContainerConfig
    let ev1 := [Event.addService beaconNodeServiceId beaconContainerConfig r1.1]
    match r1.1 with
    | .error err => ⟨.error (errBeaconLaunch err beaconNodeServiceId), ev1, [], r1.2⟩
    | .ok beaconServiceCtx =>
      match beaconServiceCtx.privatePorts.lookup beaconHttpPortID with
      | none => ⟨.error (errBeaconPort beaconHttpPortID), ev1, [], r1.2⟩
      | some beaconHttpPort =>
        let beaconRestClient :=
          NewCLClientRESTClient beaconServiceCtx.privateIPAddress beaconHttpPort.number
        let r2 := rt.WaitForBeaconClientAvailability r1.2 beaconRestClient
          maxNumHealthcheckRetries timeBetweenHealthcheckRetries
        let ev2 := ev1 ++ [Event.waitForBeaconClientAvailability beaconRestClient
          maxNumHealthcheckRetries timeBetweenHealthcheckRetries r2.1]
        match r2.1 with
        | some err => ⟨.error (errBeaconWait err), ev2, [], r2.2⟩
        | none =>
          let beaconHttpUrl := "http://" ++ beaconServiceCtx.privateIPAddress ++ ":" ++
            toString beaconHttpPort.number
          let validatorContainerConfig := getValidatorContainerConfig launcher image logLevel
            beaconHttpUrl nodeKeystoreFiles mevBoostContext extraValidatorParams
          let r3 := rt.AddService r2.2 validatorNodeServiceId validatorContainerConfig
          let ev3 := ev2 ++
            [Event.addService validatorNodeServiceId validatorContainerConfig r3.1]
          match r3.1 with
          | .error err => ⟨.error (errValidatorLaunch err validatorNodeServiceId), ev3, [], r3.2⟩
          | .ok validatorServiceCtx =>
            let r4 := rt.GetNodeIdentity r3.2 beaconRestClient
            let ev4 := ev3 ++ [Event.getNodeIdentity beaconRestClient r4.1]
            match r4.1 with
            | .error err => ⟨.error (errIdentity err), ev4, [], r4.2⟩
            | .ok nodeIdentity =>
              match beaconServiceCtx.privatePorts.lookup beaconMetricsPortID with
              | none => ⟨.error (errBeaconPort beaconMetricsPortID), ev4, [], r4.2⟩
              | some beaconMetricsPort =>
                match validatorServiceCtx.privatePorts.lookup validatorMetricsPortID with
                | none => ⟨.error (errValidatorPort validatorMetricsPortID), ev4, [], r4.2⟩
                | some validatorMetricsPort =>
                  ⟨.ok (launchResult serviceId nodeIdentity beaconServiceCtx validatorServiceCtx
                    beaconMetricsPort validatorMetricsPort beaconRestClient), ev4, [], r4.2⟩

/-- The stage at which a run of `Launch` ended, with what was obtained on the
way. -/
inductive LaunchPath where
  | logLevelFailed (cause : TracedError)
  | beaconLaunchFailed (logLevel cause : String)
  | beaconHttpPortMissing (logLevel : String) (beaconServiceCtx : ServiceContext)
  | beaconNotReady (logLevel : String) (beaconServiceCtx : ServiceContext)
      (beaconHttpPort : PortSpec) (cause : String)
  | validatorLaunchFailed (logLevel : String) (beaconServiceCtx : ServiceContext)
      (beaconHttpPort : PortSpec) (cause : String)
  | identityFailed (logLevel : String) (beaconServiceCtx : ServiceContext)
      (beaconHttpPort : PortSpec) (validatorServiceCtx : ServiceContext) (cause : String)
  | beaconMetricsPortMissing (logLevel : String) (beaconServiceCtx : ServiceContext)
      (beaconHttpPort : PortSpec) (validatorServiceCtx : ServiceContext)
      (nodeIdentity : NodeIdentity)
  | validatorMetricsPortMissing (logLevel : String) (beaconServiceCtx : ServiceContext)
      (beaconHttpPort : PortSpec) (validatorServiceCtx : ServiceContext)
      (nodeIdentity : NodeIdentity) (beaconMetricsPort : PortSpec)
  | succeeded (logLevel : String) (beaconServiceCtx : ServiceContext)
      (beaconHttpPort : PortSpec) (validatorServiceCtx : ServiceContext)
      (nodeIdentity : NodeIdentity) (beaconMetricsPort validatorMetricsPort : PortSpec)

/-- The arguments of one call of `Launch`, other than the runtime. -/
structure LaunchArgs where
  levels : GlobalClientLogLevels
  launcher : LighthouseCLClientLauncher
  serviceId : String
  image : String
  participantLogLevel : String
  globalLogLevel : String
  bootnodeContext : Option CLClientContext
  elClientContext : ELClientContext
  mevBoostContext : Option MEVBoostContext
  nodeKeystoreFiles : KeystoreFiles
  extraBeaconParams : Option (List String)
  extraValidatorParams : Option (List String)

/-- `Launch` applied to bundled arguments. -/
def launchRun {σ : Type} (rt : Runtime σ)
    (GetClientLogLevelStrOrDefault :
      String → String → List (String × String) → Except TracedError String)
    (a : LaunchArgs) (w : σ) : Run σ CLClientContext :=
  Launch rt GetClientLogLevelStrOrDefault a.levels a.launcher a.serviceId a.image
    a.participantLogLevel a.globalLogLevel a.bootnodeContext a.elClientContext
    a.mevBoostContext a.nodeKeystoreFiles a.extraBeaconParams a.extraValidatorParams w

/-- The call that launches the beacon node, with its response. -/
def beaconLaunchEvent (a : LaunchArgs) (logLevel : String) (res : Except String ServiceContext) :
    Event :=
  .addService (beaconNodeServiceIdOf a.serviceId)
    (getBeaconContainerConfig a.launcher a.image a.bootnodeContext a.elClientContext
      a.mevBoostContext logLevel a.extraBeaconParams) res

/-- The REST client `Launch` builds for the beacon node. -/
def beaconClient (beaconServiceCtx : ServiceContext) (beaconHttpPort : PortSpec) :
    CLClientRESTClient :=
  NewCLClientRESTClient beaconServiceCtx.privateIPAddress beaconHttpPort.number

/-- The readiness wait on the beacon node, with its response. -/
def waitEvent (beaconServiceCtx : ServiceContext) (beaconHttpPort : PortSpec)
    (res : Option String) : Event :=
  .waitForBeaconClientAvailability (beaconClient beaconServiceCtx beaconHttpPort)
    maxNumHealthcheckRetries timeBetweenHealthcheckRetries res

/-- The call that launches the validator node, with its response. -/
def validatorLaunchEvent (a : LaunchArgs) (logLevel : String) (beaconServiceCtx : ServiceContext)
    (beaconHttpPort : PortSpec) (res : Except String ServiceContext) : Event :=
  .addService (validatorNodeServiceIdOf a.serviceId)
    (getValidatorContainerConfig a.launcher a.image logLevel
      ("http://" ++ beaconServiceCtx.privateIPAddress ++ ":" ++ toString beaconHttpPort.number)
      a.nodeKeystoreFiles a.mevBoostContext a.extraValidatorParams) res

/-- The identity request to the beacon node, with its response. -/
def identityEvent (beaconServiceCtx : ServiceContext) (beaconHttpPort : PortSpec)
    (res : Except String NodeIdentity) : Event :=
  .getNodeIdentity (beaconClient beaconServiceCtx beaconHttpPort) res

/-- The calls of a run that took the given path. -/
def pathEvents (a : LaunchArgs) : LaunchPath → List Event
  | .logLevelFailed _ => []
  | .beaconLaunchFailed lv cause => [beaconLaunchEvent a lv (.error cause)]
  | .beaconHttpPortMissing lv b => [beaconLaunchEvent a lv (.ok b)]
  | .beaconNotReady lv b port cause =>
    [beaconLaunchEvent a lv (.ok b), waitEvent b port (some cause)]
  | .validatorLaunchFailed lv b port cause =>
    [beaconLaunchEvent a lv (.ok b), waitEvent b port none,
      validatorLaunchEvent a lv b port (.error cause)]
  | .identityFailed lv b port v cause =>
    [beaconLaunchEvent a lv (.ok b), waitEvent b port none,
      validatorLaunchEvent a lv b port (.ok v), identityEvent b port (.error cause)]
  | .beaconMetricsPortMissing lv b port v identity =>
    [beaconLaunchEvent a lv (.ok b), waitEvent b port none,
      validatorLaunchEvent a lv b port (.ok v), identityEvent b port (.ok identity)]
  | .validatorMetricsPortMissing lv b port v identity _ =>
    [beaconLaunchEvent a lv (.ok b), waitEvent b port none,
      validatorLaunchEvent a lv b port (.ok v), identityEvent b port (.ok identity)]
  | .succeeded lv b port v identity _ _ =>
    [beaconLaunchEvent a lv (.ok b), waitEvent b port none,
      validatorLaunchEvent a lv b port (.ok v), identityEvent b port (.ok identity)]

/-- The pair returned by a run that took the given path. -/
def pathRet (a : LaunchArgs) : LaunchPath → Except TracedError CLClientContext
  | .logLevelFailed cause => .error (errLaunchLogLevel cause a.participantLogLevel a.globalLogLevel)
  | .beaconLaunchFailed _ cause =>
    .error (errBeaconLaunch cause (beaconNodeServiceIdOf a.serviceId))
  | .beaconHttpPortMissing _ _ => .error (errBeaconPort beaconHttpPortID)
  | .beaconNotReady _ _ _ cause => .error (errBeaconWait cause)
  | .validatorLaunchFailed _ _ _ cause =>
    .error (errValidatorLaunch cause (validatorNodeServiceIdOf a.serviceId))
  | .identityFailed _ _ _ _ cause => .error (errIdentity cause)
  | .beaconMetricsPortMissing _ _ _ _ _ => .error (errBeaconPort beaconMetricsPortID)
  | .validatorMetricsPortMissing _ _ _ _ _ _ => .error (errValidatorPort validatorMetricsPortID)
  | .succeeded _ b port v identity bm vm =>
    .ok (launchResult a.serviceId identity b v bm vm (beaconClient b port))

/-- What the port lookups found on the given path. -/
def pathPorts : LaunchPath → Prop
  | .logLevelFailed _ => True
  | .beaconLaunchFailed _ _ => True
  | .beaconHttpPortMissing _ b => b.privatePorts.lookup beaconHttpPortID = none
  | .beaconNotReady _ b port _ => b.privatePorts.lookup beaconHttpPortID = some port
  | .validatorLaunchFailed _ b port _ => b.privatePorts.lookup beaconHttpPortID = some port
  | .identityFailed _ b port _ _ => b.privatePorts.lookup beaconHttpPortID = some port
  | .beaconMetricsPortMissing _ b port _ _ =>
    b.privatePorts.lookup beaconHttpPortID = some port ∧
      b.privatePorts.lookup beaconMetricsPortID = none
  | .validatorMetricsPortMissing _ b port v _ bm =>
    b.privatePorts.lookup beaconHttpPortID = some port ∧
      b.privatePorts.lookup beaconMetricsPortID = some bm ∧
      v.privatePorts.lookup validatorMetricsPortID = none
  | .succeeded _ b port v _ bm vm =>
    b.privatePorts.lookup beaconHttpPortID = some port ∧
      b.privatePorts.lookup beaconMetricsPortID = some bm ∧
      v.privatePorts.lookup validatorMetricsPortID = some vm

/-- The error names the given text: one of its messages contains it. -/
def namesText (e : TracedError) (text : String) : Prop :=
  ∃ msg ∈ e.messages, ∃ front back : String, msg = front ++ text ++ back

/-- A stage of `Launch` failed, as the calls of a run and the launched
services show it: a container launch, the readiness wait or the identity
request returned an error, or a launched service lacks an expected port. -/
def stageFailed (serviceId : String) (events : List Event) : Prop :=
  (∃ (id : String) (cfg : ContainerConfig) (err : String),
    Event.addService id cfg (.error err) ∈ events) ∨
  (∃ (client : CLClientRESTClient) (n d : Nat) (err : String),
    Event.waitForBeaconClientAvailability client n d (some err) ∈ events) ∨
  (∃ (client : CLClientRESTClient) (err : String),
    Event.getNodeIdentity client (.error err) ∈ events) ∨
  (∃ (cfg : ContainerConfig) (ctx : ServiceContext),
    Event.addService (beaconNodeServiceIdOf serviceId) cfg (.ok ctx) ∈ events ∧
    (ctx.privatePorts.lookup beaconHttpPortID = none ∨
      ctx.privatePorts.lookup beaconMetricsPortID = none)) ∨
  (∃ (cfg : ContainerConfig) (ctx : ServiceContext),
    Event.addService (validatorNodeServiceIdOf serviceId) cfg (.ok ctx) ∈ events ∧
    ctx.privatePorts.lookup validatorMetricsPortID = none)

/-- A stand-in for `module_io.GetClientLogLevelStrOrDefault`: the participant's
level if it is set, else the entry of the global level in the client's map. -/
def sampleGetClientLogLevel (participantLogLevel globalLogLevel : String)
    (clientLogLevels : List (String × String)) : Except TracedError String :=
  if participantLogLevel ≠ "" then .ok participantLogLevel
  else
    match clientLogLevels.lookup globalLogLevel with
    | some level => .ok level
    | none => .error (.newError "No log level defined for the global log level")

def sampleLevels : GlobalClientLogLevels := ⟨"error", "warn", "info", "debug", "trace"⟩

def sampleLaunchArgs : LaunchArgs :=
  { levels := sampleLevels
    launcher := sampleLauncher
    serviceId := "cl-client-0"
    image := "sigp/lighthouse"
    participantLogLevel := ""
    globalLogLevel := "info"
    bootnodeContext := none
    elClientContext := sampleELContext
    mevBoostContext := none
    nodeKeystoreFiles := sampleKeystore
    extraBeaconParams := some []
    extraValidatorParams := some [] }

/-- A runtime that launches every service without any port. -/
def noPortsRuntime : Runtime Unit :=
  { okRuntime with
    AddService := fun _ serviceId _ => (.ok ⟨serviceId, "172.16.0.2", []⟩, ()) }

/-- A runtime on which the beacon node never becomes ready. -/
def notReadyRuntime : Runtime Unit :=
  { okRuntime with
    WaitForBeaconClientAvailability := fun _ _ _ _ => (some "not available after 10 retries", ()) }

/-- A runtime on which every container launch fails. -/
def noLaunchRuntime : Runtime Unit :=
  { okRuntime with
    AddService := fun _ _ _ => (.error "image not found", ()) }

/-- The context the sample launch returns on the runtime that reports the
declared ports. -/
def sampleLaunchedContext : CLClientContext :=
  ⟨"lighthouse", "enr:-sample", "172.16.0.2", 4000,
    some [⟨"cl-client-0-beacon", "/metrics", "172.16.0.2:5054"⟩,
      ⟨"cl-client-0-validator", "/metrics", "172.16.0.2:5064"⟩],
    ⟨"172.16.0.2", 4000⟩⟩

end Lighthouse

namespace Prometheus

open Kurtosis Lighthouse

/-! ## `prometheus_launcher.go` -/

def serviceID : String := "prometheus"

def imageName : String := "prom/prometheus:latest"

def httpPortId : String := "http"

def httpPortNumber : Nat := 9090

def configFilename : String := "prometheus-config.yml"

def configDirMountpointOnPrometheus : String := "/config"

def usedPorts : List (String × PortSpec) :=
  goMap [(httpPortId, ⟨httpPortNumber, .TCP⟩)]

/-- `getContainerConfig`. -/
def getContainerConfig (configFileArtifactUuid : String) : ContainerConfig :=
  let configFilepath := pathJoin [configDirMountpointOnPrometheus, pathBase configFilename]
  { image := imageName
    cmdOverride :=
      ["--config.file=" ++ configFilepath,
       "--storage.tsdb.path=/prometheus",
       "--storage.tsdb.retention.time=1d",
       "--storage.tsdb.retention.size=512MB",
       "--storage.tsdb.wal-compression",
       "--web.console.libraries=/etc/prometheus/console_libraries",
       "--web.console.templates=/etc/prometheus/consoles",
       "--web.enable-lifecycle"]
    usedPorts := usedPorts
    files := goMap [(configFileArtifactUuid, configDirMountpointOnPrometheus)] }

/-- The loop of lines 38 to 42 of `LaunchPrometheus`, from the value
`allCLNodesMetricsInfo` has when the loop reaches the given contexts. -/
def collectMetricsInfo :
    List CLNodeMetricsInfo → List CLClientContext → List CLNodeMetricsInfo
  | allCLNodesMetricsInfo, [] => allCLNodesMetricsInfo
  | allCLNodesMetricsInfo, clClientCtx :: rest =>
    match clClientCtx.nodesMetricsInfo with
    | some infos => collectMetricsInfo (allCLNodesMetricsInfo ++ infos) rest
    | none => collectMetricsInfo allCLNodesMetricsInfo rest

/-- The map `LaunchPrometheus` hands to `RenderTemplates`. -/
def templateAndDataByDestRelFilepath (configTemplate : String)
    (clClientContexts : List CLClientContext) : List (String × TemplateAndData) :=
  let allCLNodesMetricsInfo := collectMetricsInfo [] clClientContexts
  let templateData : configTemplateData := ⟨allCLNodesMetricsInfo⟩
  let templateAndData : TemplateAndData := ⟨configTemplate, .prometheus templateData⟩
  goMap [(configFilename, templateAndData)]

/-- `LaunchPrometheus`. -/
def LaunchPrometheus {σ : Type} (rt : Runtime σ) (configTemplate : String)
    (clClientContexts : List CLClientContext) (w : σ) : Run σ String :=
  let files := templateAndDataByDestRelFilepath configTemplate clClientContexts
  let r1 := rt.RenderTemplates w files
  let ev1 := Event.renderTemplates files r1.1
  match r1.1 with
  | .error err =>
    ⟨.error (.propagate (.external err)
      ("An error occurred rendering the Prometheus template config file to '" ++
        configFilename ++ "'")), [ev1], [], r1.2⟩
  | .ok configArtifactUuid =>
    let containerConfig := getContainerConfig configArtifactUuid
    let r2 := rt.AddService r1.2 serviceID containerConfig
    let ev2 := Event.addService serviceID containerConfig r2.1
    match r2.1 with
    | .error err =>
      ⟨.error (.propagate (.external err)
        "An error occurred launching the prometheus service"), [ev1, ev2], [], r2.2⟩
    | .ok serviceCtx =>
      let privateIpAddr := serviceCtx.privateIPAddress
      match serviceCtx.privatePorts.lookup httpPortId with
      | none =>
        ⟨.error (.newError
          ("Expected the newly-started prometheus service to have a private port with ID '" ++
            httpPortId ++ "' but none was found")), [ev1, ev2], [], r2.2⟩
      | some privateHttpPort =>
        let privateUrl := "http://" ++ privateIpAddr ++ ":" ++ toString privateHttpPort.number
        ⟨.ok privateUrl, [ev1, ev2], [], r2.2⟩

/-! ## Stating the aggregation -/

/-- The template data of the first external call of a run, when that call is
a template rendering of the one file `prometheus-config.yml`. -/
def renderedMetricsInfo : List Event → Option (List CLNodeMetricsInfo)
  | .renderTemplates [(_, ⟨_, .prometheus data⟩)] _ :: _ => some data.CLNodesMetricsInfo
  | _ => none

/-- The metrics endpoints of the contexts, one list after the other in the
order of the contexts; a `nil` list adds nothing. -/
def concatInOrder : List CLClientContext → List CLNodeMetricsInfo
  | [] => []
  | c :: rest => sliceElems c.nodesMetricsInfo ++ concatInOrder rest

/-- Three contexts: two endpoints, a `nil` list, one endpoint that the first
context also has. -/
def sampleContexts : List CLClientContext :=
  [⟨"lighthouse", "enr:-a", "172.16.0.2", 4000,
      some [⟨"a-beacon", "/metrics", "172.16.0.2:5054"⟩,
            ⟨"a-validator", "/metrics", "172.16.0.3:5064"⟩],
      ⟨"172.16.0.2", 4000⟩⟩,
   ⟨"lighthouse", "enr:-b", "172.16.0.4", 4000, none, ⟨"172.16.0.4", 4000⟩⟩,
   ⟨"lighthouse", "enr:-c", "172.16.0.5", 4000,
      some [⟨"a-beacon", "/metrics", "172.16.0.2:5054"⟩],
      ⟨"172.16.0.5", 4000⟩⟩]

end Prometheus

namespace ParamsDeserializer

/-! ## Basic facts about the loop and the checks -/

theorem rangeBody_ok_iff (d : PackageDecls) (idx : Nat) (p q : ParticipantParams) :
    rangeBody d idx p = .ok q ↔ bodyChecksPass d idx p ∧ q = normalizeParticipant d p := by
  obtain ⟨et, ei, ex, ct, ci, bx, vx⟩ := p
  unfold rangeBody bodyChecksPass normalizeParticipant
  by_cases h0 : idx = 0 ∧ (et = d.ParticipantELClientType_Nethermind ∨
      et = d.ParticipantELClientType_Besu)
  · simp [h0]
  · by_cases hel : et ∈ d.validParticipantELClientTypes
    · by_cases hcl : ct ∈ d.validParticipantCLClientTypes
      · by_cases hei : ei = d.useDefaultElImageKeyword <;>
        by_cases hci : ci = d.useDefaultClImageKeyword <;>
        cases hle : d.defaultElImages.lookup et <;>
        cases hlc : d.defaultClImages.lookup ct <;>
        cases ex <;> cases bx <;> cases vx <;>
        simp [h0, hel, hcl, hei, hci, hle, hlc, eq_comm]
      · by_cases hei : ei = d.useDefaultElImageKeyword <;>
        cases hle : d.defaultElImages.lookup et <;>
        simp [h0, hel, hcl, hei, hle]
    · simp [h0, hel]

theorem rangeParticipants_ok_iff (d : PackageDecls) (ps : List ParticipantParams) :
    ∀ (idx : Nat) (qs : List ParticipantParams),
      rangeParticipants d idx ps = .ok qs ↔
        (∀ (i : Nat) (h : i < ps.length), bodyChecksPass d (idx + i) (ps.get ⟨i, h⟩)) ∧
          qs = ps.map (normalizeParticipant d) := by
  induction ps with
  | nil =>
    intro idx qs
    simp [rangeParticipants, eq_comm]
  | cons p rest ih =>
    intro idx qs
    unfold rangeParticipants
    cases hb : rangeBody d idx p with
    | error e =>
      have hnot : ¬ bodyChecksPass d idx p := by
        intro hc
        have := (rangeBody_ok_iff d idx p (normalizeParticipant d p)).2 ⟨hc, rfl⟩
        rw [hb] at this
        cases this
      constructor
      · intro h; cases h
      · rintro ⟨hall, -⟩
        exact absurd (by simpa using hall 0 (by simp)) hnot
    | ok slot =>
      obtain ⟨hc, hslot⟩ := (rangeBody_ok_iff d idx p slot).1 hb
      cases hr : rangeParticipants d (idx + 1) rest with
      | error e =>
        constructor
        · intro h; cases h
        rintro ⟨hall, -⟩
        have hrest : ∀ (i : Nat) (h : i < rest.length),
            bodyChecksPass d (idx + 1 + i) (rest.get ⟨i, h⟩) := by
          intro i h
          have := hall (i + 1) (by simp; omega)
          simpa [Nat.add_assoc, Nat.add_comm 1 i] using this
        have := (ih (idx + 1) (rest.map (normalizeParticipant d))).2 ⟨hrest, rfl⟩
        rw [hr] at this
        cases this
      | ok slots =>
        obtain ⟨hrest, hslots⟩ := (ih (idx + 1) slots).1 hr
        subst hslot hslots
        constructor
        · intro h
          refine ⟨?_, ?_⟩
          · intro i hi
            cases i with
            | zero => simpa using hc
            | succ j =>
              have := hrest j (by simpa using hi)
              simpa [Nat.add_assoc, Nat.add_comm 1 j] using this
          · cases h
            simp
        · rintro ⟨_, rfl⟩
          simp

theorem hasNethermind_map_normalize (d : PackageDecls) (ps : List ParticipantParams) :
    hasNethermindAsBootnodeOrSecondNode d (ps.map (normalizeParticipant d)) =
      hasNethermindAsBootnodeOrSecondNode d ps := by
  unfold hasNethermindAsBootnodeOrSecondNode
  rcases ps with _ | ⟨a, _ | ⟨b, rest⟩⟩ <;> simp [normalizeParticipant]

theorem validateParamsObj_ok_iff (d : PackageDecls) (o r : ExecuteParams) :
    (validateParamsObj d o).ret = .ok r ↔ allChecksPass d o ∧ r = normalizeParams d o := by
  unfold validateParamsObj allChecksPass normalizeParams isBlank actualNumValidators
    requiredNumValidators
  by_cases hl : o.ClientLogLevel ∈ d.validGlobalClientLogLevels
  swap
  · simp [hl]
  by_cases hn : o.Participants.length = 0
  · simp [hl, hn]
  cases hr : rangeParticipants d 0 o.Participants with
  | error e =>
    have hnot : ¬ ∀ (i : Nat) (h : i < o.Participants.length),
        bodyChecksPass d i (o.Participants.get ⟨i, h⟩) := by
      intro hall
      have := (rangeParticipants_ok_iff d o.Participants 0 _).2
        ⟨by simpa using hall, rfl⟩
      rw [hr] at this
      cases this
    simp only [hl, hn, not_true_eq_false, if_false]
    constructor
    · intro h; cases h
    · rintro ⟨⟨-, -, hall, -⟩, -⟩
      exact absurd hall hnot
  | ok slots =>
    obtain ⟨hall, hslots⟩ := (rangeParticipants_ok_iff d o.Participants 0 slots).1 hr
    have hall2 : ∀ (i : Nat) (h : i < o.Participants.length),
        bodyChecksPass d i (o.Participants.get ⟨i, h⟩) := by simpa using hall
    subst hslots
    simp only [hl, hn, not_true_eq_false, if_false, hasNethermind_map_normalize, List.length_map]
    by_cases h1 : goLen (stringsTrimSpace o.Network.NetworkID) = 0
    · simp [h1]
    by_cases h2 : goLen (stringsTrimSpace o.Network.PremineAccountMnemonic) = 0
    · simp [h1, h2]
    by_cases h3 : goLen (stringsTrimSpace o.Network.DepositContractAddress) = 0
    · simp [h1, h2, h3]
    by_cases h4 : o.Network.SecondsPerSlot = 0
    · simp [h1, h2, h3, h4]
    by_cases h5 : o.Network.SlotsPerEpoch = 0
    · simp [h1, h2, h3, h4, h5]
    by_cases h6 : o.Participants.length * o.Network.NumValidatorKeysPerNode % uint32Modulus <
        2 * o.Network.SlotsPerEpoch % uint32Modulus
    · simp [h1, h2, h3, h4, h5, h6]
    by_cases h7 : goLen (stringsTrimSpace o.Network.PreregisteredValidatorKeysMnemonic) = 0
    · simp [h1, h2, h3, h4, h5, h6, h7]
    cases h8 : hasNethermindAsBootnodeOrSecondNode d o.Participants
    · simp [h1, h2, h3, h4, h5, h6, h7, hn, eq_comm]
      intro _ i h
      simpa using hall2 i h
    · simp [h1, h2, h3, h4, h5, h6, h7]

theorem ret_ok_or_error (out : Outcome) :
    (∃ r, out.ret = .ok r) ∨ (∃ e, out.ret = .error e) := by
  cases h : out.ret with
  | ok r => exact Or.inl ⟨r, rfl⟩
  | error e => exact Or.inr ⟨e, rfl⟩

theorem deserialize_of_parse (d : PackageDecls) (paramsStr : String) (o : ExecuteParams)
    (hparse : d.yamlUnmarshal paramsStr d.GetDefaultExecuteParams = .ok o) :
    DeserializeAndValidateParams d paramsStr = validateParamsObj d o := by
  unfold DeserializeAndValidateParams
  rw [hparse]

theorem deserialize_ok_iff (d : PackageDecls) (paramsStr : String) (o r : ExecuteParams)
    (hparse : d.yamlUnmarshal paramsStr d.GetDefaultExecuteParams = .ok o) :
    (DeserializeAndValidateParams d paramsStr).ret = .ok r ↔
      allChecksPass d o ∧ r = normalizeParams d o := by
  rw [deserialize_of_parse d paramsStr o hparse]
  exact validateParamsObj_ok_iff d o r

theorem error_of_not_allChecksPass (d : PackageDecls) (o : ExecuteParams)
    (h : ¬ allChecksPass d o) : ∃ e, (validateParamsObj d o).ret = .error e := by
  rcases ret_ok_or_error (validateParamsObj d o) with ⟨r, hr⟩ | he
  · exact absurd ((validateParamsObj_ok_iff d o r).1 hr).1 h
  · exact he

/-- The first failing iteration decides what the loop returns. -/
theorem rangeParticipants_first_error (d : PackageDecls) (e : StackError) :
    ∀ (ps : List ParticipantParams) (idx i : Nat) (h : i < ps.length),
      (∀ (j : Nat) (hj : j < i), bodyChecksPass d (idx + j) (ps.get ⟨j, Nat.lt_trans hj h⟩)) →
      rangeBody d (idx + i) (ps.get ⟨i, h⟩) = .error e →
      rangeParticipants d idx ps = .error e := by
  intro ps
  induction ps with
  | nil => intro idx i h; simp at h
  | cons p rest ih =>
    intro idx i h hbefore herr
    unfold rangeParticipants
    cases i with
    | zero =>
      have herr0 : rangeBody d idx p = .error e := by simpa using herr
      rw [herr0]
    | succ k =>
      have hp : bodyChecksPass d idx p := by simpa using hbefore 0 (Nat.succ_pos k)
      have hok := (rangeBody_ok_iff d idx p (normalizeParticipant d p)).2 ⟨hp, rfl⟩
      rw [hok]
      have hk : k < rest.length := by simpa using h
      have hrest := ih (idx + 1) k hk
        (by
          intro j hj
          have := hbefore (j + 1) (Nat.succ_lt_succ hj)
          simpa [Nat.add_assoc, Nat.add_comm 1 j] using this)
        (by simpa [Nat.add_assoc, Nat.add_comm 1 k] using herr)
      rw [hrest]

/-- What `validateParamsObj` returns when the loop fails. -/
theorem validateParamsObj_loop_error (d : PackageDecls) (o : ExecuteParams) (e : StackError)
    (hl : o.ClientLogLevel ∈ d.validGlobalClientLogLevels)
    (hn : o.Participants.length ≠ 0)
    (hloop : rangeParticipants d 0 o.Participants = .error e) :
    validateParamsObj d o = ⟨[], .error e⟩ := by
  unfold validateParamsObj
  simp [hl, hn, hloop]

theorem allChecksPass_iff_beforePeering (d : PackageDecls) (o : ExecuteParams) :
    allChecksPass d o ↔
      checksBeforePeering d o ∧ hasNethermindAsBootnodeOrSecondNode d o.Participants = false := by
  unfold allChecksPass checksBeforePeering
  tauto

theorem allChecksPass_iff_validatorCount (d : PackageDecls) (o : ExecuteParams) :
    allChecksPass d o ↔
      checksOtherThanValidatorCount d o ∧
        ¬ (actualNumValidators o.Participants.length o.Network <
            requiredNumValidators o.Network) := by
  unfold allChecksPass checksOtherThanValidatorCount
  tauto

/-- When only the peering check fails, its error is the one returned. -/
theorem validateParamsObj_peering_error (d : PackageDecls) (o : ExecuteParams)
    (hpre : checksBeforePeering d o)
    (hneth : hasNethermindAsBootnodeOrSecondNode d o.Participants = true) :
    (validateParamsObj d o).ret = .error errNethermindPeering := by
  obtain ⟨hl, hn, hall, h1, h2, h3, h4, h5, h6, h7⟩ := hpre
  have hloop := (rangeParticipants_ok_iff d o.Participants 0
    (o.Participants.map (normalizeParticipant d))).2 ⟨by simpa using hall, rfl⟩
  unfold isBlank at h1 h2 h3 h7
  unfold actualNumValidators requiredNumValidators at h6
  unfold validateParamsObj
  simp only [hl, hn, hloop, not_true_eq_false, if_false, hasNethermind_map_normalize,
    List.length_map, h1, h2, h3, h4, h5, h6, h7, hneth, if_true]

/-- A first participant of kind Nethermind or Besu stops the loop at once. -/
theorem validateParamsObj_bootnode_error (d : PackageDecls) (o : ExecuteParams)
    (p0 : ParticipantParams) (rest : List ParticipantParams)
    (hlevel : o.ClientLogLevel ∈ d.validGlobalClientLogLevels)
    (hps : o.Participants = p0 :: rest)
    (hkind : p0.ELClientType = d.ParticipantELClientType_Nethermind ∨
      p0.ELClientType = d.ParticipantELClientType_Besu) :
    validateParamsObj d o = ⟨[], .error errBootnodeClient⟩ := by
  apply validateParamsObj_loop_error d o _ hlevel
  · rw [hps]; simp
  · rw [hps]
    unfold rangeParticipants rangeBody
    simp [hkind]

/-- The participants of an accepted document, slot by slot. -/
theorem accepted_participant (d : PackageDecls) (o r : ExecuteParams)
    (hok : (validateParamsObj d o).ret = .ok r) :
    r.Participants.length = o.Participants.length ∧
    ∀ (i : Nat) (p q : ParticipantParams),
      o.Participants.get? i = some p → r.Participants.get? i = some q →
        q = normalizeParticipant d p ∧ bodyChecksPass d i p := by
  obtain ⟨hall, hr⟩ := (validateParamsObj_ok_iff d o r).1 hok
  subst hr
  refine ⟨by simp [normalizeParams], ?_⟩
  intro i p q hp hq
  have hi : i < o.Participants.length := by
    rcases Nat.lt_or_ge i o.Participants.length with h | h
    · exact h
    · rw [List.get?_eq_none.2 h] at hp; cases hp
  have hget : o.Participants.get ⟨i, hi⟩ = p := by
    have := List.get?_eq_get hi
    rw [hp] at this
    exact (Option.some.inj this).symm
  constructor
  · simp only [normalizeParams, List.get?_eq_getElem?, List.getElem?_map] at hq hp
    rw [hp] at hq
    simpa using hq.symm
  · have := hall.2.2.1 i hi
    rwa [hget] at this

theorem validateParamsObj_first_error (d : PackageDecls) (o : ExecuteParams) (i : Nat)
    (p : ParticipantParams) (e : StackError)
    (hreach : reachesParticipant d o i)
    (hp : o.Participants.get? i = some p)
    (herr : rangeBody d i p = .error e) :
    validateParamsObj d o = ⟨[], .error e⟩ := by
  have hi : i < o.Participants.length := by
    rcases Nat.lt_or_ge i o.Participants.length with h | h
    · exact h
    · rw [List.get?_eq_none.2 h] at hp; cases hp
  have hget : o.Participants.get ⟨i, hi⟩ = p := by
    have := List.get?_eq_get hi
    rw [hp] at this
    exact (Option.some.inj this).symm
  apply validateParamsObj_loop_error d o e hreach.1 (by omega)
  apply rangeParticipants_first_error d e o.Participants 0 i hi
  · intro j hj
    simpa using hreach.2 j (Nat.lt_trans hj hi) hj
  · rw [hget]
    simpa using herr

theorem get_of_get_some {α : Type} (l : List α) (i : Nat) (a : α) (h : l.get? i = some a) :
    ∃ hi : i < l.length, l.get ⟨i, hi⟩ = a := by
  have hi : i < l.length := by
    rcases Nat.lt_or_ge i l.length with h' | h'
    · exact h'
    · rw [List.get?_eq_none.2 h'] at h; cases h
  refine ⟨hi, ?_⟩
  have := List.get?_eq_get hi
  rw [h] at this
  exact (Option.some.inj this).symm

/-- A participant that fails a check of its iteration makes the call fail. -/
theorem rejected_of_body_check (d : PackageDecls) (o : ExecuteParams) (i : Nat)
    (p : ParticipantParams) (hp : o.Participants.get? i = some p)
    (hfail : ¬ bodyChecksPass d i p) :
    ∃ e, (validateParamsObj d o).ret = .error e := by
  apply error_of_not_allChecksPass
  intro hall
  obtain ⟨hi, hget⟩ := get_of_get_some _ _ _ hp
  have := hall.2.2.1 i hi
  rw [hget] at this
  exact hfail this

theorem rangeBody_no_default_el (d : PackageDecls) (i : Nat) (p : ParticipantParams)
    (hboot : ¬ (i = 0 ∧ (p.ELClientType = d.ParticipantELClientType_Nethermind ∨
      p.ELClientType = d.ParticipantELClientType_Besu)))
    (hel : p.ELClientType ∈ d.validParticipantELClientTypes)
    (himg : p.ELClientImage = d.useDefaultElImageKeyword)
    (hnone : d.defaultElImages.lookup p.ELClientType = none) :
    rangeBody d i p = .error (errNoDefaultELImage p.ELClientType) := by
  unfold rangeBody
  simp [hboot, hel, himg, hnone]

theorem rangeBody_no_default_cl (d : PackageDecls) (i : Nat) (p : ParticipantParams)
    (hboot : ¬ (i = 0 ∧ (p.ELClientType = d.ParticipantELClientType_Nethermind ∨
      p.ELClientType = d.ParticipantELClientType_Besu)))
    (hel : p.ELClientType ∈ d.validParticipantELClientTypes)
    (helimg : p.ELClientImage = d.useDefaultElImageKeyword →
      (d.defaultElImages.lookup p.ELClientType).isSome)
    (hcl : p.CLClientType ∈ d.validParticipantCLClientTypes)
    (himg : p.CLClientImage = d.useDefaultClImageKeyword)
    (hnone : d.defaultClImages.lookup p.CLClientType = none) :
    rangeBody d i p = .error (errNoDefaultCLImage p.CLClientType) := by
  unfold rangeBody
  by_cases hk : p.ELClientImage = d.useDefaultElImageKeyword
  · obtain ⟨img, himg2⟩ := Option.isSome_iff_exists.1 (helimg hk)
    simp [hboot, hel, hk, himg2, hcl, himg, hnone]
  · simp [hboot, hel, hk, hcl, himg, hnone]

theorem rangeBody_unrecognized_el (d : PackageDecls) (i : Nat) (p : ParticipantParams)
    (hboot : ¬ (i = 0 ∧ (p.ELClientType = d.ParticipantELClientType_Nethermind ∨
      p.ELClientType = d.ParticipantELClientType_Besu)))
    (hel : p.ELClientType ∉ d.validParticipantELClientTypes) :
    rangeBody d i p =
      .error (errUnrecognizedEL i p.ELClientType d.validParticipantELClientTypes) := by
  unfold rangeBody
  simp [hboot, hel]

theorem rangeBody_unrecognized_cl (d : PackageDecls) (i : Nat) (p : ParticipantParams)
    (hboot : ¬ (i = 0 ∧ (p.ELClientType = d.ParticipantELClientType_Nethermind ∨
      p.ELClientType = d.ParticipantELClientType_Besu)))
    (hel : p.ELClientType ∈ d.validParticipantELClientTypes)
    (helimg : p.ELClientImage = d.useDefaultElImageKeyword →
      (d.defaultElImages.lookup p.ELClientType).isSome)
    (hcl : p.CLClientType ∉ d.validParticipantCLClientTypes) :
    rangeBody d i p =
      .error (errUnrecognizedCL i p.CLClientType d.validParticipantCLClientTypes) := by
  unfold rangeBody
  by_cases hk : p.ELClientImage = d.useDefaultElImageKeyword
  · obtain ⟨img, himg2⟩ := Option.isSome_iff_exists.1 (helimg hk)
    simp [hboot, hel, hk, himg2, hcl]
  · simp [hboot, hel, hk, hcl]

/-- Every element of a joined list occurs in the joined text. -/
theorem stringsJoin_contains (sep k : String) :
    ∀ l : List String, k ∈ l → ∃ front back : String, stringsJoin l sep = front ++ k ++ back := by
  intro l
  induction l with
  | nil => intro h; cases h
  | cons a rest ih =>
    intro h
    rcases rest with _ | ⟨b, rest2⟩
    · have hk : k = a := by simpa using h
      subst hk
      exact ⟨"", "", by simp [stringsJoin]⟩
    · rcases List.mem_cons.1 h with hk | hk
      · subst hk
        exact ⟨"", sep ++ stringsJoin (b :: rest2) sep, by simp [stringsJoin, String.append_assoc]⟩
      · obtain ⟨front, back, hfb⟩ := ih hk
        refine ⟨a ++ sep ++ front, back, ?_⟩
        simp [stringsJoin, hfb, String.append_assoc]

/-! ## C1: the validator-count check -/

/-- With no `uint32` wrap-around, a document that passes every other check is
accepted exactly when participants times keys-per-node reaches twice the
slots-per-epoch. -/
theorem validator_count_check_in_range (d : PackageDecls) (o : ExecuteParams)
    (hother : checksOtherThanValidatorCount d o)
    (hN : o.Participants.length < uint32Modulus)
    (hNK : o.Participants.length * o.Network.NumValidatorKeysPerNode < uint32Modulus)
    (hS : 2 * o.Network.SlotsPerEpoch < uint32Modulus) :
    (∃ r, (validateParamsObj d o).ret = .ok r) ↔
      2 * o.Network.SlotsPerEpoch ≤
        o.Participants.length * o.Network.NumValidatorKeysPerNode := by
  have hact : actualNumValidators o.Participants.length o.Network =
      o.Participants.length * o.Network.NumValidatorKeysPerNode := by
    unfold actualNumValidators
    rw [Nat.mod_eq_of_lt hN, Nat.mod_eq_of_lt hNK]
  have hreq : requiredNumValidators o.Network = 2 * o.Network.SlotsPerEpoch := by
    unfold requiredNumValidators
    rw [Nat.mod_eq_of_lt hS]
  constructor
  · rintro ⟨r, hr⟩
    have := ((allChecksPass_iff_validatorCount d o).1 ((validateParamsObj_ok_iff d o r).1 hr).1).2
    rw [hact, hreq] at this
    exact Nat.le_of_not_lt this
  · intro hle
    refine ⟨normalizeParams d o, (validateParamsObj_ok_iff d o _).2 ⟨?_, rfl⟩⟩
    refine (allChecksPass_iff_validatorCount d o).2 ⟨hother, ?_⟩
    rw [hact, hreq]
    exact Nat.not_lt.2 hle

/-- C1, evaluated where it fails: with one participant, one validator key per
node and 2^31 slots per epoch, the `uint32` product `2 * SlotsPerEpoch` wraps
to 0, so the document is accepted although the 1 validator it declares is
fewer than the 2^32 that two epochs need. -/
theorem validator_count_check_wraps_around :
    sampleDecls.yamlUnmarshal "network: wrap" sampleDecls.GetDefaultExecuteParams = .ok objWrap ∧
    (DeserializeAndValidateParams sampleDecls "network: wrap").ret =
      .ok (normalizeParams sampleDecls objWrap) ∧
    objWrap.Participants.length = 1 ∧
    objWrap.Network.NumValidatorKeysPerNode = 1 ∧
    objWrap.Network.SlotsPerEpoch = 2147483648 ∧
    objWrap.Participants.length * objWrap.Network.NumValidatorKeysPerNode <
      2 * objWrap.Network.SlotsPerEpoch ∧
    requiredNumValidators objWrap.Network = 0 :=
  ⟨rfl, rfl, rfl, rfl, rfl, by decide, by decide⟩

/-- The two examples of the specification: 3 × 20 = 60 < 64 is rejected with
the required and the actual count in the message, 3 × 22 = 66 ≥ 64 is accepted. -/
theorem validator_count_examples :
    (validateParamsObj sampleDecls (objThree 20)).ret = .error (errNumValidators 64 60) ∧
    (validateParamsObj sampleDecls (objThree 22)).ret =
      .ok (normalizeParams sampleDecls (objThree 22)) :=
  ⟨rfl, rfl⟩

/-! ## C2: Nethermind as first or second participant is rejected -/

/-- C2: a decoded document whose first or second participant declares the
Nethermind EL kind makes `DeserializeAndValidateParams` return an error (and so
no params), whatever the other participants and fields are. -/
theorem nethermind_first_or_second_is_rejected (d : PackageDecls) (paramsStr : String)
    (o : ExecuteParams)
    (hparse : d.yamlUnmarshal paramsStr d.GetDefaultExecuteParams = .ok o)
    (hneth :
      (∃ p, o.Participants.get? 0 = some p ∧
          p.ELClientType = d.ParticipantELClientType_Nethermind) ∨
      (∃ p, o.Participants.get? 1 = some p ∧
          p.ELClientType = d.ParticipantELClientType_Nethermind)) :
    ∃ e, (DeserializeAndValidateParams d paramsStr).ret = .error e := by
  rw [deserialize_of_parse d paramsStr o hparse]
  apply error_of_not_allChecksPass
  intro hall
  have hfalse := ((allChecksPass_iff_beforePeering d o).1 hall).2
  have htrue : hasNethermindAsBootnodeOrSecondNode d o.Participants = true := by
    unfold hasNethermindAsBootnodeOrSecondNode
    rcases hneth with ⟨p, hp, hk⟩ | ⟨p, hp, hk⟩
    · rcases hps : o.Participants with _ | ⟨a, rest⟩
      · rw [hps] at hp; simp at hp
      · rw [hps] at hp
        simp at hp
        subst hp
        simp [hk]
    · rcases hps : o.Participants with _ | ⟨a, _ | ⟨b, rest⟩⟩
      · rw [hps] at hp; simp at hp
      · rw [hps] at hp; simp at hp
      · rw [hps] at hp
        simp at hp
        subst hp
        simp [hk]
  rw [htrue] at hfalse
  cases hfalse

/-- C2 at a document whose second participant is Nethermind and whose third is
Nethermind too. -/
theorem nethermind_first_or_second_is_rejected_witness :
    sampleDecls.yamlUnmarshal "participants: geth, nethermind, nethermind"
        sampleDecls.GetDefaultExecuteParams = .ok objNethermindSecond ∧
    (∃ e, (DeserializeAndValidateParams sampleDecls
        "participants: geth, nethermind, nethermind").ret = .error e) :=
  ⟨rfl, nethermind_first_or_second_is_rejected sampleDecls
    "participants: geth, nethermind, nethermind" objNethermindSecond rfl
    (Or.inr ⟨plainParticipant "nethermind" "teku", rfl, rfl⟩)⟩

/-! ## C3: which error a Nethermind first or second participant gets -/

theorem bodyChecksPass_second_nethermind (d : PackageDecls) (k : String) (b : ParticipantParams)
    (hvalid : d.ParticipantELClientType_Nethermind ∈ d.validParticipantELClientTypes)
    (hdefault : (d.defaultElImages.lookup d.ParticipantELClientType_Nethermind).isSome)
    (hb : b.ELClientType = d.ParticipantELClientType_Nethermind)
    (hrepl : bodyChecksPass d 1 (withoutNethermind d k b)) :
    bodyChecksPass d 1 b := by
  unfold withoutNethermind at hrepl
  rw [if_pos hb] at hrepl
  obtain ⟨-, -, -, hcl, hci⟩ := hrepl
  refine ⟨by simp, by rw [hb]; exact hvalid, fun _ => by rw [hb]; exact hdefault, hcl, hci⟩

/-- C3 as the code has it: for a decoded document that is accepted once the
first two participants use another kind `k` in place of Nethermind, a
Nethermind first participant gets the bootnode error of line 32, and
(Nethermind being a recognized EL kind with a default image) a Nethermind
second participant behind a first one of another kind gets the peering error
of line 136. -/
theorem nethermind_error_by_position (d : PackageDecls) (paramsStr k : String)
    (o : ExecuteParams)
    (hparse : d.yamlUnmarshal paramsStr d.GetDefaultExecuteParams = .ok o)
    (hacc : ∃ r, (validateParamsObj d (replaceNethermindInFirstTwo d k o)).ret = .ok r) :
    ((∃ p, o.Participants.get? 0 = some p ∧
          p.ELClientType = d.ParticipantELClientType_Nethermind) →
        (DeserializeAndValidateParams d paramsStr).ret = .error errBootnodeClient) ∧
    (d.ParticipantELClientType_Nethermind ∈ d.validParticipantELClientTypes →
      (d.defaultElImages.lookup d.ParticipantELClientType_Nethermind).isSome →
      (∃ p, o.Participants.get? 0 = some p ∧
          p.ELClientType ≠ d.ParticipantELClientType_Nethermind) →
      (∃ p, o.Participants.get? 1 = some p ∧
          p.ELClientType = d.ParticipantELClientType_Nethermind) →
        (DeserializeAndValidateParams d paramsStr).ret = .error errNethermindPeering) := by
  rw [deserialize_of_parse d paramsStr o hparse]
  obtain ⟨r, hr⟩ := hacc
  have hall := ((validateParamsObj_ok_iff d _ r).1 hr).1
  obtain ⟨ps, net, lvl⟩ := o
  obtain ⟨⟨hl, hn, hloop, hnet⟩, -⟩ := (allChecksPass_iff_beforePeering d _).1 hall
  constructor
  · rintro ⟨p, hp, hk⟩
    rcases ps with _ | ⟨a, rest⟩
    · simp at hp
    · simp at hp
      subst hp
      rw [validateParamsObj_bootnode_error d ⟨a :: rest, net, lvl⟩ a rest hl rfl (Or.inl hk)]
  · rintro hvalid hdefault ⟨p, hp, hk0⟩ ⟨q, hq, hk1⟩
    rcases ps with _ | ⟨a, _ | ⟨b, rest⟩⟩
    · simp at hp
    · simp at hq
    · simp at hp hq
      subst hp hq
      apply validateParamsObj_peering_error
      · refine ⟨hl, by simp, ?_, ?_⟩
        · intro i hi
          have hrepl := hloop i (by simpa [replaceNethermindInFirstTwo] using hi)
          match i, hi, hrepl with
          | 0, _, hrepl =>
            simpa [replaceNethermindInFirstTwo, withoutNethermind, hk0] using hrepl
          | 1, _, hrepl =>
            exact bodyChecksPass_second_nethermind d k b hvalid hdefault hk1
              (by simpa [replaceNethermindInFirstTwo] using hrepl)
          | j + 2, _, hrepl =>
            simpa [replaceNethermindInFirstTwo] using hrepl
        · simpa [replaceNethermindInFirstTwo] using hnet
      · simp [hasNethermindAsBootnodeOrSecondNode, hk1]

/-- C3 at a document whose second participant is Nethermind: the peering error. -/
theorem nethermind_error_by_position_witness :
    sampleDecls.yamlUnmarshal "participants: geth, nethermind, nethermind"
        sampleDecls.GetDefaultExecuteParams = .ok objNethermindSecond ∧
    (validateParamsObj sampleDecls
        (replaceNethermindInFirstTwo sampleDecls "geth" objNethermindSecond)).ret =
      .ok (normalizeParams sampleDecls
        (replaceNethermindInFirstTwo sampleDecls "geth" objNethermindSecond)) ∧
    (DeserializeAndValidateParams sampleDecls
        "participants: geth, nethermind, nethermind").ret = .error errNethermindPeering :=
  ⟨rfl, rfl,
    (nethermind_error_by_position sampleDecls "participants: geth, nethermind, nethermind"
      "geth" objNethermindSecond rfl ⟨_, rfl⟩).2 (by decide) rfl
      ⟨plainParticipant "geth" "lighthouse", rfl, by decide⟩
      ⟨plainParticipant "nethermind" "teku", rfl, rfl⟩⟩

/-- C3 as stated fails when Nethermind is the first participant: the document
is accepted with Geth in its place, and with Nethermind the error returned is
the bootnode error of line 32, which is not the peering error of line 136. -/
theorem nethermind_first_is_not_peering_error :
    sampleDecls.yamlUnmarshal "participants: nethermind, geth"
        sampleDecls.GetDefaultExecuteParams = .ok objNethermindFirst ∧
    objNethermindFirst.Participants.get? 0 = some (plainParticipant "nethermind" "lighthouse") ∧
    (validateParamsObj sampleDecls
        (replaceNethermindInFirstTwo sampleDecls "geth" objNethermindFirst)).ret =
      .ok (normalizeParams sampleDecls
        (replaceNethermindInFirstTwo sampleDecls "geth" objNethermindFirst)) ∧
    (DeserializeAndValidateParams sampleDecls "participants: nethermind, geth").ret =
      .error errBootnodeClient ∧
    errBootnodeClient ≠ errNethermindPeering :=
  ⟨rfl, rfl, rfl, rfl, by decide⟩

/-! ## C4: the bootnode check comes first -/

/-- C4: for a decoded document with a recognized client log level and at least
one participant, a participant 0 that declares Nethermind or Besu makes
`DeserializeAndValidateParams` return the bootnode error of line 32, whatever
else is wrong with the document, and before any warning is logged. -/
theorem bootnode_check_reported_first (d : PackageDecls) (paramsStr : String)
    (o : ExecuteParams) (p0 : ParticipantParams) (rest : List ParticipantParams)
    (hparse : d.yamlUnmarshal paramsStr d.GetDefaultExecuteParams = .ok o)
    (hlevel : o.ClientLogLevel ∈ d.validGlobalClientLogLevels)
    (hps : o.Participants = p0 :: rest)
    (hkind : p0.ELClientType = d.ParticipantELClientType_Nethermind ∨
      p0.ELClientType = d.ParticipantELClientType_Besu) :
    DeserializeAndValidateParams d paramsStr = ⟨[], .error errBootnodeClient⟩ := by
  rw [deserialize_of_parse d paramsStr o hparse]
  exact validateParamsObj_bootnode_error d o p0 rest hlevel hps hkind

/-- C4 at a document with Besu first, an unknown CL kind, a blank network id
and too few validators. -/
theorem bootnode_check_reported_first_witness :
    sampleDecls.yamlUnmarshal "participants: besu" sampleDecls.GetDefaultExecuteParams =
      .ok objBesuFirst ∧
    DeserializeAndValidateParams sampleDecls "participants: besu" =
      ⟨[], .error errBootnodeClient⟩ :=
  ⟨rfl, bootnode_check_reported_first sampleDecls "participants: besu" objBesuFirst
    (plainParticipant "besu" "no-such-client") [] rfl (by decide) rfl (Or.inr rfl)⟩

/-! ## C5: extra-args lists are never left `nil` -/

theorem argsNormalized_getD (input : Option (List String)) :
    argsNormalized input (some (input.getD [])) := by
  cases input <;> simp [argsNormalized]

/-- C5: in the params returned for an accepted document, every participant has
its EL, beacon and validator extra-args lists non-nil, each the empty list when
the input list was nil and the input list otherwise. -/
theorem extra_args_never_nil (d : PackageDecls) (paramsStr : String) (o r : ExecuteParams)
    (hparse : d.yamlUnmarshal paramsStr d.GetDefaultExecuteParams = .ok o)
    (hok : (DeserializeAndValidateParams d paramsStr).ret = .ok r) :
    r.Participants.length = o.Participants.length ∧
    ∀ (i : Nat) (p q : ParticipantParams),
      o.Participants.get? i = some p → r.Participants.get? i = some q →
        argsNormalized p.ELExtraParams q.ELExtraParams ∧
        argsNormalized p.BeaconExtraParams q.BeaconExtraParams ∧
        argsNormalized p.ValidatorExtraParams q.ValidatorExtraParams := by
  rw [deserialize_of_parse d paramsStr o hparse] at hok
  obtain ⟨hlen, hslots⟩ := accepted_participant d o r hok
  refine ⟨hlen, ?_⟩
  intro i p q hp hq
  obtain ⟨hq2, -⟩ := hslots i p q hp hq
  subst hq2
  exact ⟨argsNormalized_getD _, argsNormalized_getD _, argsNormalized_getD _⟩

/-- C5 at a document with one list given, one unset and one empty. -/
theorem extra_args_never_nil_witness :
    sampleDecls.yamlUnmarshal "participants: geth with args"
        sampleDecls.GetDefaultExecuteParams = .ok objArgs ∧
    (DeserializeAndValidateParams sampleDecls "participants: geth with args").ret =
      .ok (normalizeParams sampleDecls objArgs) ∧
    argsNormalized (some ["--syncmode=full"])
      (normalizeParticipant sampleDecls argsParticipant).ELExtraParams ∧
    argsNormalized none (normalizeParticipant sampleDecls argsParticipant).BeaconExtraParams ∧
    argsNormalized (some []) (normalizeParticipant sampleDecls argsParticipant).ValidatorExtraParams :=
  ⟨rfl, rfl,
    (extra_args_never_nil sampleDecls "participants: geth with args" objArgs
      (normalizeParams sampleDecls objArgs) rfl rfl).2 0 argsParticipant
      (normalizeParticipant sampleDecls argsParticipant) rfl rfl⟩

/-! ## C6: images resolved through the default tables -/

theorem imageResolved_normalize (keyword : String) (defaults : List (String × String))
    (kind input : String) (h : input = keyword → (defaults.lookup kind).isSome) :
    imageResolved keyword defaults kind input
      (if input = keyword then (defaults.lookup kind).getD input else input) := by
  unfold imageResolved
  by_cases hk : input = keyword
  · obtain ⟨img, himg⟩ := Option.isSome_iff_exists.1 (h hk)
    simp [hk, himg]
  · simp [hk]

/-- C6 as the code has it. For a decoded document: (1) when it is accepted,
every participant's EL and CL image is the default image of its kind if the
input image was the use-default keyword and the input image otherwise; (2) a
participant whose image is unset for a kind without an entry in the default
table makes the call return an error instead of params; (3) that error is the
internal-consistency error of line 51 (EL) or 77 (CL) when no earlier check
fails: the log level is recognized, the participants in front pass, and the
participant passes the checks that come before the image lookup. -/
theorem default_image_resolution (d : PackageDecls) (paramsStr : String) (o : ExecuteParams)
    (hparse : d.yamlUnmarshal paramsStr d.GetDefaultExecuteParams = .ok o) :
    (∀ r, (DeserializeAndValidateParams d paramsStr).ret = .ok r →
      ∀ (i : Nat) (p q : ParticipantParams),
        o.Participants.get? i = some p → r.Participants.get? i = some q →
          imageResolved d.useDefaultElImageKeyword d.defaultElImages p.ELClientType
            p.ELClientImage q.ELClientImage ∧
          imageResolved d.useDefaultClImageKeyword d.defaultClImages p.CLClientType
            p.CLClientImage q.CLClientImage) ∧
    (∀ (i : Nat) (p : ParticipantParams), o.Participants.get? i = some p →
      (p.ELClientImage = d.useDefaultElImageKeyword ∧
          d.defaultElImages.lookup p.ELClientType = none) ∨
        (p.CLClientImage = d.useDefaultClImageKeyword ∧
          d.defaultClImages.lookup p.CLClientType = none) →
      ∃ e, (DeserializeAndValidateParams d paramsStr).ret = .error e) ∧
    (∀ (i : Nat) (p : ParticipantParams), o.Participants.get? i = some p →
      reachesParticipant d o i →
      ¬ (i = 0 ∧ (p.ELClientType = d.ParticipantELClientType_Nethermind ∨
        p.ELClientType = d.ParticipantELClientType_Besu)) →
      p.ELClientType ∈ d.validParticipantELClientTypes →
      p.ELClientImage = d.useDefaultElImageKeyword →
      d.defaultElImages.lookup p.ELClientType = none →
      (DeserializeAndValidateParams d paramsStr).ret =
        .error (errNoDefaultELImage p.ELClientType)) ∧
    (∀ (i : Nat) (p : ParticipantParams), o.Participants.get? i = some p →
      reachesParticipant d o i →
      ¬ (i = 0 ∧ (p.ELClientType = d.ParticipantELClientType_Nethermind ∨
        p.ELClientType = d.ParticipantELClientType_Besu)) →
      p.ELClientType ∈ d.validParticipantELClientTypes →
      (p.ELClientImage = d.useDefaultElImageKeyword →
        (d.defaultElImages.lookup p.ELClientType).isSome) →
      p.CLClientType ∈ d.validParticipantCLClientTypes →
      p.CLClientImage = d.useDefaultClImageKeyword →
      d.defaultClImages.lookup p.CLClientType = none →
      (DeserializeAndValidateParams d paramsStr).ret =
        .error (errNoDefaultCLImage p.CLClientType)) := by
  rw [deserialize_of_parse d paramsStr o hparse]
  refine ⟨?_, ?_, ?_, ?_⟩
  · intro r hok i p q hp hq
    obtain ⟨hq2, -, -, hei, -, hci⟩ := (accepted_participant d o r hok).2 i p q hp hq
    subst hq2
    exact ⟨imageResolved_normalize _ _ _ _ hei, imageResolved_normalize _ _ _ _ hci⟩
  · intro i p hp hgap
    apply rejected_of_body_check d o i p hp
    rintro ⟨-, -, hei, -, hci⟩
    rcases hgap with ⟨hk, hnone⟩ | ⟨hk, hnone⟩
    · have := hei hk
      rw [hnone] at this
      cases this
    · have := hci hk
      rw [hnone] at this
      cases this
  · intro i p hp hreach hboot hel himg hnone
    rw [validateParamsObj_first_error d o i p _ hreach hp
      (rangeBody_no_default_el d i p hboot hel himg hnone)]
  · intro i p hp hreach hboot hel helimg hcl himg hnone
    rw [validateParamsObj_first_error d o i p _ hreach hp
      (rangeBody_no_default_cl d i p hboot hel helimg hcl himg hnone)]

/-- C6 at a document with an unset EL image and an explicit CL image, and, for
the internal-consistency error, at tables without a default image for Besu. -/
theorem default_image_resolution_witness :
    sampleDecls.yamlUnmarshal "participants: geth with args"
        sampleDecls.GetDefaultExecuteParams = .ok objArgs ∧
    (DeserializeAndValidateParams sampleDecls "participants: geth with args").ret =
      .ok (normalizeParams sampleDecls objArgs) ∧
    (normalizeParticipant sampleDecls argsParticipant).ELClientImage = "ethereum/client-go" ∧
    (normalizeParticipant sampleDecls argsParticipant).CLClientImage = "sigp/lighthouse:v3" ∧
    (imageResolved "" sampleDecls.defaultElImages "geth" ""
        (normalizeParticipant sampleDecls argsParticipant).ELClientImage ∧
      imageResolved "" sampleDecls.defaultClImages "lighthouse" "sigp/lighthouse:v3"
        (normalizeParticipant sampleDecls argsParticipant).CLClientImage) ∧
    gapDecls.yamlUnmarshal "participants: geth, besu" gapDecls.GetDefaultExecuteParams =
      .ok objGethBesu ∧
    (DeserializeAndValidateParams gapDecls "participants: geth, besu").ret =
      .error (errNoDefaultELImage "besu") :=
  ⟨rfl, rfl, rfl, rfl,
    (default_image_resolution sampleDecls "participants: geth with args" objArgs rfl).1
      (normalizeParams sampleDecls objArgs) rfl 0 argsParticipant
      (normalizeParticipant sampleDecls argsParticipant) rfl rfl,
    rfl,
    (default_image_resolution gapDecls "participants: geth, besu" objGethBesu rfl).2.2.1
      1 (plainParticipant "besu" "teku") rfl (by decide) (by decide) (by decide) rfl rfl⟩

/-- C6 as stated fails when an earlier check fails first: with no default EL
image for the recognized kind Besu, a lone Besu participant with an unset
image gets the bootnode error of line 32, not the internal-consistency error
of line 51. -/
theorem missing_default_behind_bootnode_check :
    gapDecls.yamlUnmarshal "participants: besu/lighthouse" gapDecls.GetDefaultExecuteParams =
      .ok objBesuOnly ∧
    objBesuOnly.Participants.get? 0 = some (plainParticipant "besu" "lighthouse") ∧
    "besu" ∈ gapDecls.validParticipantELClientTypes ∧
    (plainParticipant "besu" "lighthouse").ELClientImage = gapDecls.useDefaultElImageKeyword ∧
    gapDecls.defaultElImages.lookup "besu" = none ∧
    (DeserializeAndValidateParams gapDecls "participants: besu/lighthouse").ret =
      .error errBootnodeClient ∧
    errBootnodeClient ≠ errNoDefaultELImage "besu" :=
  ⟨rfl, rfl, by decide, rfl, rfl, rfl, by decide⟩

/-! ## C7: unrecognized client kinds -/

/-- C7 as the code has it. For a decoded document: (1) a participant whose EL
kind is outside the valid EL set, or whose CL kind is outside the valid CL set,
makes the call return an error; (2) when no earlier check fails (the log level
is recognized, the participants in front pass, and the participant is not
stopped by the bootnode check), an EL kind outside the valid set gets the
error of line 41 with the participant index, and the message contains every
kind of the valid EL set; (3) when moreover the EL kind is valid and the EL
image resolves, a CL kind outside the valid set gets the error of line 67
with the participant index, and the message contains every kind of the valid
CL set. -/
theorem unrecognized_client_kind (d : PackageDecls) (paramsStr : String) (o : ExecuteParams)
    (hparse : d.yamlUnmarshal paramsStr d.GetDefaultExecuteParams = .ok o) :
    (∀ (i : Nat) (p : ParticipantParams), o.Participants.get? i = some p →
      p.ELClientType ∉ d.validParticipantELClientTypes ∨
        p.CLClientType ∉ d.validParticipantCLClientTypes →
      ∃ e, (DeserializeAndValidateParams d paramsStr).ret = .error e) ∧
    (∀ (i : Nat) (p : ParticipantParams), o.Participants.get? i = some p →
      reachesParticipant d o i →
      ¬ (i = 0 ∧ (p.ELClientType = d.ParticipantELClientType_Nethermind ∨
        p.ELClientType = d.ParticipantELClientType_Besu)) →
      p.ELClientType ∉ d.validParticipantELClientTypes →
      (DeserializeAndValidateParams d paramsStr).ret =
          .error (errUnrecognizedEL i p.ELClientType d.validParticipantELClientTypes) ∧
        ∀ k ∈ d.validParticipantELClientTypes, ∃ front back : String,
          (DeserializeAndValidateParams d paramsStr).ret =
            .error (.newError (front ++ k ++ back))) ∧
    (∀ (i : Nat) (p : ParticipantParams), o.Participants.get? i = some p →
      reachesParticipant d o i →
      ¬ (i = 0 ∧ (p.ELClientType = d.ParticipantELClientType_Nethermind ∨
        p.ELClientType = d.ParticipantELClientType_Besu)) →
      p.ELClientType ∈ d.validParticipantELClientTypes →
      (p.ELClientImage = d.useDefaultElImageKeyword →
        (d.defaultElImages.lookup p.ELClientType).isSome) →
      p.CLClientType ∉ d.validParticipantCLClientTypes →
      (DeserializeAndValidateParams d paramsStr).ret =
          .error (errUnrecognizedCL i p.CLClientType d.validParticipantCLClientTypes) ∧
        ∀ k ∈ d.validParticipantCLClientTypes, ∃ front back : String,
          (DeserializeAndValidateParams d paramsStr).ret =
            .error (.newError (front ++ k ++ back))) := by
  rw [deserialize_of_parse d paramsStr o hparse]
  refine ⟨?_, ?_, ?_⟩
  · intro i p hp hkind
    apply rejected_of_body_check d o i p hp
    rintro ⟨-, hel, -, hcl, -⟩
    rcases hkind with h | h
    · exact h hel
    · exact h hcl
  · intro i p hp hreach hboot hel
    have hret := validateParamsObj_first_error d o i p _ hreach hp
      (rangeBody_unrecognized_el d i p hboot hel)
    rw [hret]
    refine ⟨rfl, ?_⟩
    intro k hk
    obtain ⟨front, back, hfb⟩ := stringsJoin_contains ", " k _ hk
    refine ⟨"Participant " ++ fmtNat i ++ " declares unrecognized EL client type '" ++
      p.ELClientType ++ "'; valid values are: " ++ front, back, ?_⟩
    simp [errUnrecognizedEL, hfb, String.append_assoc]
  · intro i p hp hreach hboot hel helimg hcl
    have hret := validateParamsObj_first_error d o i p _ hreach hp
      (rangeBody_unrecognized_cl d i p hboot hel helimg hcl)
    rw [hret]
    refine ⟨rfl, ?_⟩
    intro k hk
    obtain ⟨front, back, hfb⟩ := stringsJoin_contains ", " k _ hk
    refine ⟨"Participant " ++ fmtNat i ++ " declares unrecognized CL client type '" ++
      p.CLClientType ++ "'; valid values are: " ++ front, back, ?_⟩
    simp [errUnrecognizedCL, hfb, String.append_assoc]

/-- C7 at a document whose second participant declares an unknown EL kind. -/
theorem unrecognized_client_kind_witness :
    sampleDecls.yamlUnmarshal "participants: geth, no-such-el"
        sampleDecls.GetDefaultExecuteParams = .ok objUnknownEL ∧
    (DeserializeAndValidateParams sampleDecls "participants: geth, no-such-el").ret =
      .error (.newError
        "Participant 1 declares unrecognized EL client type 'no-such-el'; valid values are: geth, nethermind, besu") :=
  ⟨rfl,
    ((unrecognized_client_kind sampleDecls "participants: geth, no-such-el" objUnknownEL
      rfl).2.1 1 (plainParticipant "no-such-el" "teku") rfl (by decide) (by decide)
      (by decide)).1⟩

/-- C7 as stated fails when the participant is stopped by an earlier check of
its own iteration: a lone Besu participant with a CL kind outside the valid
set is the first participant to fail a check, and the error returned is the
bootnode error of line 32, not the unrecognized-CL-kind error of line 67. -/
theorem unknown_cl_kind_behind_bootnode_check :
    sampleDecls.yamlUnmarshal "participants: besu/no-such-client"
        sampleDecls.GetDefaultExecuteParams = .ok objBesuUnknownCL ∧
    objBesuUnknownCL.ClientLogLevel ∈ sampleDecls.validGlobalClientLogLevels ∧
    objBesuUnknownCL.Participants = [plainParticipant "besu" "no-such-client"] ∧
    "no-such-client" ∉ sampleDecls.validParticipantCLClientTypes ∧
    (DeserializeAndValidateParams sampleDecls "participants: besu/no-such-client").ret =
      .error errBootnodeClient ∧
    errBootnodeClient ≠
      errUnrecognizedCL 0 "no-such-client" sampleDecls.validParticipantCLClientTypes :=
  ⟨rfl, by decide, rfl, by decide, rfl, by decide⟩

/-! ## C8: no participants, a blank network id, zero seconds per slot -/

/-- C8: a decoded document with zero participants, or a blank network id, or
seconds-per-slot equal to 0 makes `DeserializeAndValidateParams` return an
error (and so no params), whatever its other fields are. -/
theorem rejects_empty_blank_or_zero (d : PackageDecls) (paramsStr : String) (o : ExecuteParams)
    (hparse : d.yamlUnmarshal paramsStr d.GetDefaultExecuteParams = .ok o)
    (hbad : o.Participants.length = 0 ∨ isBlank o.Network.NetworkID ∨
      o.Network.SecondsPerSlot = 0) :
    ∃ e, (DeserializeAndValidateParams d paramsStr).ret = .error e := by
  rw [deserialize_of_parse d paramsStr o hparse]
  apply error_of_not_allChecksPass
  rintro ⟨-, hn, -, hid, -, -, hsps, -⟩
  rcases hbad with h | h | h
  · exact hn h
  · exact hid h
  · exact hsps h

/-- C8 at one document of each kind; each gets the error of its own check. -/
theorem rejects_empty_blank_or_zero_witness :
    (objNoParticipants.Participants.length = 0 ∧
      ∃ e, (DeserializeAndValidateParams sampleDecls "participants: none").ret = .error e) ∧
    (isBlank objBlankNetworkID.Network.NetworkID ∧
      ∃ e, (DeserializeAndValidateParams sampleDecls "network: blank id").ret = .error e) ∧
    ((withSecondsPerSlot 0 sampleDefaults).Network.SecondsPerSlot = 0 ∧
      ∃ e, (DeserializeAndValidateParams sampleDecls "network: 0 seconds per slot").ret =
        .error e) ∧
    (DeserializeAndValidateParams sampleDecls "participants: none").ret =
      .error errNoParticipants ∧
    (DeserializeAndValidateParams sampleDecls "network: blank id").ret = .error errNetworkID ∧
    (DeserializeAndValidateParams sampleDecls "network: 0 seconds per slot").ret =
      .error errSecondsPerSlot :=
  ⟨⟨rfl, rejects_empty_blank_or_zero sampleDecls "participants: none" objNoParticipants rfl
      (Or.inl rfl)⟩,
    ⟨by decide, rejects_empty_blank_or_zero sampleDecls "network: blank id" objBlankNetworkID rfl
      (Or.inr (Or.inl (by decide)))⟩,
    ⟨rfl, rejects_empty_blank_or_zero sampleDecls "network: 0 seconds per slot"
      (withSecondsPerSlot 0 sampleDefaults) rfl (Or.inr (Or.inr rfl))⟩,
    rfl, rfl, rfl⟩

/-! ## C9: the four text fields of an accepted document are not blank -/

theorem dropWhile_eq_nil_iff_all {α : Type} (f : α → Bool) (l : List α) :
    l.dropWhile f = [] ↔ ∀ c ∈ l, f c = true := by
  induction l with
  | nil => simp
  | cons a rest ih =>
    by_cases ha : f a = true
    · simp [List.dropWhile_cons, ha, ih]
    · simp [List.dropWhile_cons, ha]

theorem dropWhile_reverse_dropWhile_eq_nil {α : Type} (f : α → Bool) (l : List α) :
    (l.dropWhile f).reverse.dropWhile f = [] ↔ l.dropWhile f = [] := by
  constructor
  · intro h
    have hall := (dropWhile_eq_nil_iff_all f _).1 h
    rcases hd : l.dropWhile f with _ | ⟨a, rest⟩
    · rfl
    · have hfa : f a = true := hall a (by rw [hd]; simp)
      have hna : ¬ f a = true := by
        have := List.head_dropWhile_not f l (by rw [hd]; simp)
        simp only [hd, List.head_cons] at this
        simp [this]
      exact absurd hfa hna
  · intro h
    rw [h]
    rfl

/-- Blank means: every character is white space (the empty string included). -/
theorem isBlank_iff_all_space (s : String) :
    isBlank s ↔ ∀ c ∈ s.data, unicodeIsSpace c = true := by
  unfold isBlank goLen stringsTrimSpace
  rw [String.utf8ByteSize_mk, String.utf8Len_eq_zero, List.reverse_eq_nil_iff,
    dropWhile_reverse_dropWhile_eq_nil, dropWhile_eq_nil_iff_all]

theorem not_isBlank_iff (s : String) :
    ¬ isBlank s ↔ ∃ c ∈ s.data, unicodeIsSpace c = false := by
  rw [isBlank_iff_all_space]
  push_neg
  simp

/-- C9: a decoded document that `DeserializeAndValidateParams` accepts has a
network id, a premine mnemonic, a deposit contract address and a
preregistered-validator mnemonic that are not blank: trimming the surrounding
white space does not leave the empty string, that is, each holds a character
that is not white space. The returned params carry the same four values. -/
theorem accepted_text_fields_not_blank (d : PackageDecls) (paramsStr : String)
    (o r : ExecuteParams)
    (hparse : d.yamlUnmarshal paramsStr d.GetDefaultExecuteParams = .ok o)
    (hok : (DeserializeAndValidateParams d paramsStr).ret = .ok r) :
    r.Network = o.Network ∧
    ∀ field ∈ [o.Network.NetworkID, o.Network.PremineAccountMnemonic,
        o.Network.DepositContractAddress, o.Network.PreregisteredValidatorKeysMnemonic],
      goLen (stringsTrimSpace field) ≠ 0 ∧ stringsTrimSpace field ≠ "" ∧
        ∃ c ∈ field.data, unicodeIsSpace c = false := by
  obtain ⟨hall, hr⟩ := (deserialize_ok_iff d paramsStr o r hparse).1 hok
  obtain ⟨-, -, -, h1, h2, h3, -, -, -, h4, -⟩ := hall
  refine ⟨by rw [hr]; rfl, ?_⟩
  have key : ∀ field : String, ¬ isBlank field →
      goLen (stringsTrimSpace field) ≠ 0 ∧ stringsTrimSpace field ≠ "" ∧
        ∃ c ∈ field.data, unicodeIsSpace c = false := by
    intro field hf
    refine ⟨hf, ?_, (not_isBlank_iff field).1 hf⟩
    intro hempty
    apply hf
    unfold isBlank
    rw [hempty]
    rfl
  intro field hmem
  simp only [List.mem_cons, List.mem_singleton, List.not_mem_nil, or_false] at hmem
  rcases hmem with rfl | rfl | rfl | rfl
  · exact key _ h1
  · exact key _ h2
  · exact key _ h3
  · exact key _ h4

/-- C9 at an accepted document, for its network id; and a value of spaces, a
tab and a no-break space is blank like the empty one. -/
theorem accepted_text_fields_not_blank_witness :
    sampleDecls.yamlUnmarshal "participants: geth with args"
        sampleDecls.GetDefaultExecuteParams = .ok objArgs ∧
    (DeserializeAndValidateParams sampleDecls "participants: geth with args").ret =
      .ok (normalizeParams sampleDecls objArgs) ∧
    (goLen (stringsTrimSpace "3151908") ≠ 0 ∧ stringsTrimSpace "3151908" ≠ "" ∧
      ∃ c ∈ "3151908".data, unicodeIsSpace c = false) ∧
    isBlank "" ∧ isBlank "  \t " :=
  ⟨rfl, rfl,
    (accepted_text_fields_not_blank sampleDecls "participants: geth with args" objArgs
      (normalizeParams sampleDecls objArgs) rfl rfl).2 "3151908" (List.mem_cons_self _ _),
    by decide, by decide⟩

/-! ## C10: the timing check is `≥ 1` and nothing more -/

theorem allChecksPass_withSecondsPerSlot (d : PackageDecls) (o : ExecuteParams) (v : Nat)
    (hv : 1 ≤ v) (hall : allChecksPass d o) : allChecksPass d (withSecondsPerSlot v o) := by
  obtain ⟨h0, h1, h2, h3, h4, h5, -, h7, h8, h9, h10⟩ := hall
  exact ⟨h0, h1, h2, h3, h4, h5, Nat.pos_iff_ne_zero.1 hv, h7, h8, h9, h10⟩

/-- The warnings of an accepted call: one line for a seconds-per-slot value
other than 12, then one for a slots-per-epoch value other than 32. -/
theorem warnings_of_accepted (d : PackageDecls) (o r : ExecuteParams)
    (hok : (validateParamsObj d o).ret = .ok r) :
    (validateParamsObj d o).warnings =
      (if o.Network.SecondsPerSlot ≠ expectedSecondsPerSlot then
          [warnSecondsPerSlot o.Network.SecondsPerSlot] else []) ++
        (if o.Network.SlotsPerEpoch ≠ expectedSlotsPerEpoch then
          [warnSlotsPerEpoch o.Network.SlotsPerEpoch] else []) := by
  obtain ⟨⟨hl, hn, hall, h1, h2, h3, h4, h5, h6, h7, h8⟩, -⟩ :=
    (validateParamsObj_ok_iff d o r).1 hok
  have hloop := (rangeParticipants_ok_iff d o.Participants 0
    (o.Participants.map (normalizeParticipant d))).2 ⟨by simpa using hall, rfl⟩
  unfold isBlank at h1 h2 h3 h7
  unfold actualNumValidators requiredNumValidators at h6
  unfold validateParamsObj
  simp only [hl, hn, hloop, not_true_eq_false, if_false, hasNethermind_map_normalize,
    List.length_map, h1, h2, h3, h4, h5, h6, h7, h8, Bool.false_eq_true]
  split_ifs <;> simp

/-- C10: a decoded document that `DeserializeAndValidateParams` accepts has
seconds-per-slot ≥ 1 and slots-per-epoch ≥ 1; and the same document with any
seconds-per-slot value `v ≥ 1` in its place is accepted too, with the same
params returned except for that field. -/
theorem timing_check_is_at_least_one (d : PackageDecls) (paramsStr : String)
    (o r : ExecuteParams)
    (hparse : d.yamlUnmarshal paramsStr d.GetDefaultExecuteParams = .ok o)
    (hok : (DeserializeAndValidateParams d paramsStr).ret = .ok r) :
    1 ≤ o.Network.SecondsPerSlot ∧ 1 ≤ o.Network.SlotsPerEpoch ∧
    r.Network.SecondsPerSlot = o.Network.SecondsPerSlot ∧
    r.Network.SlotsPerEpoch = o.Network.SlotsPerEpoch ∧
    ∀ (v : Nat) (paramsStr2 : String), 1 ≤ v →
      d.yamlUnmarshal paramsStr2 d.GetDefaultExecuteParams = .ok (withSecondsPerSlot v o) →
      (DeserializeAndValidateParams d paramsStr2).ret = .ok (withSecondsPerSlot v r) := by
  obtain ⟨hall, hr⟩ := (deserialize_ok_iff d paramsStr o r hparse).1 hok
  subst hr
  refine ⟨Nat.pos_iff_ne_zero.2 hall.2.2.2.2.2.2.1, Nat.pos_iff_ne_zero.2 hall.2.2.2.2.2.2.2.1,
    rfl, rfl, ?_⟩
  intro v paramsStr2 hv hparse2
  exact (deserialize_ok_iff d paramsStr2 _ _ hparse2).2
    ⟨allChecksPass_withSecondsPerSlot d o v hv hall, rfl⟩

/-- C10 at an accepted document with 12 seconds per slot, and at the same
document with 1 second per slot. -/
theorem timing_check_is_at_least_one_witness :
    sampleDecls.yamlUnmarshal "participants: geth with args"
        sampleDecls.GetDefaultExecuteParams = .ok objArgs ∧
    (DeserializeAndValidateParams sampleDecls "participants: geth with args").ret =
      .ok (normalizeParams sampleDecls objArgs) ∧
    objArgs.Network.SecondsPerSlot = 12 ∧
    sampleDecls.yamlUnmarshal "network: 1 second per slot"
        sampleDecls.GetDefaultExecuteParams = .ok (withSecondsPerSlot 1 objArgs) ∧
    (DeserializeAndValidateParams sampleDecls "network: 1 second per slot").ret =
      .ok (withSecondsPerSlot 1 (normalizeParams sampleDecls objArgs)) :=
  ⟨rfl, rfl, rfl, rfl,
    (timing_check_is_at_least_one sampleDecls "participants: geth with args" objArgs
      (normalizeParams sampleDecls objArgs) rfl rfl).2.2.2.2 1 "network: 1 second per slot"
      (Nat.le_refl 1) rfl⟩

end ParamsDeserializer

namespace CLGenesis

open Kurtosis

/-! ## Facts about `execCommand` and the command loops -/

theorem execCommand_events {σ : Type} (rt : Runtime σ) (serviceCtx : ServiceContext)
    (cmd : List String) (w : σ) :
    (execCommand rt serviceCtx cmd w).events =
      [Event.execCommand serviceCtx.serviceID cmd (rt.ExecCommand w serviceCtx.serviceID cmd).1] := by
  unfold execCommand
  dsimp only
  split
  · rfl
  · split <;> rfl

theorem execCommand_val_none_iff {σ : Type} (rt : Runtime σ) (serviceCtx : ServiceContext)
    (cmd : List String) (w : σ) :
    (execCommand rt serviceCtx cmd w).val = none ↔
      (Event.execCommand serviceCtx.serviceID cmd
        (rt.ExecCommand w serviceCtx.serviceID cmd).1).isFailedExec = false := by
  unfold execCommand
  dsimp only
  split
  · rename_i err h
    simp [h, Event.isFailedExec]
  · rename_i exitCode output h
    by_cases hc : exitCode = 0 <;> simp [h, hc, Event.isFailedExec, successfulExecCmdExitCode]

theorem execCommand_cmdTrace {σ : Type} (rt : Runtime σ) (serviceCtx : ServiceContext)
    (cmd : List String) (w : σ) :
    CmdTrace (execCommand rt serviceCtx cmd w).val (execCommand rt serviceCtx cmd w).events := by
  rw [execCommand_events]
  by_cases h : (execCommand rt serviceCtx cmd w).val = none
  · left
    refine ⟨h, ?_⟩
    intro ev hev
    simp only [List.mem_singleton] at hev
    subst hev
    exact ⟨rfl, (execCommand_val_none_iff rt serviceCtx cmd w).1 h⟩
  · right
    refine ⟨h, [], _, rfl, by simp, rfl, ?_⟩
    have := (not_congr (execCommand_val_none_iff rt serviceCtx cmd w)).1 h
    simpa using this

theorem cmdTrace_append {v : Option TracedError} {e1 e2 : List Event}
    (h1 : CmdTrace none e1) (h2 : CmdTrace v e2) : CmdTrace v (e1 ++ e2) := by
  rcases h1 with ⟨-, hall1⟩ | ⟨hne, -⟩
  swap
  · exact absurd rfl hne
  rcases h2 with ⟨hv, hall2⟩ | ⟨hv, front, last, he, hfront, hlast⟩
  · left
    refine ⟨hv, ?_⟩
    intro ev hev
    rcases List.mem_append.1 hev with h | h
    · exact hall1 ev h
    · exact hall2 ev h
  · right
    refine ⟨hv, e1 ++ front, last, by rw [he, List.append_assoc], ?_, hlast⟩
    intro ev hev
    rcases List.mem_append.1 hev with h | h
    · exact hall1 ev h
    · exact hfront ev h

theorem cmdTrace_some {v : Option TracedError} {e : TracedError} {events : List Event}
    (hv : v ≠ none) (h : CmdTrace v events) : CmdTrace (some e) events := by
  rcases h with ⟨hnone, -⟩ | ⟨-, rest⟩
  · exact absurd hnone hv
  · exact Or.inr ⟨by simp, rest⟩

theorem copyLoop_cmdTrace {σ : Type} (rt : Runtime σ) (serviceCtx : ServiceContext) :
    ∀ (files : List String) (w : σ),
      CmdTrace (copyLoop rt serviceCtx files w).val (copyLoop rt serviceCtx files w).events := by
  intro files
  induction files with
  | nil => intro w; exact Or.inl ⟨rfl, by simp [copyLoop]⟩
  | cons f rest ih =>
    intro w
    have hs := execCommand_cmdTrace rt serviceCtx ["cp", f, outputDirpathOnGenerator] w
    unfold copyLoop
    dsimp only
    cases hval : (execCommand rt serviceCtx ["cp", f, outputDirpathOnGenerator] w).val with
    | some err =>
      simp only
      exact cmdTrace_some (by simp [hval]) hs
    | none =>
      simp only
      rw [hval] at hs
      exact cmdTrace_append hs (ih _)

theorem writeLoop_cmdTrace {σ : Type} (rt : Runtime σ) (serviceCtx : ServiceContext) :
    ∀ (entries : List (String × String)) (w : σ),
      CmdTrace (writeLoop rt serviceCtx entries w).val
        (writeLoop rt serviceCtx entries w).events := by
  intro entries
  induction entries with
  | nil => intro w; exact Or.inl ⟨rfl, by simp [writeLoop]⟩
  | cons entry rest ih =>
    intro w
    obtain ⟨content, destFilename⟩ := entry
    have hs := execCommand_cmdTrace rt serviceCtx (writeCmd content destFilename) w
    unfold writeLoop
    dsimp only
    cases hval : (execCommand rt serviceCtx (writeCmd content destFilename) w).val with
    | some err =>
      simp only
      exact cmdTrace_some (by simp [hval]) hs
    | none =>
      simp only
      rw [hval] at hs
      exact cmdTrace_append hs (ih _)

/-! ## The shape of a run of `GenerateCLGenesisData` -/

/-- What the calls made on the generator service look like: commands that
succeeded followed by one that failed, with an error returned; or commands
that all succeeded followed by the `StoreServiceFiles` call, whose response
decides the returned value. -/
theorem generateOnService_shape {σ : Type} (rt : Runtime σ) (rangeReversed : Bool)
    (elGenesisData : ELGenesisData) (depositContractAddress : String)
    (serviceCtx : ServiceContext) (w : σ) :
    (∃ (e : TracedError) (front : List Event) (last : Event),
      (generateOnService rt rangeReversed elGenesisData depositContractAddress serviceCtx w).val =
        .error e ∧
      (generateOnService rt rangeReversed elGenesisData depositContractAddress
        serviceCtx w).events = front ++ [last] ∧
      (∀ ev ∈ front, ev.isExec = true ∧ ev.isFailedExec = false) ∧
      last.isExec = true ∧ last.isFailedExec = true) ∨
    (∃ (execs : List Event) (res : Except String String),
      (generateOnService rt rangeReversed elGenesisData depositContractAddress
        serviceCtx w).events =
        execs ++ [Event.storeServiceFiles serviceCtx.serviceID outputDirpathOnGenerator res] ∧
      (∀ ev ∈ execs, ev.isExec = true ∧ ev.isFailedExec = false) ∧
      ((∃ (err : String) (e : TracedError), res = .error err ∧
          (generateOnService rt rangeReversed elGenesisData depositContractAddress
            serviceCtx w).val = .error e) ∨
        (∃ uuid : String, res = .ok uuid ∧
          (generateOnService rt rangeReversed elGenesisData depositContractAddress
            serviceCtx w).val = .ok (resultFor elGenesisData uuid)))) := by
  have h1 := execCommand_cmdTrace rt serviceCtx dirCreationCmd w
  unfold generateOnService
  dsimp only
  cases hv1 : (execCommand rt serviceCtx dirCreationCmd w).val with
  | some err1 =>
    rw [hv1] at h1
    rcases h1 with ⟨hn, -⟩ | ⟨-, front, last, he, hfront, hlast⟩
    · cases hn
    · exact Or.inl ⟨_, front, last, rfl, he, hfront, hlast⟩
  | none =>
    rw [hv1] at h1
    have h2 := copyLoop_cmdTrace rt serviceCtx (allFilepathsToCopyToOuptutDirectory elGenesisData)
      (execCommand rt serviceCtx dirCreationCmd w).world
    dsimp only
    cases hv2 : (copyLoop rt serviceCtx (allFilepathsToCopyToOuptutDirectory elGenesisData)
      (execCommand rt serviceCtx dirCreationCmd w).world).val with
    | some err2 =>
      rw [hv2] at h2
      rcases cmdTrace_append h1 h2 with ⟨hn, -⟩ | ⟨-, front, last, he, hfront, hlast⟩
      · cases hn
      · exact Or.inl ⟨_, front, last, rfl, he, hfront, hlast⟩
    | none =>
      rw [hv2] at h2
      have h12 := cmdTrace_append h1 h2
      have h3 := writeLoop_cmdTrace rt serviceCtx
        (goRange rangeReversed (contentToWriteToOutputFilename depositContractAddress))
        (copyLoop rt serviceCtx (allFilepathsToCopyToOuptutDirectory elGenesisData)
          (execCommand rt serviceCtx dirCreationCmd w).world).world
      dsimp only
      cases hv3 : (writeLoop rt serviceCtx
        (goRange rangeReversed (contentToWriteToOutputFilename depositContractAddress))
        (copyLoop rt serviceCtx (allFilepathsToCopyToOuptutDirectory elGenesisData)
          (execCommand rt serviceCtx dirCreationCmd w).world).world).val with
      | some err3 =>
        rw [hv3] at h3
        rcases cmdTrace_append h12 h3 with ⟨hn, -⟩ | ⟨-, front, last, he, hfront, hlast⟩
        · cases hn
        · exact Or.inl ⟨_, front, last, rfl, he, hfront, hlast⟩
      | none =>
        rw [hv3] at h3
        have h123 := cmdTrace_append h12 h3
        have h4 := execCommand_cmdTrace rt serviceCtx (clGenesisGenerationCmdArgs elGenesisData)
          (writeLoop rt serviceCtx
            (goRange rangeReversed (contentToWriteToOutputFilename depositContractAddress))
            (copyLoop rt serviceCtx (allFilepathsToCopyToOuptutDirectory elGenesisData)
              (execCommand rt serviceCtx dirCreationCmd w).world).world).world
        dsimp only
        cases hv4 : (execCommand rt serviceCtx (clGenesisGenerationCmdArgs elGenesisData)
          (writeLoop rt serviceCtx
            (goRange rangeReversed (contentToWriteToOutputFilename depositContractAddress))
            (copyLoop rt serviceCtx (allFilepathsToCopyToOuptutDirectory elGenesisData)
              (execCommand rt serviceCtx dirCreationCmd w).world).world).world).val with
        | some err4 =>
          rw [hv4] at h4
          rcases cmdTrace_append h123 h4 with ⟨hn, -⟩ | ⟨-, front, last, he, hfront, hlast⟩
          · cases hn
          · exact Or.inl ⟨_, front, last, rfl, he, hfront, hlast⟩
        | none =>
          rw [hv4] at h4
          rcases cmdTrace_append h123 h4 with ⟨-, hall⟩ | ⟨hn, -⟩
          swap
          · exact absurd rfl hn
          right
          dsimp only
          split
          · rename_i err hres
            exact ⟨_, _, by rw [hres], hall, Or.inl ⟨err, _, rfl, rfl⟩⟩
          · rename_i uuid hres
            exact ⟨_, _, by rw [hres], hall, Or.inr ⟨uuid, rfl, rfl⟩⟩

theorem launch_shape {σ : Type} (rt : Runtime σ) (mounts : List (String × String)) (w : σ) :
    (∃ (id : String) (cfg : ContainerConfig) (err : String) (e : TracedError),
      (PrelaunchDataGenerator.LaunchPrelaunchDataGenerator rt mounts w).events =
        [Event.addService id cfg (.error err)] ∧
      (PrelaunchDataGenerator.LaunchPrelaunchDataGenerator rt mounts w).val = .error e) ∨
    (∃ (id : String) (cfg : ContainerConfig) (ctx : ServiceContext),
      (PrelaunchDataGenerator.LaunchPrelaunchDataGenerator rt mounts w).events =
        [Event.addService id cfg (.ok ctx)] ∧
      (PrelaunchDataGenerator.LaunchPrelaunchDataGenerator rt mounts w).val = .ok ctx) := by
  unfold PrelaunchDataGenerator.LaunchPrelaunchDataGenerator
  dsimp only
  split
  · rename_i err hres
    exact Or.inl ⟨_, _, err, _, by rw [hres], rfl⟩
  · rename_i ctx hres
    exact Or.inr ⟨_, _, ctx, by rw [hres], rfl⟩

theorem removeGenerator_events {σ : Type} (rt : Runtime σ) (serviceCtx : ServiceContext) (w : σ) :
    (removeGenerator rt serviceCtx w).events =
      [Event.removeService serviceCtx.serviceID (rt.RemoveService w serviceCtx.serviceID).1] := by
  unfold removeGenerator
  dsimp only
  split <;> rfl

/-- The three ways a run of `GenerateCLGenesisData` can go: the templates do
not render; the generator service does not launch; or the service launches,
the code of lines 104 to 225 runs on it, and its removal is attempted. -/
theorem generate_shape {σ : Type} (rt : Runtime σ) (rangeReversed : Bool)
    (configTemplate mnemonicsTemplate : String) (elGenesisData : ELGenesisData)
    (genesisUnixTimestamp : Nat) (networkId depositContractAddress : String)
    (secondsPerSlot : Nat) (mnemonic : String) (numKeys : Nat) (w : σ) :
    (∃ (files : List (String × TemplateAndData)) (err : String) (e : TracedError),
      (GenerateCLGenesisData rt rangeReversed configTemplate mnemonicsTemplate elGenesisData
        genesisUnixTimestamp networkId depositContractAddress secondsPerSlot mnemonic numKeys
        w).events = [Event.renderTemplates files (.error err)] ∧
      (GenerateCLGenesisData rt rangeReversed configTemplate mnemonicsTemplate elGenesisData
        genesisUnixTimestamp networkId depositContractAddress secondsPerSlot mnemonic numKeys
        w).ret = .error e) ∨
    (∃ (files : List (String × TemplateAndData)) (uuid id : String) (cfg : ContainerConfig)
        (err : String) (e : TracedError),
      (GenerateCLGenesisData rt rangeReversed configTemplate mnemonicsTemplate elGenesisData
        genesisUnixTimestamp networkId depositContractAddress secondsPerSlot mnemonic numKeys
        w).events = [Event.renderTemplates files (.ok uuid), Event.addService id cfg (.error err)] ∧
      (GenerateCLGenesisData rt rangeReversed configTemplate mnemonicsTemplate elGenesisData
        genesisUnixTimestamp networkId depositContractAddress secondsPerSlot mnemonic numKeys
        w).ret = .error e) ∨
    (∃ (files : List (String × TemplateAndData)) (uuid id : String) (cfg : ContainerConfig)
        (ctx : ServiceContext) (w1 : σ) (rm : Option String),
      (GenerateCLGenesisData rt rangeReversed configTemplate mnemonicsTemplate elGenesisData
        genesisUnixTimestamp networkId depositContractAddress secondsPerSlot mnemonic numKeys
        w).events =
        [Event.renderTemplates files (.ok uuid), Event.addService id cfg (.ok ctx)] ++
          (generateOnService rt rangeReversed elGenesisData depositContractAddress ctx w1).events ++
          [Event.removeService ctx.serviceID rm] ∧
      (GenerateCLGenesisData rt rangeReversed configTemplate mnemonicsTemplate elGenesisData
        genesisUnixTimestamp networkId depositContractAddress secondsPerSlot mnemonic numKeys
        w).ret =
        (generateOnService rt rangeReversed elGenesisData depositContractAddress ctx w1).val) := by
  unfold GenerateCLGenesisData
  dsimp only
  split
  · rename_i err hres
    exact Or.inl ⟨_, err, _, by rw [hres], rfl⟩
  · rename_i uuid hres
    right
    rcases launch_shape rt
      (goMap [(uuid, configDirpathOnGenerator),
        (elGenesisData.filesArtifactUUID, elGenesisDirpathOnGenerator)])
      (rt.RenderTemplates w _).2 with ⟨id, cfg, err, e, hev, hval⟩ | ⟨id, cfg, ctx, hev, hval⟩
    · left
      dsimp only
      rw [hval]
      dsimp only
      rw [hev, hres]
      exact ⟨_, uuid, id, cfg, err, _, rfl, rfl⟩
    · right
      dsimp only
      rw [hval]
      dsimp only
      rw [hev, removeGenerator_events, hres]
      exact ⟨_, uuid, id, cfg, ctx, _, _, rfl, rfl⟩

/-- In a list with a single element satisfying `P`, a split at an element
satisfying `P` is the split at that element. -/
theorem split_at_unique {α : Type} (P : α → Prop) :
    ∀ (a front : List α) (x ev : α) (b rest : List α),
      a ++ x :: b = front ++ ev :: rest → (∀ y ∈ a, ¬ P y) → (∀ y ∈ b, ¬ P y) → P ev →
      rest = b := by
  intro a
  induction a with
  | nil =>
    intro front x ev b rest h _ hb hev
    cases front with
    | nil => simp at h; exact h.2.symm
    | cons f front2 =>
      simp at h
      have : ev ∈ b := by rw [h.2]; simp
      exact absurd hev (hb ev this)
  | cons a0 a ih =>
    intro front x ev b rest h ha hb hev
    cases front with
    | nil =>
      simp at h
      exact absurd hev (by rw [← h.1]; exact ha a0 (by simp))
    | cons f front2 =>
      simp at h
      exact ih front2 x ev b rest h.2 (fun y hy => ha y (by simp [hy])) hb hev

theorem isStore_of_isExec (x : Event) (h : x.isExec = true) : x.isStore = false := by
  cases x <;> simp_all [Event.isExec, Event.isStore]

/-! ## C11: a failed command aborts the generation -/

/-- C11: split the calls of a run of `GenerateCLGenesisData` at any
in-container command that returned an execution error or a non-zero exit
code. Then the run returns an error (and so no genesis data), no call after
that command is an in-container command or `StoreServiceFiles`, and the run
never calls `StoreServiceFiles` at all. -/
theorem failed_command_aborts_generation {σ : Type} (rt : Runtime σ) (rangeReversed : Bool)
    (configTemplate mnemonicsTemplate : String) (elGenesisData : ELGenesisData)
    (genesisUnixTimestamp : Nat) (networkId depositContractAddress : String)
    (secondsPerSlot : Nat) (mnemonic : String) (numKeys : Nat) (w : σ)
    (front : List Event) (ev : Event) (rest : List Event)
    (hsplit : (GenerateCLGenesisData rt rangeReversed configTemplate mnemonicsTemplate
      elGenesisData genesisUnixTimestamp networkId depositContractAddress secondsPerSlot
      mnemonic numKeys w).events = front ++ ev :: rest)
    (hfail : ev.isFailedExec = true) :
    (∃ e, (GenerateCLGenesisData rt rangeReversed configTemplate mnemonicsTemplate
      elGenesisData genesisUnixTimestamp networkId depositContractAddress secondsPerSlot
      mnemonic numKeys w).ret = .error e) ∧
    (∀ x ∈ rest, x.isExec = false ∧ x.isStore = false) ∧
    (∀ x ∈ (GenerateCLGenesisData rt rangeReversed configTemplate mnemonicsTemplate
      elGenesisData genesisUnixTimestamp networkId depositContractAddress secondsPerSlot
      mnemonic numKeys w).events, x.isStore = false) := by
  have hmem : ev ∈ (GenerateCLGenesisData rt rangeReversed configTemplate mnemonicsTemplate
      elGenesisData genesisUnixTimestamp networkId depositContractAddress secondsPerSlot
      mnemonic numKeys w).events := by rw [hsplit]; simp
  rcases generate_shape rt rangeReversed configTemplate mnemonicsTemplate elGenesisData
    genesisUnixTimestamp networkId depositContractAddress secondsPerSlot mnemonic numKeys w with
    ⟨files, err, e, hev, -⟩ | ⟨files, uuid, id, cfg, err, e, hev, -⟩ |
    ⟨files, uuid, id, cfg, ctx, w1, rm, hev, hret⟩
  · rw [hev] at hmem
    simp only [List.mem_singleton] at hmem
    subst hmem
    cases hfail
  · rw [hev] at hmem
    simp only [List.mem_cons, List.mem_singleton, List.not_mem_nil, or_false] at hmem
    rcases hmem with rfl | rfl <;> cases hfail
  · rcases generateOnService_shape rt rangeReversed elGenesisData depositContractAddress ctx w1
      with ⟨e, bfront, last, hval, hbev, hbfront, hlastExec, hlastFail⟩ |
        ⟨execs, res, hbev, hexecs, -⟩
    · rw [hbev] at hev
      have hshape : (GenerateCLGenesisData rt rangeReversed configTemplate mnemonicsTemplate
          elGenesisData genesisUnixTimestamp networkId depositContractAddress secondsPerSlot
          mnemonic numKeys w).events =
          ([Event.renderTemplates files (.ok uuid), Event.addService id cfg (.ok ctx)] ++ bfront) ++
            last :: [Event.removeService ctx.serviceID rm] := by
        rw [hev]; simp
      have hclean : ∀ y ∈ [Event.renderTemplates files (.ok uuid),
          Event.addService id cfg (.ok ctx)] ++ bfront, ¬ (y.isFailedExec = true) := by
        intro y hy
        rcases List.mem_append.1 hy with h | h
        · simp only [List.mem_cons, List.mem_singleton, List.not_mem_nil, or_false] at h
          rcases h with rfl | rfl <;> simp [Event.isFailedExec]
        · simp [(hbfront y h).2]
      have hrest : rest = [Event.removeService ctx.serviceID rm] :=
        split_at_unique (fun y => y.isFailedExec = true) _ front last ev _ rest
          (by rw [← hshape, hsplit]) hclean (by simp [Event.isFailedExec]) hfail
      refine ⟨⟨e, by rw [hret, hval]⟩, ?_, ?_⟩
      · intro x hx
        rw [hrest] at hx
        simp only [List.mem_singleton] at hx
        subst hx
        exact ⟨rfl, rfl⟩
      · intro x hx
        rw [hshape] at hx
        rcases List.mem_append.1 hx with h | h
        · rcases List.mem_append.1 h with h2 | h2
          · simp only [List.mem_cons, List.mem_singleton, List.not_mem_nil, or_false] at h2
            rcases h2 with rfl | rfl <;> rfl
          · exact isStore_of_isExec x (hbfront x h2).1
        · simp only [List.mem_cons, List.mem_singleton, List.not_mem_nil, or_false] at h
          rcases h with rfl | rfl
          · exact isStore_of_isExec _ hlastExec
          · rfl
    · exfalso
      rw [hev, hbev] at hmem
      rcases List.mem_append.1 hmem with h | h
      · rcases List.mem_append.1 h with h2 | h2
        · simp only [List.mem_cons, List.mem_singleton, List.not_mem_nil, or_false] at h2
          rcases h2 with rfl | rfl <;> cases hfail
        · rcases List.mem_append.1 h2 with h3 | h3
          · rw [(hexecs ev h3).2] at hfail
            cases hfail
          · simp only [List.mem_singleton] at h3
            subst h3
            cases hfail
      · simp only [List.mem_singleton] at h
        subst h
        cases hfail

/-- C11 on a runtime where the second copy command exits with code 1: the run
returns an error and the only call after that command is the removal of the
generator service. -/
theorem failed_command_aborts_generation_witness :
    failedCopyRun.events = failedCopyRun.events.take 4 ++
      Event.execCommand "prelaunch-data-generator-1650000000"
        ["cp", "/config/mnemonics.yaml", "/output"] (.ok (1, "failed")) ::
      [Event.removeService "prelaunch-data-generator-1650000000" none] ∧
    (Event.execCommand "prelaunch-data-generator-1650000000"
        ["cp", "/config/mnemonics.yaml", "/output"] (.ok (1, "failed"))).isFailedExec = true ∧
    ((∃ e, failedCopyRun.ret = .error e) ∧
      (∀ x ∈ [Event.removeService "prelaunch-data-generator-1650000000" none],
        x.isExec = false ∧ x.isStore = false) ∧
      (∀ x ∈ failedCopyRun.events, x.isStore = false)) :=
  ⟨rfl, rfl, failed_command_aborts_generation (failAtRuntime 2) false "config-template"
    "mnemonics-template" sampleELGenesis 1650000000 "3151908" "0x4242" 12 "giant issue aisle"
    64 0 (failedCopyRun.events.take 4)
    (Event.execCommand "prelaunch-data-generator-1650000000"
      ["cp", "/config/mnemonics.yaml", "/output"] (.ok (1, "failed")))
    [Event.removeService "prelaunch-data-generator-1650000000" none] rfl rfl⟩

/-! ## C12: the generator service is removed once, last, and without effect on
the returned value -/

theorem execCommand_removeService_irrelevant {σ : Type} (rt : Runtime σ)
    (remove : σ → String → Option String × σ) (serviceCtx : ServiceContext)
    (cmd : List String) (w : σ) :
    execCommand { rt with RemoveService := remove } serviceCtx cmd w =
      execCommand rt serviceCtx cmd w := rfl

theorem copyLoop_removeService_irrelevant {σ : Type} (rt : Runtime σ)
    (remove : σ → String → Option String × σ) (serviceCtx : ServiceContext) :
    ∀ (files : List String) (w : σ),
      copyLoop { rt with RemoveService := remove } serviceCtx files w =
        copyLoop rt serviceCtx files w := by
  intro files
  induction files with
  | nil => intro w; rfl
  | cons f rest ih =>
    intro w
    unfold copyLoop
    simp only [execCommand_removeService_irrelevant, ih]

theorem writeLoop_removeService_irrelevant {σ : Type} (rt : Runtime σ)
    (remove : σ → String → Option String × σ) (serviceCtx : ServiceContext) :
    ∀ (entries : List (String × String)) (w : σ),
      writeLoop { rt with RemoveService := remove } serviceCtx entries w =
        writeLoop rt serviceCtx entries w := by
  intro entries
  induction entries with
  | nil => intro w; rfl
  | cons entry rest ih =>
    intro w
    obtain ⟨content, destFilename⟩ := entry
    unfold writeLoop
    simp only [execCommand_removeService_irrelevant, ih]

theorem generateOnService_removeService_irrelevant {σ : Type} (rt : Runtime σ)
    (remove : σ → String → Option String × σ) (rangeReversed : Bool)
    (elGenesisData : ELGenesisData) (depositContractAddress : String)
    (serviceCtx : ServiceContext) (w : σ) :
    generateOnService { rt with RemoveService := remove } rangeReversed elGenesisData
        depositContractAddress serviceCtx w =
      generateOnService rt rangeReversed elGenesisData depositContractAddress serviceCtx w := by
  unfold generateOnService
  simp only [execCommand_removeService_irrelevant, copyLoop_removeService_irrelevant,
    writeLoop_removeService_irrelevant]

theorem isRemove_of_isExec (x : Event) (h : x.isExec = true) : x.isRemove = false := by
  cases x <;> simp_all [Event.isExec, Event.isRemove]

/-- The calls made on the generator service are commands and at most one
`StoreServiceFiles`. -/
theorem generateOnService_events_kind {σ : Type} (rt : Runtime σ) (rangeReversed : Bool)
    (elGenesisData : ELGenesisData) (depositContractAddress : String)
    (serviceCtx : ServiceContext) (w : σ) :
    ∀ x ∈ (generateOnService rt rangeReversed elGenesisData depositContractAddress
      serviceCtx w).events, x.isExec = true ∨ x.isStore = true := by
  intro x hx
  rcases generateOnService_shape rt rangeReversed elGenesisData depositContractAddress
    serviceCtx w with ⟨e, front, last, -, hev, hfront, hlast, -⟩ | ⟨execs, res, hev, hexecs, -⟩
  · rw [hev] at hx
    rcases List.mem_append.1 hx with h | h
    · exact Or.inl (hfront x h).1
    · simp only [List.mem_singleton] at h
      subst h
      exact Or.inl hlast
  · rw [hev] at hx
    rcases List.mem_append.1 hx with h | h
    · exact Or.inl (hexecs x h).1
    · simp only [List.mem_singleton] at h
      subst h
      exact Or.inr rfl

/-- C12: in a run of `GenerateCLGenesisData` whose calls include a successful
launch of the generator service, the last call is the removal of that
service and no call before it is a removal; and the value returned is the
same under any other behaviour of the removal primitive. -/
theorem generator_removed_once_and_last {σ : Type} (rt : Runtime σ) (rangeReversed : Bool)
    (configTemplate mnemonicsTemplate : String) (elGenesisData : ELGenesisData)
    (genesisUnixTimestamp : Nat) (networkId depositContractAddress : String)
    (secondsPerSlot : Nat) (mnemonic : String) (numKeys : Nat) (w : σ) :
    (∀ (id : String) (cfg : ContainerConfig) (ctx : ServiceContext),
      Event.addService id cfg (.ok ctx) ∈
        (GenerateCLGenesisData rt rangeReversed configTemplate mnemonicsTemplate elGenesisData
          genesisUnixTimestamp networkId depositContractAddress secondsPerSlot mnemonic numKeys
          w).events →
      ∃ (front : List Event) (rm : Option String),
        (GenerateCLGenesisData rt rangeReversed configTemplate mnemonicsTemplate elGenesisData
          genesisUnixTimestamp networkId depositContractAddress secondsPerSlot mnemonic numKeys
          w).events = front ++ [Event.removeService ctx.serviceID rm] ∧
        ∀ x ∈ front, x.isRemove = false) ∧
    (∀ remove : σ → String → Option String × σ,
      (GenerateCLGenesisData { rt with RemoveService := remove } rangeReversed configTemplate
        mnemonicsTemplate elGenesisData genesisUnixTimestamp networkId depositContractAddress
        secondsPerSlot mnemonic numKeys w).ret =
      (GenerateCLGenesisData rt rangeReversed configTemplate mnemonicsTemplate elGenesisData
        genesisUnixTimestamp networkId depositContractAddress secondsPerSlot mnemonic numKeys
        w).ret) := by
  constructor
  · intro id cfg ctx hmem
    rcases generate_shape rt rangeReversed configTemplate mnemonicsTemplate elGenesisData
      genesisUnixTimestamp networkId depositContractAddress secondsPerSlot mnemonic numKeys w with
      ⟨files, err, e, hev, -⟩ | ⟨files, uuid, id0, cfg0, err, e, hev, -⟩ |
      ⟨files, uuid, id0, cfg0, ctx0, w1, rm, hev, -⟩
    · rw [hev] at hmem
      simp at hmem
    · rw [hev] at hmem
      simp at hmem
    · have hkind := generateOnService_events_kind rt rangeReversed elGenesisData
        depositContractAddress ctx0 w1
      have hctx : ctx = ctx0 := by
        rw [hev] at hmem
        rcases List.mem_append.1 hmem with h | h
        · rcases List.mem_append.1 h with h2 | h2
          · simp at h2
            exact h2.2.2
          · rcases hkind _ h2 with hk | hk <;> cases hk
        · simp at h
      subst hctx
      refine ⟨_, rm, hev, ?_⟩
      intro x hx
      rcases List.mem_append.1 hx with h | h
      · simp only [List.mem_cons, List.mem_singleton, List.not_mem_nil, or_false] at h
        rcases h with rfl | rfl <;> rfl
      · rcases hkind x h with hk | hk
        · exact isRemove_of_isExec x hk
        · cases x <;> simp_all [Event.isStore, Event.isRemove]
  · intro remove
    unfold GenerateCLGenesisData
    dsimp only
    split
    · rfl
    · dsimp only [PrelaunchDataGenerator.LaunchPrelaunchDataGenerator]
      split
      · rfl
      · simp only [generateOnService_removeService_irrelevant]

/-! ## The commands of a successful run -/

theorem commandsOf_append (a b : List Event) :
    commandsOf (a ++ b) = commandsOf a ++ commandsOf b := by
  simp [commandsOf, List.filterMap_append]

theorem execCommand_commands {σ : Type} (rt : Runtime σ) (serviceCtx : ServiceContext)
    (cmd : List String) (w : σ) :
    commandsOf (execCommand rt serviceCtx cmd w).events = [cmd] := by
  rw [execCommand_events]
  rfl

theorem copyLoop_commands {σ : Type} (rt : Runtime σ) (serviceCtx : ServiceContext) :
    ∀ (files : List String) (w : σ), (copyLoop rt serviceCtx files w).val = none →
      commandsOf (copyLoop rt serviceCtx files w).events =
        files.map (fun f => ["cp", f, outputDirpathOnGenerator]) := by
  intro files
  induction files with
  | nil => intro w _; rfl
  | cons f rest ih =>
    intro w
    unfold copyLoop
    dsimp only
    cases hval : (execCommand rt serviceCtx ["cp", f, outputDirpathOnGenerator] w).val with
    | some err => intro h; cases h
    | none =>
      dsimp only
      intro h
      rw [commandsOf_append, execCommand_commands, ih _ h]
      rfl

theorem writeLoop_commands {σ : Type} (rt : Runtime σ) (serviceCtx : ServiceContext) :
    ∀ (entries : List (String × String)) (w : σ),
      (writeLoop rt serviceCtx entries w).val = none →
      commandsOf (writeLoop rt serviceCtx entries w).events =
        entries.map (fun e => writeCmd e.1 e.2) := by
  intro entries
  induction entries with
  | nil => intro w _; rfl
  | cons entry rest ih =>
    intro w
    obtain ⟨content, destFilename⟩ := entry
    unfold writeLoop
    dsimp only
    cases hval : (execCommand rt serviceCtx (writeCmd content destFilename) w).val with
    | some err => intro h; cases h
    | none =>
      dsimp only
      intro h
      rw [commandsOf_append, execCommand_commands, ih _ h]
      rfl

theorem generateOnService_success {σ : Type} (rt : Runtime σ) (rangeReversed : Bool)
    (elGenesisData : ELGenesisData) (depositContractAddress : String)
    (serviceCtx : ServiceContext) (w : σ) (data : CLGenesisData)
    (hok : (generateOnService rt rangeReversed elGenesisData depositContractAddress
      serviceCtx w).val = .ok data) :
    commandsOf (generateOnService rt rangeReversed elGenesisData depositContractAddress
        serviceCtx w).events =
      commandsOnSuccess rangeReversed elGenesisData depositContractAddress ∧
    ∃ uuid : String, data = resultFor elGenesisData uuid := by
  unfold generateOnService at hok ⊢
  dsimp only at hok ⊢
  cases hv1 : (execCommand rt serviceCtx dirCreationCmd w).val with
  | some err1 => rw [hv1] at hok; cases hok
  | none =>
    rw [hv1] at hok
    dsimp only at hok ⊢
    cases hv2 : (copyLoop rt serviceCtx (allFilepathsToCopyToOuptutDirectory elGenesisData)
      (execCommand rt serviceCtx dirCreationCmd w).world).val with
    | some err2 => rw [hv2] at hok; cases hok
    | none =>
      rw [hv2] at hok
      dsimp only at hok ⊢
      cases hv3 : (writeLoop rt serviceCtx
        (goRange rangeReversed (contentToWriteToOutputFilename depositContractAddress))
        (copyLoop rt serviceCtx (allFilepathsToCopyToOuptutDirectory elGenesisData)
          (execCommand rt serviceCtx dirCreationCmd w).world).world).val with
      | some err3 => rw [hv3] at hok; cases hok
      | none =>
        rw [hv3] at hok
        dsimp only at hok ⊢
        cases hv4 : (execCommand rt serviceCtx (clGenesisGenerationCmdArgs elGenesisData)
          (writeLoop rt serviceCtx
            (goRange rangeReversed (contentToWriteToOutputFilename depositContractAddress))
            (copyLoop rt serviceCtx (allFilepathsToCopyToOuptutDirectory elGenesisData)
              (execCommand rt serviceCtx dirCreationCmd w).world).world).world).val with
        | some err4 => rw [hv4] at hok; cases hok
        | none =>
          rw [hv4] at hok
          dsimp only at hok ⊢
          split at hok
          · cases hok
          · rename_i uuid hres
            injection hok with hok
            refine ⟨?_, uuid, hok.symm⟩
            rw [hres]
            simp only [commandsOf_append, execCommand_commands, copyLoop_commands _ _ _ _ hv2,
              writeLoop_commands _ _ _ _ hv3]
            simp [commandsOf, Event.command?, commandsOnSuccess]

theorem commandsOf_outer (files : List (String × TemplateAndData)) (uuid id : String)
    (cfg : ContainerConfig) (ctx : ServiceContext) (rm : Option String) (body : List Event) :
    commandsOf ([Event.renderTemplates files (.ok uuid), Event.addService id cfg (.ok ctx)] ++
      body ++ [Event.removeService ctx.serviceID rm]) = commandsOf body := by
  rw [commandsOf_append, commandsOf_append]
  simp [commandsOf, Event.command?]

/-- A run that returns genesis data issued exactly the commands of
`commandsOnSuccess`, and the data is `resultFor` the stored artifact. -/
theorem generate_success {σ : Type} (rt : Runtime σ) (rangeReversed : Bool)
    (configTemplate mnemonicsTemplate : String) (elGenesisData : ELGenesisData)
    (genesisUnixTimestamp : Nat) (networkId depositContractAddress : String)
    (secondsPerSlot : Nat) (mnemonic : String) (numKeys : Nat) (w : σ) (data : CLGenesisData)
    (hok : (GenerateCLGenesisData rt rangeReversed configTemplate mnemonicsTemplate
      elGenesisData genesisUnixTimestamp networkId depositContractAddress secondsPerSlot
      mnemonic numKeys w).ret = .ok data) :
    commandsOf (GenerateCLGenesisData rt rangeReversed configTemplate mnemonicsTemplate
        elGenesisData genesisUnixTimestamp networkId depositContractAddress secondsPerSlot
        mnemonic numKeys w).events =
      commandsOnSuccess rangeReversed elGenesisData depositContractAddress ∧
    ∃ uuid : String, data = resultFor elGenesisData uuid := by
  rcases generate_shape rt rangeReversed configTemplate mnemonicsTemplate elGenesisData
    genesisUnixTimestamp networkId depositContractAddress secondsPerSlot mnemonic numKeys w with
    ⟨files, err, e, -, hret⟩ | ⟨files, uuid, id, cfg, err, e, -, hret⟩ |
    ⟨files, uuid, id, cfg, ctx, w1, rm, hev, hret⟩
  · rw [hret] at hok; cases hok
  · rw [hret] at hok; cases hok
  · rw [hret] at hok
    rw [hev, commandsOf_outer]
    exact generateOnService_success rt rangeReversed elGenesisData depositContractAddress ctx w1
      data hok

/-! ## C13: the two dynamically-computed files -/

theorem contentToWrite_of_ne (depositContractAddress : String)
    (h : depositContractAddress ≠ deployBlock) :
    contentToWriteToOutputFilename depositContractAddress =
      [(deployBlock, deployBlockFilename), (depositContractAddress, depositContractFilename)] := by
  have h2 : (deployBlock != depositContractAddress) = true := by
    simp [bne_iff_ne, Ne.symm h]
  simp [contentToWriteToOutputFilename, goMap, goMapOf, h2]

/-- For a deposit contract address other than `"0"`, a run that returns
genesis data issued the two write commands, in one order or the other,
between the copies and the genesis tool. -/
theorem both_files_written_unless_zero {σ : Type} (rt : Runtime σ) (rangeReversed : Bool)
    (configTemplate mnemonicsTemplate : String) (elGenesisData : ELGenesisData)
    (genesisUnixTimestamp : Nat) (networkId depositContractAddress : String)
    (secondsPerSlot : Nat) (mnemonic : String) (numKeys : Nat) (w : σ) (data : CLGenesisData)
    (hne : depositContractAddress ≠ deployBlock)
    (hok : (GenerateCLGenesisData rt rangeReversed configTemplate mnemonicsTemplate
      elGenesisData genesisUnixTimestamp networkId depositContractAddress secondsPerSlot
      mnemonic numKeys w).ret = .ok data) :
    ∃ writes : List (List String),
      commandsOf (GenerateCLGenesisData rt rangeReversed configTemplate mnemonicsTemplate
        elGenesisData genesisUnixTimestamp networkId depositContractAddress secondsPerSlot
        mnemonic numKeys w).events =
        [dirCreationCmd] ++
          (allFilepathsToCopyToOuptutDirectory elGenesisData).map
            (fun f => ["cp", f, outputDirpathOnGenerator]) ++
          writes ++ [clGenesisGenerationCmdArgs elGenesisData] ∧
      (writes = [writeCmd deployBlock deployBlockFilename,
          writeCmd depositContractAddress depositContractFilename] ∨
        writes = [writeCmd depositContractAddress depositContractFilename,
          writeCmd deployBlock deployBlockFilename]) := by
  obtain ⟨hcmds, -⟩ := generate_success rt rangeReversed configTemplate mnemonicsTemplate
    elGenesisData genesisUnixTimestamp networkId depositContractAddress secondsPerSlot mnemonic
    numKeys w data hok
  refine ⟨_, hcmds, ?_⟩
  rw [contentToWrite_of_ne _ hne]
  cases rangeReversed
  · left; rfl
  · right; rfl

/-- C13, evaluated where it fails: with the deposit contract address `"0"`,
the map `contentToWriteToOutputFilename` has the single key `"0"`, so a run
in which every command succeeds issues one write command, for
`/output/deposit_contract.txt`, and never writes `/output/deploy_block.txt`,
in either order of the `range`. -/
theorem deploy_block_not_written_for_address_zero :
    contentToWriteToOutputFilename "0" = [("0", "deposit_contract.txt")] ∧
    (sampleRun false sampleELGenesis "0").ret =
      .ok (resultFor sampleELGenesis "stored-artifact") ∧
    commandsOf (sampleRun false sampleELGenesis "0").events =
      [["bash", "-c", "mkdir -p /config && mkdir -p /output"],
       ["cp", "/config/config.yaml", "/output"],
       ["cp", "/config/mnemonics.yaml", "/output"],
       ["cp", "/el-genesis/output/jwtsecret", "/output"],
       ["sh", "-c", "echo 0 > /output/deposit_contract.txt"],
       ["/usr/local/bin/eth2-testnet-genesis", "merge", "--config", "/output/config.yaml",
        "--mnemonics", "/output/mnemonics.yaml", "--eth1-config",
        "/el-genesis/output/genesis.json", "--tranches-dir", "/output/tranches",
        "--state-output", "/output/genesis.ssz"]] ∧
    commandsOf (sampleRun true sampleELGenesis "0").events =
      commandsOf (sampleRun false sampleELGenesis "0").events ∧
    writeCmd deployBlock deployBlockFilename =
      ["sh", "-c", "echo 0 > /output/deploy_block.txt"] ∧
    writeCmd deployBlock deployBlockFilename ∉
      commandsOf (sampleRun false sampleELGenesis "0").events :=
  ⟨by decide, rfl, by decide, by decide, by decide, by decide⟩

/-! ## C18: the relative layout of the returned genesis data -/

theorem splitSlash_of_no_slash (l : List Char) (h : ∀ c ∈ l, c ≠ '/') : splitSlash l = [l] := by
  induction l with
  | nil => rfl
  | cons c cs ih =>
    have hc : c ≠ '/' := h c (by simp)
    have hcs := ih (fun x hx => h x (by simp [hx]))
    simp [splitSlash, hc, hcs]

theorem takeWhile_no_slash (l : List Char) :
    ∀ c ∈ l.takeWhile (fun c => c ≠ '/'), c ≠ '/' := by
  intro c hc
  have := List.mem_takeWhile_imp hc
  simpa using this

/-- `path.Base` yields `.`, `/`, or a non-empty name without a slash. -/
theorem pathBase_cases (p : String) :
    pathBase p = "." ∨ pathBase p = "/" ∨
      ∃ l : List Char, pathBase p = String.mk l ∧ l ≠ [] ∧ ∀ c ∈ l, c ≠ '/' := by
  unfold pathBase
  by_cases hp : p = ""
  · simp [hp]
  · simp only [hp, if_false]
    by_cases hl : afterLastSlash (stripTrailingSlashes p.data) = []
    · simp [hl]
    · right; right
      refine ⟨_, by simp [hl], hl, ?_⟩
      intro c hc
      unfold afterLastSlash at hc
      exact takeWhile_no_slash _ c (List.mem_reverse.1 hc)

/-- Joining `output` and a file name puts a slash between them. -/
theorem pathJoin_output (l : List Char) (hne : l ≠ []) (hns : ∀ c ∈ l, c ≠ '/')
    (h1 : l ≠ ['.']) (h2 : l ≠ ['.', '.']) :
    pathJoin ["output", String.mk l] = "output/" ++ String.mk l := by
  have hsplit : splitSlash ("output".data ++ '/' :: l) = "output".data :: [l] := by
    have := splitSlash_of_no_slash l hns
    simp [splitSlash, this]
  have hlen : (List.map String.length ["output", String.mk l]).sum ≠ 0 := by
    simp [String.length]
  have hbuf : joinBuf [] ["output", String.mk l] = "output".data ++ '/' :: l := by
    simp [joinBuf]
  unfold pathJoin
  rw [if_neg hlen, hbuf]
  unfold pathClean
  simp only [hsplit]
  simp [cleanStep, hne, h1, h2, joinSlash]
  rfl

theorem pathJoin_output_base (p : String) (hproper : properBase (pathBase p)) :
    pathJoin ["output", pathBase p] = "output/" ++ pathBase p := by
  obtain ⟨hdot, hdotdot, hslash⟩ := hproper
  rcases pathBase_cases p with h | h | ⟨l, hl, hne, hns⟩
  · exact absurd h hdot
  · exact absurd h hslash
  · rw [hl] at hdot hdotdot ⊢
    apply pathJoin_output l hne hns
    · intro h; apply hdot; rw [h]
    · intro h; apply hdotdot; rw [h]

/-- C18 as the code has it: when `GenerateCLGenesisData` returns genesis data,
the config path is `output/config.yaml`, the genesis state path is
`output/genesis.ssz`, and the JWT secret path is `path.Join` of `output` and
the base name of the EL genesis data's JWT secret path, which is `output/`
followed by that base name whenever the base name is none of `.`, `..` and
`/`; and any other successful run with the same EL genesis input, whatever
its runtime, templates, timestamp, network id, deposit contract address,
seconds per slot, mnemonic and validator count, returns the same three
paths. -/
theorem genesis_layout_fixed_by_el_input {σ : Type} (rt : Runtime σ) (rangeReversed : Bool)
    (configTemplate mnemonicsTemplate : String) (elGenesisData : ELGenesisData)
    (genesisUnixTimestamp : Nat) (networkId depositContractAddress : String)
    (secondsPerSlot : Nat) (mnemonic : String) (numKeys : Nat) (w : σ) (data : CLGenesisData)
    (hok : (GenerateCLGenesisData rt rangeReversed configTemplate mnemonicsTemplate
      elGenesisData genesisUnixTimestamp networkId depositContractAddress secondsPerSlot
      mnemonic numKeys w).ret = .ok data) :
    data.configYMLRelativeFilepath = "output/config.yaml" ∧
    data.genesisSSZRelativeFilepath = "output/genesis.ssz" ∧
    data.jwtSecretRelativeFilepath =
      pathJoin ["output", pathBase elGenesisData.jwtSecretRelativeFilepath] ∧
    (properBase (pathBase elGenesisData.jwtSecretRelativeFilepath) →
      data.jwtSecretRelativeFilepath =
        "output/" ++ pathBase elGenesisData.jwtSecretRelativeFilepath) ∧
    ∀ (τ : Type) (rt2 : Runtime τ) (rangeReversed2 : Bool)
      (configTemplate2 mnemonicsTemplate2 : String) (genesisUnixTimestamp2 : Nat)
      (networkId2 depositContractAddress2 : String) (secondsPerSlot2 : Nat) (mnemonic2 : String)
      (numKeys2 : Nat) (w2 : τ) (data2 : CLGenesisData),
      (GenerateCLGenesisData rt2 rangeReversed2 configTemplate2 mnemonicsTemplate2
        elGenesisData genesisUnixTimestamp2 networkId2 depositContractAddress2 secondsPerSlot2
        mnemonic2 numKeys2 w2).ret = .ok data2 →
      data2.configYMLRelativeFilepath = data.configYMLRelativeFilepath ∧
      data2.genesisSSZRelativeFilepath = data.genesisSSZRelativeFilepath ∧
      data2.jwtSecretRelativeFilepath = data.jwtSecretRelativeFilepath := by
  obtain ⟨-, uuid, hdata⟩ := generate_success rt rangeReversed configTemplate mnemonicsTemplate
    elGenesisData genesisUnixTimestamp networkId depositContractAddress secondsPerSlot mnemonic
    numKeys w data hok
  subst hdata
  have hconfig : pathJoin [pathBase outputDirpathOnGenerator, genesisConfigYmlFilename] =
      "output/config.yaml" := by decide
  have hssz : pathJoin [pathBase outputDirpathOnGenerator, genesisStateFilename] =
      "output/genesis.ssz" := by decide
  refine ⟨hconfig, hssz, rfl, ?_, ?_⟩
  · intro hproper
    exact pathJoin_output_base _ hproper
  · intro τ rt2 rangeReversed2 configTemplate2 mnemonicsTemplate2 genesisUnixTimestamp2
      networkId2 depositContractAddress2 secondsPerSlot2 mnemonic2 numKeys2 w2 data2 hok2
    obtain ⟨-, uuid2, hdata2⟩ := generate_success rt2 rangeReversed2 configTemplate2
      mnemonicsTemplate2 elGenesisData genesisUnixTimestamp2 networkId2 depositContractAddress2
      secondsPerSlot2 mnemonic2 numKeys2 w2 data2 hok2
    subst hdata2
    exact ⟨rfl, rfl, rfl⟩

/-- C18 at a run with a JWT secret at `output/jwtsecret`, compared with a run
on another runtime with other network parameters. -/
theorem genesis_layout_fixed_by_el_input_witness :
    (sampleRun false sampleELGenesis "0x4242").ret =
      .ok (resultFor sampleELGenesis "stored-artifact") ∧
    (resultFor sampleELGenesis "stored-artifact").configYMLRelativeFilepath =
      "output/config.yaml" ∧
    (resultFor sampleELGenesis "stored-artifact").genesisSSZRelativeFilepath =
      "output/genesis.ssz" ∧
    (resultFor sampleELGenesis "stored-artifact").jwtSecretRelativeFilepath =
      "output/jwtsecret" ∧
    pathBase sampleELGenesis.jwtSecretRelativeFilepath = "jwtsecret" ∧
    (GenerateCLGenesisData (failAtRuntime 99) true "other-config" "other-mnemonics"
      sampleELGenesis 1700000000 "1337" "0xdead" 6 "other words" 128 0).ret =
      .ok (resultFor sampleELGenesis "stored-artifact") :=
  ⟨rfl,
    (genesis_layout_fixed_by_el_input okRuntime false "config-template" "mnemonics-template"
      sampleELGenesis 1650000000 "3151908" "0x4242" 12 "giant issue aisle" 64 ()
      (resultFor sampleELGenesis "stored-artifact") rfl).1,
    by decide, by decide, by decide, rfl⟩

/-- C18 as stated fails for a degenerate JWT secret path: with the empty
path, whose base name is `.`, a successful run returns the JWT secret path
`output`, not `output/` followed by the base name. -/
theorem jwt_path_for_empty_el_path :
    (sampleRun false emptyJwtELGenesis "0x4242").ret =
      .ok (resultFor emptyJwtELGenesis "stored-artifact") ∧
    pathBase emptyJwtELGenesis.jwtSecretRelativeFilepath = "." ∧
    (resultFor emptyJwtELGenesis "stored-artifact").jwtSecretRelativeFilepath = "output" ∧
    (resultFor emptyJwtELGenesis "stored-artifact").jwtSecretRelativeFilepath ≠
      "output/" ++ pathBase emptyJwtELGenesis.jwtSecretRelativeFilepath :=
  ⟨rfl, by decide, by decide, by decide⟩

end CLGenesis

namespace Lighthouse

open Kurtosis CLGenesis

/-! ## Facts about the command lines -/

theorem isPrefixOf_append_self (p x : List Char) : p.isPrefixOf (p ++ x) = true := by
  induction p with
  | nil => simp [List.isPrefixOf]
  | cons a as ih => simp [List.isPrefixOf, ih]

theorem isPrefixOf_append_cases :
    ∀ (p q x : List Char), p.isPrefixOf (q ++ x) = true →
      p.isPrefixOf q = true ∨ q.isPrefixOf p = true := by
  intro p
  induction p with
  | nil => intro q x _; left; simp [List.isPrefixOf]
  | cons a as ih =>
    intro q x h
    cases q with
    | nil => right; simp [List.isPrefixOf]
    | cons b bs =>
      simp only [List.cons_append, List.isPrefixOf, Bool.and_eq_true] at h ⊢
      rcases ih bs x h.2 with h2 | h2
      · exact Or.inl ⟨h.1, h2⟩
      · refine Or.inr ⟨?_, h2⟩
        have : a = b := by simpa using h.1
        simp [this]

theorem startsWith_append_self (front x : String) : startsWith front (front ++ x) = true := by
  simp [startsWith, String.data_append, isPrefixOf_append_self]

/-- Two texts of which neither begins with the other stay apart whatever is
appended to the second. -/
theorem startsWith_append_false (front q x : String) (h1 : startsWith front q = false)
    (h2 : startsWith q front = false) : startsWith front (q ++ x) = false := by
  unfold startsWith at *
  rw [String.data_append]
  cases h : front.data.isPrefixOf (q.data ++ x.data) with
  | false => rfl
  | true =>
    rcases isPrefixOf_append_cases _ _ _ h with h3 | h3
    · rw [h3] at h1; cases h1
    · rw [h3] at h2; cases h2

theorem append_ne_of_not_startsWith (q x s : String) (h : startsWith q s = false) :
    q ++ x ≠ s := by
  intro heq
  have := startsWith_append_self q x
  rw [heq, h] at this
  cases this

theorem beaconBaseArgs_no_boot_nodes (launcher : LighthouseCLClientLauncher)
    (elClientCtx : ELClientContext) (logLevel : String) :
    ∀ a ∈ beaconBaseArgs launcher elClientCtx logLevel, startsWith "--boot-nodes=" a = false := by
  unfold beaconBaseArgs
  simp only [List.forall_mem_cons]
  refine ⟨?_, ?_, ?_, ?_, ?_, ?_, ?_, ?_, ?_, ?_, ?_, ?_, ?_, ?_, ?_, ?_, ?_, ?_, ?_, ?_, ?_,
    ?_, ?_, ?_, ?_, ?_, ?_, ?_⟩
  all_goals first
    | decide
    | exact startsWith_append_false _ _ _ (by decide) (by decide)

theorem filter_eq_nil_of_forall {α : Type} (p : α → Bool) (l : List α)
    (h : ∀ a ∈ l, p a = false) : l.filter p = [] := by
  rw [List.filter_eq_nil_iff]
  intro a ha
  simp [h a ha]

theorem beaconBaseArgs_no_builder (launcher : LighthouseCLClientLauncher)
    (elClientCtx : ELClientContext) (logLevel : String) :
    ∀ a ∈ beaconBaseArgs launcher elClientCtx logLevel, a ≠ "--builder" := by
  unfold beaconBaseArgs
  simp only [List.forall_mem_cons]
  refine ⟨?_, ?_, ?_, ?_, ?_, ?_, ?_, ?_, ?_, ?_, ?_, ?_, ?_, ?_, ?_, ?_, ?_, ?_, ?_, ?_, ?_,
    ?_, ?_, ?_, ?_, ?_, ?_, ?_⟩
  all_goals first
    | decide
    | exact append_ne_of_not_startsWith _ _ _ (by decide)

theorem validatorBaseArgs_no_builder_proposals (launcher : LighthouseCLClientLauncher)
    (logLevel beaconClientHttpUrl : String) (nodeKeystoreFiles : KeystoreFiles) :
    ∀ a ∈ validatorBaseArgs launcher logLevel beaconClientHttpUrl nodeKeystoreFiles,
      a ≠ "--builder-proposals" := by
  unfold validatorBaseArgs
  simp only [List.forall_mem_cons]
  refine ⟨?_, ?_, ?_, ?_, ?_, ?_, ?_, ?_, ?_, ?_, ?_, ?_, ?_, ?_, ?_, ?_, ?_, ?_⟩
  all_goals first
    | decide
    | exact append_ne_of_not_startsWith _ _ _ (by decide)

theorem sliceElems_of_len_zero {α : Type} (s : Option (List α)) (h : ¬ sliceLen s > 0) :
    sliceElems s = [] := by
  unfold sliceLen at h
  unfold sliceElems
  exact List.length_eq_zero.1 (by omega)

/-- The beacon command line is the base arguments, then the boot-nodes
argument if any, then the builder arguments if any, then the extra ones. -/
theorem beaconCmdArgs_eq (launcher : LighthouseCLClientLauncher)
    (bootClClientCtx : Option CLClientContext) (elClientCtx : ELClientContext)
    (mevBoostContext : Option MEVBoostContext) (logLevel : String)
    (extraParams : Option (List String)) :
    beaconCmdArgs launcher bootClClientCtx elClientCtx mevBoostContext logLevel extraParams =
      beaconBaseArgs launcher elClientCtx logLevel ++
        (match bootClClientCtx with
          | some ctx => ["--boot-nodes=" ++ ctx.enr]
          | none => []) ++
        (match mevBoostContext with
          | some mev => ["--builder", mev.endpoint]
          | none => []) ++
        sliceElems extraParams := by
  unfold beaconCmdArgs
  by_cases hlen : sliceLen extraParams > 0
  · cases bootClClientCtx <;> cases mevBoostContext <;> simp [hlen]
  · rw [sliceElems_of_len_zero _ hlen]
    cases bootClClientCtx <;> cases mevBoostContext <;> simp [hlen]

/-- The validator command line is the base arguments, then the
builder-proposals flag if any, then the extra ones. -/
theorem validatorCmdArgs_eq (launcher : LighthouseCLClientLauncher)
    (logLevel beaconClientHttpUrl : String) (nodeKeystoreFiles : KeystoreFiles)
    (mevBoostContext : Option MEVBoostContext) (extraParams : Option (List String)) :
    validatorCmdArgs launcher logLevel beaconClientHttpUrl nodeKeystoreFiles mevBoostContext
        extraParams =
      validatorBaseArgs launcher logLevel beaconClientHttpUrl nodeKeystoreFiles ++
        (match mevBoostContext with
          | some _ => ["--builder-proposals"]
          | none => []) ++
        sliceElems extraParams := by
  unfold validatorCmdArgs
  by_cases hlen : sliceLen extraParams > 0
  · cases mevBoostContext <;> simp [hlen]
  · rw [sliceElems_of_len_zero _ hlen]
    cases mevBoostContext <;> simp [hlen]

/-! ## C15: the boot-nodes argument -/

/-- C15 as the code has it: when no extra beacon param begins with
`--boot-nodes=` and the MEV-relay endpoint, if any, does not begin with it
either, the arguments of the beacon command line that begin with
`--boot-nodes=` are the single argument `--boot-nodes=` followed by the
bootnode context's ENR when a bootnode context is given, and none at all when
it is `nil`; so such an argument exists exactly when the context is given. -/
theorem boot_nodes_argument (launcher : LighthouseCLClientLauncher) (image : String)
    (bootClClientCtx : Option CLClientContext) (elClientCtx : ELClientContext)
    (mevBoostContext : Option MEVBoostContext) (logLevel : String)
    (extraParams : Option (List String))
    (hextra : ∀ a ∈ sliceElems extraParams, startsWith "--boot-nodes=" a = false)
    (hmev : ∀ mev, mevBoostContext = some mev → startsWith "--boot-nodes=" mev.endpoint = false) :
    (getBeaconContainerConfig launcher image bootClClientCtx elClientCtx mevBoostContext
        logLevel extraParams).cmdOverride.filter (startsWith "--boot-nodes=") =
      (match bootClClientCtx with
        | some ctx => ["--boot-nodes=" ++ ctx.enr]
        | none => []) ∧
    ((∃ a ∈ (getBeaconContainerConfig launcher image bootClClientCtx elClientCtx
        mevBoostContext logLevel extraParams).cmdOverride, startsWith "--boot-nodes=" a = true) ↔
      bootClClientCtx ≠ none) := by
  have hfilter : (getBeaconContainerConfig launcher image bootClClientCtx elClientCtx
      mevBoostContext logLevel extraParams).cmdOverride.filter (startsWith "--boot-nodes=") =
      (match bootClClientCtx with
        | some ctx => ["--boot-nodes=" ++ ctx.enr]
        | none => []) := by
    show (beaconCmdArgs launcher bootClClientCtx elClientCtx mevBoostContext logLevel
      extraParams).filter (startsWith "--boot-nodes=") = _
    rw [beaconCmdArgs_eq]
    simp only [List.filter_append]
    rw [filter_eq_nil_of_forall _ _ (beaconBaseArgs_no_boot_nodes launcher elClientCtx logLevel),
      filter_eq_nil_of_forall _ _ hextra]
    have hmevfilter : (match mevBoostContext with
        | some mev => ["--builder", mev.endpoint]
        | none => []).filter (startsWith "--boot-nodes=") = [] := by
      cases hm : mevBoostContext with
      | none => rfl
      | some mev =>
        have h1 := hmev mev hm
        have h2 : startsWith "--boot-nodes=" "--builder" = false := by decide
        simp [List.filter, h1, h2]
    rw [hmevfilter]
    cases bootClClientCtx with
    | none => rfl
    | some ctx => simp [List.filter, startsWith_append_self]
  refine ⟨hfilter, ?_⟩
  constructor
  · rintro ⟨a, ha, hs⟩
    have hmem : a ∈ (getBeaconContainerConfig launcher image bootClClientCtx elClientCtx
        mevBoostContext logLevel extraParams).cmdOverride.filter (startsWith "--boot-nodes=") :=
      List.mem_filter.2 ⟨ha, hs⟩
    rw [hfilter] at hmem
    intro hnone
    rw [hnone] at hmem
    simp at hmem
  · intro hsome
    obtain ⟨ctx, hctx⟩ := Option.ne_none_iff_exists'.1 hsome
    have hmem : "--boot-nodes=" ++ ctx.enr ∈ (getBeaconContainerConfig launcher image
        bootClClientCtx elClientCtx mevBoostContext logLevel extraParams).cmdOverride.filter
        (startsWith "--boot-nodes=") := by
      rw [hfilter, hctx]
      simp
    exact ⟨_, (List.mem_filter.1 hmem).1, (List.mem_filter.1 hmem).2⟩

/-- C15 at a launch with a bootnode context, an MEV-relay context and one
extra param. -/
theorem boot_nodes_argument_witness :
    (∀ a ∈ sliceElems (some ["--target-peers=8"]), startsWith "--boot-nodes=" a = false) ∧
    (getBeaconContainerConfig sampleLauncher "sigp/lighthouse" (some sampleBootnode)
        sampleELContext (some sampleMev) "info"
        (some ["--target-peers=8"])).cmdOverride.filter (startsWith "--boot-nodes=") =
      ["--boot-nodes=enr:-boot"] :=
  ⟨by decide,
    (boot_nodes_argument sampleLauncher "sigp/lighthouse" (some sampleBootnode) sampleELContext
      (some sampleMev) "info" (some ["--target-peers=8"]) (by decide)
      (by intro mev h; cases h; decide)).1⟩

/-- C15 as stated fails when the MEV-relay endpoint itself begins with
`--boot-nodes=`: with a `nil` bootnode context and no extra params, the beacon
command line still holds an argument that begins with `--boot-nodes=`, the
endpoint that follows `--builder`. -/
theorem mev_endpoint_read_as_boot_nodes :
    sliceElems (none : Option (List String)) = [] ∧
    (getBeaconContainerConfig sampleLauncher "sigp/lighthouse" none sampleELContext
        (some oddMev) "info" none).cmdOverride.filter (startsWith "--boot-nodes=") =
      ["--boot-nodes=enr:-other"] ∧
    (getBeaconContainerConfig sampleLauncher "sigp/lighthouse" none sampleELContext
        (some oddMev) "info" none).cmdOverride.drop 27 = ["--builder", "--boot-nodes=enr:-other"] :=
  ⟨rfl, by decide, by decide⟩

/-! ## C19: the builder arguments -/

/-- C19: when no extra beacon param is `--builder`, the beacon command line
holds `--builder` followed by the MEV-relay endpoint if an MEV-relay context
is given, and does not hold `--builder` if none is given; when no extra
validator param is `--builder-proposals`, the validator command line holds
`--builder-proposals` exactly when an MEV-relay context is given. -/
theorem builder_arguments (launcher : LighthouseCLClientLauncher) (image : String)
    (bootClClientCtx : Option CLClientContext) (elClientCtx : ELClientContext)
    (mevBoostContext : Option MEVBoostContext) (logLevel beaconClientHttpUrl : String)
    (nodeKeystoreFiles : KeystoreFiles) (extraBeaconParams extraValidatorParams : Option (List String))
    (hbeacon : "--builder" ∉ sliceElems extraBeaconParams)
    (hvalidator : "--builder-proposals" ∉ sliceElems extraValidatorParams) :
    (∀ mev, mevBoostContext = some mev →
      ∃ front back : List String,
        (getBeaconContainerConfig launcher image bootClClientCtx elClientCtx mevBoostContext
          logLevel extraBeaconParams).cmdOverride = front ++ ["--builder", mev.endpoint] ++ back) ∧
    (mevBoostContext = none →
      "--builder" ∉ (getBeaconContainerConfig launcher image bootClClientCtx elClientCtx
        mevBoostContext logLevel extraBeaconParams).cmdOverride) ∧
    ("--builder-proposals" ∈ (getValidatorContainerConfig launcher image logLevel
        beaconClientHttpUrl nodeKeystoreFiles mevBoostContext extraValidatorParams).cmdOverride ↔
      mevBoostContext ≠ none) := by
  refine ⟨?_, ?_, ?_⟩
  · intro mev hmev
    refine ⟨beaconBaseArgs launcher elClientCtx logLevel ++
      (match bootClClientCtx with
        | some ctx => ["--boot-nodes=" ++ ctx.enr]
        | none => []), sliceElems extraBeaconParams, ?_⟩
    show beaconCmdArgs launcher bootClClientCtx elClientCtx mevBoostContext logLevel
      extraBeaconParams = _
    rw [beaconCmdArgs_eq, hmev]
  · intro hnone
    show "--builder" ∉ beaconCmdArgs launcher bootClClientCtx elClientCtx mevBoostContext
      logLevel extraBeaconParams
    rw [beaconCmdArgs_eq, hnone]
    intro hmem
    simp only [List.append_nil, List.mem_append] at hmem
    rcases hmem with (h | h) | h
    · exact beaconBaseArgs_no_builder launcher elClientCtx logLevel _ h rfl
    · cases bootClClientCtx with
      | none => simp at h
      | some ctx =>
        simp only [List.mem_singleton] at h
        exact append_ne_of_not_startsWith "--boot-nodes=" ctx.enr "--builder" (by decide) h.symm
    · exact hbeacon h
  · show "--builder-proposals" ∈ validatorCmdArgs launcher logLevel beaconClientHttpUrl
      nodeKeystoreFiles mevBoostContext extraValidatorParams ↔ _
    rw [validatorCmdArgs_eq]
    constructor
    · intro hmem hnone
      rw [hnone] at hmem
      simp only [List.append_nil, List.mem_append] at hmem
      rcases hmem with h | h
      · exact validatorBaseArgs_no_builder_proposals launcher logLevel beaconClientHttpUrl
          nodeKeystoreFiles _ h rfl
      · exact hvalidator h
    · intro hsome
      obtain ⟨mev, hmev⟩ := Option.ne_none_iff_exists'.1 hsome
      rw [hmev]
      simp

/-- C19 at a launch with an MEV-relay context. -/
theorem builder_arguments_witness :
    "--builder" ∉ sliceElems (some ["--target-peers=8"]) ∧
    "--builder-proposals" ∉ sliceElems (none : Option (List String)) ∧
    (∃ front back : List String,
      (getBeaconContainerConfig sampleLauncher "sigp/lighthouse" (some sampleBootnode)
        sampleELContext (some sampleMev) "info" (some ["--target-peers=8"])).cmdOverride =
        front ++ ["--builder", "http://172.16.0.12:18550"] ++ back) ∧
    "--builder-proposals" ∈ (getValidatorContainerConfig sampleLauncher "sigp/lighthouse" "info"
      "http://172.16.0.11:4000" sampleKeystore (some sampleMev) none).cmdOverride :=
  ⟨by decide, by decide,
    (builder_arguments sampleLauncher "sigp/lighthouse" (some sampleBootnode) sampleELContext
      (some sampleMev) "info" "http://172.16.0.11:4000" sampleKeystore
      (some ["--target-peers=8"]) none (by decide) (by decide)).1 sampleMev rfl,
    (builder_arguments sampleLauncher "sigp/lighthouse" (some sampleBootnode) sampleELContext
      (some sampleMev) "info" "http://172.16.0.11:4000" sampleKeystore
      (some ["--target-peers=8"]) none (by decide) (by decide)).2.2.2 (by simp)⟩

/-! ## The paths of `Launch` -/

/-- Every run of `Launch` takes one of the nine paths. -/
theorem launch_path {σ : Type} (rt : Runtime σ)
    (GetClientLogLevelStrOrDefault :
      String → String → List (String × String) → Except TracedError String)
    (a : LaunchArgs) (w : σ) :
    ∃ p : LaunchPath,
      (launchRun rt GetClientLogLevelStrOrDefault a w).events = pathEvents a p ∧
      (launchRun rt GetClientLogLevelStrOrDefault a w).ret = pathRet a p ∧
      pathPorts p := by
  unfold launchRun Launch
  dsimp only
  split
  · rename_i err _
    exact ⟨.logLevelFailed err, rfl, rfl, trivial⟩
  · rename_i logLevel _
    split
    · rename_i err h1
      exact ⟨.beaconLaunchFailed logLevel err, by simp [pathEvents, beaconLaunchEvent, h1], rfl,
        trivial⟩
    · rename_i b h1
      split
      · rename_i hport
        exact ⟨.beaconHttpPortMissing logLevel b,
          by simp [pathEvents, beaconLaunchEvent, h1], rfl, hport⟩
      · rename_i port hport
        split
        · rename_i err h2
          exact ⟨.beaconNotReady logLevel b port err,
            by simp [pathEvents, beaconLaunchEvent, waitEvent, beaconClient, h1, h2], rfl, hport⟩
        · rename_i h2
          split
          · rename_i err h3
            exact ⟨.validatorLaunchFailed logLevel b port err,
              by simp [pathEvents, beaconLaunchEvent, waitEvent, validatorLaunchEvent,
                beaconClient, h1, h2, h3], rfl, hport⟩
          · rename_i v h3
            split
            · rename_i err h4
              exact ⟨.identityFailed logLevel b port v err,
                by simp [pathEvents, beaconLaunchEvent, waitEvent, validatorLaunchEvent,
                  identityEvent, beaconClient, h1, h2, h3, h4], rfl, hport⟩
            · rename_i identity h4
              split
              · rename_i hbm
                exact ⟨.beaconMetricsPortMissing logLevel b port v identity,
                  by simp [pathEvents, beaconLaunchEvent, waitEvent, validatorLaunchEvent,
                    identityEvent, beaconClient, h1, h2, h3, h4], rfl, hport, hbm⟩
              · rename_i bm hbm
                split
                · rename_i hvm
                  exact ⟨.validatorMetricsPortMissing logLevel b port v identity bm,
                    by simp [pathEvents, beaconLaunchEvent, waitEvent, validatorLaunchEvent,
                      identityEvent, beaconClient, h1, h2, h3, h4], rfl, hport, hbm, hvm⟩
                · rename_i vm hvm
                  exact ⟨.succeeded logLevel b port v identity bm vm,
                    by simp [pathEvents, beaconLaunchEvent, waitEvent, validatorLaunchEvent,
                      identityEvent, beaconClient, h1, h2, h3, h4], rfl, hport, hbm, hvm⟩

theorem beacon_id_ne_validator_id (serviceId : String) :
    beaconNodeServiceIdOf serviceId ≠ validatorNodeServiceIdOf serviceId := by
  intro h
  have hd := congrArg String.data h
  simp only [beaconNodeServiceIdOf, validatorNodeServiceIdOf, String.data_append,
    List.append_assoc] at hd
  have := List.append_cancel_left hd
  revert this
  decide

/-! ## C14: the validator is launched only after the beacon node is ready -/

theorem validator_id_eq_beacon_id_iff (serviceId : String) :
    validatorNodeServiceIdOf serviceId = beaconNodeServiceIdOf serviceId ↔ False :=
  ⟨fun h => beacon_id_ne_validator_id serviceId h.symm, False.elim⟩

theorem beacon_id_eq_validator_id_iff (serviceId : String) :
    beaconNodeServiceIdOf serviceId = validatorNodeServiceIdOf serviceId ↔ False :=
  ⟨fun h => beacon_id_ne_validator_id serviceId h, False.elim⟩

/-- C14: in a run of `Launch`, every `AddService` call for the validator
service comes after a readiness wait on the beacon node that returned no
error; and when the readiness wait returns an error, or the beacon launch
fails, or the launched beacon service has no `http` port, `Launch` returns
an error (and so no context) and makes no `AddService` call for the validator
service. -/
theorem validator_launched_only_after_ready {σ : Type} (rt : Runtime σ)
    (GetClientLogLevelStrOrDefault :
      String → String → List (String × String) → Except TracedError String)
    (a : LaunchArgs) (w : σ) :
    (∀ (front : List Event) (cfg : ContainerConfig) (res : Except String ServiceContext)
        (rest : List Event),
      (launchRun rt GetClientLogLevelStrOrDefault a w).events =
        front ++ Event.addService (validatorNodeServiceIdOf a.serviceId) cfg res :: rest →
      ∃ client : CLClientRESTClient,
        Event.waitForBeaconClientAvailability client maxNumHealthcheckRetries
          timeBetweenHealthcheckRetries none ∈ front) ∧
    (((∃ (client : CLClientRESTClient) (n d : Nat) (err : String),
          Event.waitForBeaconClientAvailability client n d (some err) ∈
            (launchRun rt GetClientLogLevelStrOrDefault a w).events) ∨
        (∃ (cfg : ContainerConfig) (err : String),
          Event.addService (beaconNodeServiceIdOf a.serviceId) cfg (.error err) ∈
            (launchRun rt GetClientLogLevelStrOrDefault a w).events) ∨
        (∃ (cfg : ContainerConfig) (ctx : ServiceContext),
          Event.addService (beaconNodeServiceIdOf a.serviceId) cfg (.ok ctx) ∈
            (launchRun rt GetClientLogLevelStrOrDefault a w).events ∧
          ctx.privatePorts.lookup beaconHttpPortID = none)) →
      (∃ e, (launchRun rt GetClientLogLevelStrOrDefault a w).ret = .error e) ∧
      ∀ (cfg : ContainerConfig) (res : Except String ServiceContext),
        Event.addService (validatorNodeServiceIdOf a.serviceId) cfg res ∉
          (launchRun rt GetClientLogLevelStrOrDefault a w).events) := by
  obtain ⟨p, hev, hret, hports⟩ := launch_path rt GetClientLogLevelStrOrDefault a w
  rw [hev, hret]
  constructor
  · intro front cfg res rest h
    cases p <;>
      rcases front with _ | ⟨f0, _ | ⟨f1, _ | ⟨f2, _ | ⟨f3, front2⟩⟩⟩⟩ <;>
      simp [pathEvents, beaconLaunchEvent, waitEvent, validatorLaunchEvent, identityEvent,
        validator_id_eq_beacon_id_iff, beacon_id_eq_validator_id_iff] at h ⊢ <;>
      (try exact ⟨_, Or.inr h.2.1⟩)
  · intro hfail
    have hnoValidator : ∀ (evs : List Event),
        (∀ x ∈ evs, (∃ lv res, x = beaconLaunchEvent a lv res) ∨
          (∃ b port res, x = waitEvent b port res)) →
        ∀ (cfg : ContainerConfig) (res : Except String ServiceContext),
          Event.addService (validatorNodeServiceIdOf a.serviceId) cfg res ∉ evs := by
      intro evs hall cfg res hmem
      rcases hall _ hmem with ⟨lv, r, h⟩ | ⟨b, port, r, h⟩
      · simp [beaconLaunchEvent, validator_id_eq_beacon_id_iff] at h
      · simp [waitEvent] at h
    have hcontra : ∀ (lv : String) (b : ServiceContext) (port : PortSpec)
        (tail : List Event),
        b.privatePorts.lookup beaconHttpPortID = some port →
        (∀ x ∈ tail, (∃ r, x = validatorLaunchEvent a lv b port r) ∨
          (∃ r, x = identityEvent b port r)) →
        ((∃ (client : CLClientRESTClient) (n d : Nat) (err : String),
            Event.waitForBeaconClientAvailability client n d (some err) ∈
              beaconLaunchEvent a lv (.ok b) :: waitEvent b port none :: tail) ∨
          (∃ (cfg : ContainerConfig) (err : String),
            Event.addService (beaconNodeServiceIdOf a.serviceId) cfg (.error err) ∈
              beaconLaunchEvent a lv (.ok b) :: waitEvent b port none :: tail) ∨
          (∃ (cfg : ContainerConfig) (ctx : ServiceContext),
            Event.addService (beaconNodeServiceIdOf a.serviceId) cfg (.ok ctx) ∈
              beaconLaunchEvent a lv (.ok b) :: waitEvent b port none :: tail ∧
            ctx.privatePorts.lookup beaconHttpPortID = none)) → False := by
      intro lv b port tail hport htail hf
      rcases hf with ⟨client, n, d, err, h⟩ | ⟨cfg, err, h⟩ | ⟨cfg, ctx, h, hnone⟩
      · simp only [List.mem_cons] at h
        rcases h with h | h | h
        · simp [beaconLaunchEvent] at h
        · simp [waitEvent] at h
        · rcases htail _ h with ⟨r, h2⟩ | ⟨r, h2⟩
          · simp [validatorLaunchEvent] at h2
          · simp [identityEvent] at h2
      · simp only [List.mem_cons] at h
        rcases h with h | h | h
        · simp [beaconLaunchEvent] at h
        · simp [waitEvent] at h
        · rcases htail _ h with ⟨r, h2⟩ | ⟨r, h2⟩
          · simp [validatorLaunchEvent, beacon_id_eq_validator_id_iff] at h2
          · simp [identityEvent] at h2
      · simp only [List.mem_cons] at h
        rcases h with h | h | h
        · simp only [beaconLaunchEvent, Event.addService.injEq, Except.ok.injEq] at h
          rw [h.2.2, hport] at hnone
          cases hnone
        · simp [waitEvent] at h
        · rcases htail _ h with ⟨r, h2⟩ | ⟨r, h2⟩
          · simp [validatorLaunchEvent, beacon_id_eq_validator_id_iff] at h2
          · simp [identityEvent] at h2
    cases p with
    | logLevelFailed cause =>
      exact ⟨⟨_, rfl⟩, hnoValidator _ (by simp [pathEvents])⟩
    | beaconLaunchFailed lv cause =>
      exact ⟨⟨_, rfl⟩, hnoValidator _ (by
        intro x hx
        simp only [pathEvents, List.mem_singleton] at hx
        exact Or.inl ⟨_, _, hx⟩)⟩
    | beaconHttpPortMissing lv b =>
      exact ⟨⟨_, rfl⟩, hnoValidator _ (by
        intro x hx
        simp only [pathEvents, List.mem_singleton] at hx
        exact Or.inl ⟨_, _, hx⟩)⟩
    | beaconNotReady lv b port cause =>
      exact ⟨⟨_, rfl⟩, hnoValidator _ (by
        intro x hx
        simp only [pathEvents, List.mem_cons, List.mem_singleton, List.not_mem_nil,
          or_false] at hx
        rcases hx with h | h
        · exact Or.inl ⟨_, _, h⟩
        · exact Or.inr ⟨_, _, _, h⟩)⟩
    | validatorLaunchFailed lv b port cause =>
      exact (hcontra lv b port _ hports (by
        intro x hx
        simp only [List.mem_singleton] at hx
        exact Or.inl ⟨_, hx⟩) hfail).elim
    | identityFailed lv b port v cause =>
      exact (hcontra lv b port _ hports (by
        intro x hx
        simp only [List.mem_cons, List.mem_singleton, List.not_mem_nil, or_false] at hx
        rcases hx with h | h
        · exact Or.inl ⟨_, h⟩
        · exact Or.inr ⟨_, h⟩) hfail).elim
    | beaconMetricsPortMissing lv b port v identity =>
      exact (hcontra lv b port _ hports.1 (by
        intro x hx
        simp only [List.mem_cons, List.mem_singleton, List.not_mem_nil, or_false] at hx
        rcases hx with h | h
        · exact Or.inl ⟨_, h⟩
        · exact Or.inr ⟨_, h⟩) hfail).elim
    | validatorMetricsPortMissing lv b port v identity bm =>
      exact (hcontra lv b port _ hports.1 (by
        intro x hx
        simp only [List.mem_cons, List.mem_singleton, List.not_mem_nil, or_false] at hx
        rcases hx with h | h
        · exact Or.inl ⟨_, h⟩
        · exact Or.inr ⟨_, h⟩) hfail).elim
    | succeeded lv b port v identity bm vm =>
      exact (hcontra lv b port _ hports.1 (by
        intro x hx
        simp only [List.mem_cons, List.mem_singleton, List.not_mem_nil, or_false] at hx
        rcases hx with h | h
        · exact Or.inl ⟨_, h⟩
        · exact Or.inr ⟨_, h⟩) hfail).elim

/-! ## C14, continued: an instance -/

/-- C14 on a runtime on which the beacon node never becomes ready: the calls
are the beacon launch and the failed wait, and an error is returned. -/
theorem validator_launched_only_after_ready_witness :
    (launchRun notReadyRuntime sampleGetClientLogLevel sampleLaunchArgs ()).events =
      [beaconLaunchEvent sampleLaunchArgs "info"
          (.ok ⟨"cl-client-0-beacon", "172.16.0.2", beaconUsedPorts⟩),
        waitEvent ⟨"cl-client-0-beacon", "172.16.0.2", beaconUsedPorts⟩ ⟨4000, .TCP⟩
          (some "not available after 10 retries")] ∧
    ((∃ e, (launchRun notReadyRuntime sampleGetClientLogLevel sampleLaunchArgs ()).ret =
        .error e) ∧
      ∀ (cfg : ContainerConfig) (res : Except String ServiceContext),
        Event.addService (validatorNodeServiceIdOf sampleLaunchArgs.serviceId) cfg res ∉
          (launchRun notReadyRuntime sampleGetClientLogLevel sampleLaunchArgs ()).events) :=
  ⟨rfl, (validator_launched_only_after_ready notReadyRuntime sampleGetClientLogLevel
    sampleLaunchArgs ()).2
    (Or.inl ⟨⟨"172.16.0.2", 4000⟩, 10, 1, "not available after 10 retries",
      List.mem_cons_of_mem _ (List.mem_cons_self _ _)⟩)⟩

/-! ## C16: the context returned on success -/

theorem beaconNodeServiceIdOf_eq (serviceId : String) :
    beaconNodeServiceIdOf serviceId = serviceId ++ "-beacon" := by
  unfold beaconNodeServiceIdOf
  rw [String.append_assoc]
  rfl

theorem validatorNodeServiceIdOf_eq (serviceId : String) :
    validatorNodeServiceIdOf serviceId = serviceId ++ "-validator" := by
  unfold validatorNodeServiceIdOf
  rw [String.append_assoc]
  rfl

/-- C16: when `Launch` returns a context for service id `S`, its calls were
the beacon launch, the readiness wait, the validator launch and the identity
request, all successful, and the context carries the ENR of the reported
identity, the private address of the beacon service, and the two metrics
endpoints `(S-beacon, /metrics, beacon address:beacon metrics port)` and
`(S-validator, /metrics, validator address:validator metrics port)`, in this
order, the ports being the `metrics` ports of the two launched services. -/
theorem launch_result_on_success {σ : Type} (rt : Runtime σ)
    (GetClientLogLevelStrOrDefault :
      String → String → List (String × String) → Except TracedError String)
    (a : LaunchArgs) (w : σ) (ctx : CLClientContext)
    (hok : (launchRun rt GetClientLogLevelStrOrDefault a w).ret = .ok ctx) :
    ∃ (logLevel : String) (b : ServiceContext) (port : PortSpec) (v : ServiceContext)
        (identity : NodeIdentity) (bm vm : PortSpec),
      (launchRun rt GetClientLogLevelStrOrDefault a w).events =
        [beaconLaunchEvent a logLevel (.ok b), waitEvent b port none,
          validatorLaunchEvent a logLevel b port (.ok v), identityEvent b port (.ok identity)] ∧
      b.privatePorts.lookup "http" = some port ∧
      b.privatePorts.lookup "metrics" = some bm ∧
      v.privatePorts.lookup "metrics" = some vm ∧
      ctx.enr = identity.ENR ∧
      ctx.ipAddr = b.privateIPAddress ∧
      ctx.nodesMetricsInfo =
        some [⟨a.serviceId ++ "-beacon", "/metrics",
            b.privateIPAddress ++ ":" ++ toString bm.number⟩,
          ⟨a.serviceId ++ "-validator", "/metrics",
            v.privateIPAddress ++ ":" ++ toString vm.number⟩] := by
  obtain ⟨p, hev, hret, hports⟩ := launch_path rt GetClientLogLevelStrOrDefault a w
  rw [hret] at hok
  cases p <;> simp only [pathRet] at hok <;> try cases hok
  rename_i lv b port v identity bm vm
  refine ⟨lv, b, port, v, identity, bm, vm, hev, hports.1, hports.2.1, hports.2.2, rfl, rfl, ?_⟩
  simp only [launchResult, NewCLClientContext, NewCLNodeMetricsInfo, beaconNodeServiceIdOf_eq,
    validatorNodeServiceIdOf_eq]
  rfl

/-- C16 on a runtime on which everything succeeds, for service id
`cl-client-0`. -/
theorem launch_result_on_success_witness :
    (launchRun okRuntime sampleGetClientLogLevel sampleLaunchArgs ()).ret =
      .ok ⟨"lighthouse", "enr:-sample", "172.16.0.2", 4000,
        some [⟨"cl-client-0-beacon", "/metrics", "172.16.0.2:5054"⟩,
          ⟨"cl-client-0-validator", "/metrics", "172.16.0.2:5064"⟩],
        ⟨"172.16.0.2", 4000⟩⟩ ∧
    ∃ (logLevel : String) (b : ServiceContext) (port : PortSpec) (v : ServiceContext)
        (identity : NodeIdentity) (bm vm : PortSpec),
      (launchRun okRuntime sampleGetClientLogLevel sampleLaunchArgs ()).events =
        [beaconLaunchEvent sampleLaunchArgs logLevel (.ok b), waitEvent b port none,
          validatorLaunchEvent sampleLaunchArgs logLevel b port (.ok v),
          identityEvent b port (.ok identity)] ∧
      b.privatePorts.lookup "http" = some port ∧
      b.privatePorts.lookup "metrics" = some bm ∧
      v.privatePorts.lookup "metrics" = some vm ∧
      (⟨"lighthouse", "enr:-sample", "172.16.0.2", 4000,
        some [⟨"cl-client-0-beacon", "/metrics", "172.16.0.2:5054"⟩,
          ⟨"cl-client-0-validator", "/metrics", "172.16.0.2:5064"⟩],
        ⟨"172.16.0.2", 4000⟩⟩ : CLClientContext).enr = identity.ENR ∧
      (⟨"lighthouse", "enr:-sample", "172.16.0.2", 4000,
        some [⟨"cl-client-0-beacon", "/metrics", "172.16.0.2:5054"⟩,
          ⟨"cl-client-0-validator", "/metrics", "172.16.0.2:5064"⟩],
        ⟨"172.16.0.2", 4000⟩⟩ : CLClientContext).ipAddr = b.privateIPAddress ∧
      (⟨"lighthouse", "enr:-sample", "172.16.0.2", 4000,
        some [⟨"cl-client-0-beacon", "/metrics", "172.16.0.2:5054"⟩,
          ⟨"cl-client-0-validator", "/metrics", "172.16.0.2:5064"⟩],
        ⟨"172.16.0.2", 4000⟩⟩ : CLClientContext).nodesMetricsInfo =
        some [⟨sampleLaunchArgs.serviceId ++ "-beacon", "/metrics",
            b.privateIPAddress ++ ":" ++ toString bm.number⟩,
          ⟨sampleLaunchArgs.serviceId ++ "-validator", "/metrics",
            v.privateIPAddress ++ ":" ++ toString vm.number⟩] :=
  ⟨rfl, launch_result_on_success okRuntime sampleGetClientLogLevel sampleLaunchArgs () _ rfl⟩

/-! ## C17: what a failed stage of `Launch` returns -/

theorem namesText_of_message (e : TracedError) (front text back : String)
    (h : front ++ text ++ back ∈ e.messages) : namesText e text :=
  ⟨_, h, front, back, rfl⟩

theorem not_namesText_of_char (e : TracedError) (text : String) (c : Char)
    (hc : c ∈ text.data) (hno : ∀ msg ∈ e.messages, c ∉ msg.data) : ¬ namesText e text := by
  rintro ⟨msg, hmem, front, back, h⟩
  apply hno msg hmem
  rw [h]
  simp [String.data_append, hc]

theorem hyphen_mem_beacon_id (serviceId : String) :
    '-' ∈ (beaconNodeServiceIdOf serviceId).data := by
  simp [beaconNodeServiceIdOf, String.data_append]

theorem hyphen_mem_validator_id (serviceId : String) :
    '-' ∈ (validatorNodeServiceIdOf serviceId).data := by
  simp [validatorNodeServiceIdOf, String.data_append]

/-- An error that wraps a message without the character `c` around a cause
names a text with `c` exactly when the cause contains that text. -/
theorem namesText_wrapped_iff (cause msg text : String) (c : Char) (hc : c ∈ text.data)
    (hno : c ∉ msg.data) :
    namesText (.propagate (.external cause) msg) text ↔
      ∃ front back : String, cause = front ++ text ++ back := by
  constructor
  · rintro ⟨m, hmem, front, back, h⟩
    simp only [TracedError.messages, List.mem_cons, List.mem_singleton, List.not_mem_nil,
      or_false] at hmem
    rcases hmem with rfl | rfl
    · exfalso
      apply hno
      rw [h]
      simp [String.data_append, hc]
    · exact ⟨front, back, h⟩
  · rintro ⟨front, back, h⟩
    exact ⟨cause, by simp [TracedError.messages], front, back, h⟩

/-- C17 as the code has it. In a run of `Launch`: (1) when a stage failed (a
container launch, the readiness wait or the identity request returned an
error, or a launched service lacks an expected port), `Launch` returns an
error and no context; (2) a returned context means that no stage failed;
(3) when the beacon launch fails, the error returned is the one of line 121,
which names the service id `serviceId-beacon`, and when the validator launch
fails, it is the one of line 147, which names `serviceId-validator`; (4) a
failed readiness wait returns the error of line 132, a failed identity
request the one of line 154, a beacon service without an `http` port the one
of line 126, a beacon service without a `metrics` port, once the identity is
known, the one of line 159, and a validator service without a `metrics` port
the one of line 165; (5) none of the three missing-port errors names
`serviceId-beacon` or `serviceId-validator`; (6) the errors of the readiness
wait and of the identity request name one of these two ids exactly when the
cause they wrap contains it. -/
theorem failed_stage_returns_error {σ : Type} (rt : Runtime σ)
    (GetClientLogLevelStrOrDefault :
      String → String → List (String × String) → Except TracedError String)
    (a : LaunchArgs) (w : σ) :
    (stageFailed a.serviceId (launchRun rt GetClientLogLevelStrOrDefault a w).events →
      ∃ e, (launchRun rt GetClientLogLevelStrOrDefault a w).ret = .error e) ∧
    (∀ ctx, (launchRun rt GetClientLogLevelStrOrDefault a w).ret = .ok ctx →
      ¬ stageFailed a.serviceId (launchRun rt GetClientLogLevelStrOrDefault a w).events) ∧
    (∀ (cfg : ContainerConfig) (err : String),
      Event.addService (beaconNodeServiceIdOf a.serviceId) cfg (.error err) ∈
        (launchRun rt GetClientLogLevelStrOrDefault a w).events →
      (launchRun rt GetClientLogLevelStrOrDefault a w).ret =
          .error (errBeaconLaunch err (beaconNodeServiceIdOf a.serviceId)) ∧
        namesText (errBeaconLaunch err (beaconNodeServiceIdOf a.serviceId))
          (beaconNodeServiceIdOf a.serviceId)) ∧
    (∀ (cfg : ContainerConfig) (err : String),
      Event.addService (validatorNodeServiceIdOf a.serviceId) cfg (.error err) ∈
        (launchRun rt GetClientLogLevelStrOrDefault a w).events →
      (launchRun rt GetClientLogLevelStrOrDefault a w).ret =
          .error (errValidatorLaunch err (validatorNodeServiceIdOf a.serviceId)) ∧
        namesText (errValidatorLaunch err (validatorNodeServiceIdOf a.serviceId))
          (validatorNodeServiceIdOf a.serviceId)) ∧
    (∀ (client : CLClientRESTClient) (n d : Nat) (err : String),
      Event.waitForBeaconClientAvailability client n d (some err) ∈
        (launchRun rt GetClientLogLevelStrOrDefault a w).events →
      (launchRun rt GetClientLogLevelStrOrDefault a w).ret = .error (errBeaconWait err)) ∧
    (∀ (client : CLClientRESTClient) (err : String),
      Event.getNodeIdentity client (.error err) ∈
        (launchRun rt GetClientLogLevelStrOrDefault a w).events →
      (launchRun rt GetClientLogLevelStrOrDefault a w).ret = .error (errIdentity err)) ∧
    (∀ (cfg : ContainerConfig) (ctx : ServiceContext),
      Event.addService (beaconNodeServiceIdOf a.serviceId) cfg (.ok ctx) ∈
        (launchRun rt GetClientLogLevelStrOrDefault a w).events →
      ctx.privatePorts.lookup beaconHttpPortID = none →
      (launchRun rt GetClientLogLevelStrOrDefault a w).ret =
        .error (errBeaconPort beaconHttpPortID)) ∧
    (∀ (cfg : ContainerConfig) (ctx : ServiceContext) (client : CLClientRESTClient)
        (identity : NodeIdentity),
      Event.addService (beaconNodeServiceIdOf a.serviceId) cfg (.ok ctx) ∈
        (launchRun rt GetClientLogLevelStrOrDefault a w).events →
      Event.getNodeIdentity client (.ok identity) ∈
        (launchRun rt GetClientLogLevelStrOrDefault a w).events →
      ctx.privatePorts.lookup beaconMetricsPortID = none →
      (launchRun rt GetClientLogLevelStrOrDefault a w).ret =
        .error (errBeaconPort beaconMetricsPortID)) ∧
    (∀ (cfgB : ContainerConfig) (b : ServiceContext) (cfgV : ContainerConfig)
        (v : ServiceContext) (client : CLClientRESTClient) (identity : NodeIdentity),
      Event.addService (beaconNodeServiceIdOf a.serviceId) cfgB (.ok b) ∈
        (launchRun rt GetClientLogLevelStrOrDefault a w).events →
      Event.addService (validatorNodeServiceIdOf a.serviceId) cfgV (.ok v) ∈
        (launchRun rt GetClientLogLevelStrOrDefault a w).events →
      Event.getNodeIdentity client (.ok identity) ∈
        (launchRun rt GetClientLogLevelStrOrDefault a w).events →
      b.privatePorts.lookup beaconMetricsPortID ≠ none →
      v.privatePorts.lookup validatorMetricsPortID = none →
      (launchRun rt GetClientLogLevelStrOrDefault a w).ret =
        .error (errValidatorPort validatorMetricsPortID)) ∧
    (∀ e ∈ [errBeaconPort beaconHttpPortID, errBeaconPort beaconMetricsPortID,
        errValidatorPort validatorMetricsPortID],
      ¬ namesText e (beaconNodeServiceIdOf a.serviceId) ∧
      ¬ namesText e (validatorNodeServiceIdOf a.serviceId)) ∧
    (∀ (err : String),
      ∀ id ∈ [beaconNodeServiceIdOf a.serviceId, validatorNodeServiceIdOf a.serviceId],
      (namesText (errBeaconWait err) id ↔ ∃ front back : String, err = front ++ id ++ back) ∧
      (namesText (errIdentity err) id ↔ ∃ front back : String, err = front ++ id ++ back)) := by
  obtain ⟨p, hev, hret, hports⟩ := launch_path rt GetClientLogLevelStrOrDefault a w
  rw [hev, hret]
  have hnames1 : ∀ err : String,
      namesText (errBeaconLaunch err (beaconNodeServiceIdOf a.serviceId))
        (beaconNodeServiceIdOf a.serviceId) := fun err =>
    namesText_of_message _
      "An error occurred launching the Lighthouse Beacon node with service ID '" _ "'"
      (by simp [errBeaconLaunch, TracedError.messages])
  have hnames2 : ∀ err : String,
      namesText (errValidatorLaunch err (validatorNodeServiceIdOf a.serviceId))
        (validatorNodeServiceIdOf a.serviceId) := fun err =>
    namesText_of_message _
      "An error occurred launching the Lighthouse validator node with service ID '" _ "'"
      (by simp [errValidatorLaunch, TracedError.messages])
  have hok : ∀ ctx, pathRet a p = .ok ctx → ¬ stageFailed a.serviceId (pathEvents a p) := by
    intro ctx h hfail
    cases p <;> simp only [pathRet, reduceCtorEq] at h
    rename_i lv b port v identity bm vm
    rcases hfail with ⟨id, cfg, err, h2⟩ | ⟨client, n, d, err, h2⟩ | ⟨client, err, h2⟩ |
      ⟨cfg, c, h2, hnone⟩ | ⟨cfg, c, h2, hnone⟩
    · simp [pathEvents, beaconLaunchEvent, waitEvent, validatorLaunchEvent, identityEvent] at h2
    · simp [pathEvents, beaconLaunchEvent, waitEvent, validatorLaunchEvent, identityEvent] at h2
    · simp [pathEvents, beaconLaunchEvent, waitEvent, validatorLaunchEvent, identityEvent] at h2
    · simp only [pathEvents, beaconLaunchEvent, waitEvent, validatorLaunchEvent, identityEvent,
        List.mem_cons, List.mem_singleton, List.not_mem_nil, or_false,
        Event.addService.injEq, Except.ok.injEq, beacon_id_eq_validator_id_iff, false_and,
        reduceCtorEq] at h2
      rcases hnone with hn | hn
      · rw [h2.2.2, hports.1] at hn
        cases hn
      · rw [h2.2.2, hports.2.1] at hn
        cases hn
    · simp only [pathEvents, beaconLaunchEvent, waitEvent, validatorLaunchEvent, identityEvent,
        List.mem_cons, List.mem_singleton, List.not_mem_nil, or_false,
        Event.addService.injEq, Except.ok.injEq, validator_id_eq_beacon_id_iff, false_and,
        reduceCtorEq, false_or] at h2
      rw [h2.2.2, hports.2.2] at hnone
      cases hnone
  have hfail : stageFailed a.serviceId (pathEvents a p) → ∃ e, pathRet a p = .error e := by
    intro hf
    cases hr : pathRet a p with
    | error e => exact ⟨e, rfl⟩
    | ok ctx => exact absurd hf (hok ctx hr)
  refine ⟨hfail, hok, ?_, ?_, ?_, ?_, ?_, ?_, ?_, ?_, ?_⟩
  · intro cfg err h
    refine ⟨?_, hnames1 err⟩
    cases p <;>
      simp [pathEvents, pathRet, beaconLaunchEvent, waitEvent, validatorLaunchEvent,
        identityEvent, beacon_id_eq_validator_id_iff] at h ⊢
    rw [h.2]
  · intro cfg err h
    refine ⟨?_, hnames2 err⟩
    cases p <;>
      simp [pathEvents, pathRet, beaconLaunchEvent, waitEvent, validatorLaunchEvent,
        identityEvent, validator_id_eq_beacon_id_iff] at h ⊢
    rw [h.2]
  · intro client n d err h
    cases p <;>
      simp [pathEvents, pathRet, beaconLaunchEvent, waitEvent, validatorLaunchEvent,
        identityEvent] at h ⊢
    rw [h.2.2.2]
  · intro client err h
    cases p <;>
      simp [pathEvents, pathRet, beaconLaunchEvent, waitEvent, validatorLaunchEvent,
        identityEvent] at h ⊢
    rw [h.2]
  · intro cfg ctx h hnone
    cases p <;>
      simp only [pathEvents, pathRet, pathPorts, beaconLaunchEvent, waitEvent,
        validatorLaunchEvent, identityEvent, List.mem_cons, List.mem_singleton,
        List.not_mem_nil, or_false, Event.addService.injEq, Except.ok.injEq,
        beacon_id_eq_validator_id_iff, false_and, reduceCtorEq, and_false] at h hports ⊢
    all_goals first
      | rfl
      | exact h.elim
      | (exfalso
         rw [h.2.2] at hnone
         first
          | (rw [hports] at hnone; cases hnone)
          | (rw [hports.1] at hnone; cases hnone))
  · intro cfg ctx client identity h hid hnone
    cases p <;>
      simp only [pathEvents, pathRet, pathPorts, beaconLaunchEvent, waitEvent,
        validatorLaunchEvent, identityEvent, List.mem_cons, List.mem_singleton,
        List.not_mem_nil, or_false, Event.addService.injEq, Event.getNodeIdentity.injEq,
        Except.ok.injEq, beacon_id_eq_validator_id_iff, false_and, reduceCtorEq, and_false,
        false_or] at h hid hports ⊢
    all_goals first
      | rfl
      | exact h.elim
      | exact hid.elim
      | (exfalso
         rw [h.2.2, hports.2.1] at hnone
         cases hnone)
  · intro cfgB b cfgV v client identity hb hv hid hsome hnone
    cases p <;>
      simp only [pathEvents, pathRet, pathPorts, beaconLaunchEvent, waitEvent,
        validatorLaunchEvent, identityEvent, List.mem_cons, List.mem_singleton,
        List.not_mem_nil, or_false, Event.addService.injEq, Event.getNodeIdentity.injEq,
        Except.ok.injEq, beacon_id_eq_validator_id_iff, validator_id_eq_beacon_id_iff,
        false_and, reduceCtorEq, and_false, false_or] at hb hv hid hports ⊢
    all_goals first
      | rfl
      | exact hb.elim
      | exact hv.elim
      | exact hid.elim
      | (exfalso
         rw [hb.2.2, hports.2] at hsome
         exact hsome rfl)
      | (exfalso
         rw [hv.2.2, hports.2.2] at hnone
         cases hnone)
  · intro e he
    simp only [List.mem_cons, List.mem_singleton, List.not_mem_nil, or_false] at he
    rcases he with rfl | rfl | rfl
    · exact ⟨not_namesText_of_char _ _ '-' (hyphen_mem_beacon_id _) (by decide),
        not_namesText_of_char _ _ '-' (hyphen_mem_validator_id _) (by decide)⟩
    · exact ⟨not_namesText_of_char _ _ '-' (hyphen_mem_beacon_id _) (by decide),
        not_namesText_of_char _ _ '-' (hyphen_mem_validator_id _) (by decide)⟩
    · exact ⟨not_namesText_of_char _ _ '-' (hyphen_mem_beacon_id _) (by decide),
        not_namesText_of_char _ _ '-' (hyphen_mem_validator_id _) (by decide)⟩
  · intro err id hid
    simp only [List.mem_cons, List.mem_singleton, List.not_mem_nil, or_false] at hid
    rcases hid with rfl | rfl
    · exact ⟨namesText_wrapped_iff _ _ _ '-' (hyphen_mem_beacon_id _) (by decide),
        namesText_wrapped_iff _ _ _ '-' (hyphen_mem_beacon_id _) (by decide)⟩
    · exact ⟨namesText_wrapped_iff _ _ _ '-' (hyphen_mem_validator_id _) (by decide),
        namesText_wrapped_iff _ _ _ '-' (hyphen_mem_validator_id _) (by decide)⟩

/-- C17 on a runtime on which every container launch fails: the error of the
beacon launch, which names the beacon service id. -/
theorem failed_stage_returns_error_witness :
    Event.addService (beaconNodeServiceIdOf sampleLaunchArgs.serviceId)
        (getBeaconContainerConfig sampleLauncher "sigp/lighthouse" none sampleELContext none
          "info" (some []))
        (.error "image not found") ∈
      (launchRun noLaunchRuntime sampleGetClientLogLevel sampleLaunchArgs ()).events ∧
    beaconNodeServiceIdOf sampleLaunchArgs.serviceId = "cl-client-0-beacon" ∧
    ((launchRun noLaunchRuntime sampleGetClientLogLevel sampleLaunchArgs ()).ret =
        .error (errBeaconLaunch "image not found"
          (beaconNodeServiceIdOf sampleLaunchArgs.serviceId)) ∧
      namesText (errBeaconLaunch "image not found"
          (beaconNodeServiceIdOf sampleLaunchArgs.serviceId))
        (beaconNodeServiceIdOf sampleLaunchArgs.serviceId)) :=
  ⟨List.mem_singleton.2 rfl, by decide,
    (failed_stage_returns_error noLaunchRuntime sampleGetClientLogLevel sampleLaunchArgs
      ()).2.2.1 _ "image not found" (List.mem_singleton.2 rfl)⟩

/-- C17 as stated fails for a missing port: when the launched beacon service
has no `http` port, `Launch` returns the error of line 126, whose one message
holds the port id and neither the service id `cl-client-0` nor
`cl-client-0-beacon` nor `cl-client-0-validator`. -/
theorem missing_port_error_names_no_service_id :
    (launchRun noPortsRuntime sampleGetClientLogLevel sampleLaunchArgs ()).events =
      [beaconLaunchEvent sampleLaunchArgs "info" (.ok ⟨"cl-client-0-beacon", "172.16.0.2", []⟩)] ∧
    (launchRun noPortsRuntime sampleGetClientLogLevel sampleLaunchArgs ()).ret =
      .error (errBeaconPort "http") ∧
    (errBeaconPort "http").messages =
      ["Expected new Lighthouse Beacon service to have port with ID 'http', but none was found"] ∧
    ¬ namesText (errBeaconPort "http") "cl-client-0" ∧
    ¬ namesText (errBeaconPort "http") "cl-client-0-beacon" ∧
    ¬ namesText (errBeaconPort "http") "cl-client-0-validator" :=
  ⟨rfl, rfl, by decide,
    not_namesText_of_char _ _ '0' (by decide) (by decide),
    not_namesText_of_char _ _ '0' (by decide) (by decide),
    not_namesText_of_char _ _ '0' (by decide) (by decide)⟩

end Lighthouse

namespace Prometheus

open Kurtosis Lighthouse

theorem collectMetricsInfo_eq (acc : List CLNodeMetricsInfo) (ctxs : List CLClientContext) :
    collectMetricsInfo acc ctxs = acc ++ concatInOrder ctxs := by
  induction ctxs generalizing acc with
  | nil => simp [collectMetricsInfo, concatInOrder]
  | cons c rest ih =>
    unfold collectMetricsInfo concatInOrder
    cases h : c.nodesMetricsInfo with
    | none => simp [ih, sliceElems]
    | some infos => simp [ih, sliceElems, List.append_assoc]

theorem concatInOrder_flatten (ctxs : List CLClientContext) :
    concatInOrder ctxs = (ctxs.map (fun c => sliceElems c.nodesMetricsInfo)).flatten := by
  induction ctxs with
  | nil => rfl
  | cons c rest ih => simp [concatInOrder, ih]

theorem concatInOrder_length (ctxs : List CLClientContext) :
    (concatInOrder ctxs).length = (ctxs.map (fun c => sliceLen c.nodesMetricsInfo)).sum := by
  induction ctxs with
  | nil => rfl
  | cons c rest ih => simp [concatInOrder, ih, sliceLen, sliceElems]

theorem concatInOrder_count (x : CLNodeMetricsInfo) (ctxs : List CLClientContext) :
    (concatInOrder ctxs).count x =
      (ctxs.map (fun c => (sliceElems c.nodesMetricsInfo).count x)).sum := by
  induction ctxs with
  | nil => rfl
  | cons c rest ih => simp [concatInOrder, ih, List.count_append]

theorem launchPrometheus_first_event {σ : Type} (rt : Runtime σ) (configTemplate : String)
    (ctxs : List CLClientContext) (w : σ) :
    ∃ res rest, (LaunchPrometheus rt configTemplate ctxs w).events =
      Event.renderTemplates
        [(configFilename, ⟨configTemplate, .prometheus ⟨collectMetricsInfo [] ctxs⟩⟩)] res ::
        rest := by
  unfold LaunchPrometheus
  dsimp only
  have hfiles : templateAndDataByDestRelFilepath configTemplate ctxs =
      [(configFilename, ⟨configTemplate, .prometheus ⟨collectMetricsInfo [] ctxs⟩⟩)] := rfl
  rw [hfiles]
  split
  · exact ⟨_, _, rfl⟩
  · split
    · exact ⟨_, _, rfl⟩
    · split
      · exact ⟨_, _, rfl⟩
      · exact ⟨_, _, rfl⟩

theorem sampleContexts_aggregate :
    renderedMetricsInfo (LaunchPrometheus okRuntime "scrape_configs:" sampleContexts ()).events =
      some [⟨"a-beacon", "/metrics", "172.16.0.2:5054"⟩,
            ⟨"a-validator", "/metrics", "172.16.0.3:5064"⟩,
            ⟨"a-beacon", "/metrics", "172.16.0.2:5054"⟩] := rfl

/-- C20: for every runtime, template and list of CL client contexts, the first
external call of `LaunchPrometheus` renders the one file
`prometheus-config.yml` with the given template, and the metrics-endpoint list
of its template data is the lists of the contexts one after the other in the
order of the contexts, a `nil` list adding nothing; its length is the sum of
the lengths of the lists, and every endpoint occurs in it as often as in all
the lists together. -/
theorem prometheus_config_aggregates_in_order {σ : Type} (rt : Runtime σ)
    (configTemplate : String) (clClientContexts : List CLClientContext) (w : σ) :
    (∃ res rest, (LaunchPrometheus rt configTemplate clClientContexts w).events =
      Event.renderTemplates
        [(configFilename,
          ⟨configTemplate, .prometheus ⟨concatInOrder clClientContexts⟩⟩)] res :: rest) ∧
    renderedMetricsInfo (LaunchPrometheus rt configTemplate clClientContexts w).events =
      some (concatInOrder clClientContexts) ∧
    concatInOrder clClientContexts =
      (clClientContexts.map (fun c => sliceElems c.nodesMetricsInfo)).flatten ∧
    (concatInOrder clClientContexts).length =
      (clClientContexts.map (fun c => sliceLen c.nodesMetricsInfo)).sum ∧
    ∀ x, (concatInOrder clClientContexts).count x =
      (clClientContexts.map (fun c => (sliceElems c.nodesMetricsInfo).count x)).sum := by
  obtain ⟨res, rest, h⟩ := launchPrometheus_first_event rt configTemplate clClientContexts w
  rw [collectMetricsInfo_eq, List.nil_append] at h
  refine ⟨⟨res, rest, h⟩, ?_, ?_, concatInOrder_length _, fun x => concatInOrder_count x _⟩
  · rw [h]; rfl
  · exact concatInOrder_flatten _

end Prometheus

namespace Lighthouse

open Kurtosis CLGenesis

/-! ## C21: the HTTP port number of the returned context -/

theorem beacon_nodes_argument_mem (launcher : LighthouseCLClientLauncher)
    (image logLevel beaconClientHttpUrl : String) (nodeKeystoreFiles : KeystoreFiles)
    (mevBoostContext : Option MEVBoostContext) (extraParams : Option (List String)) :
    "--beacon-nodes=" ++ beaconClientHttpUrl ∈
      (getValidatorContainerConfig launcher image logLevel beaconClientHttpUrl nodeKeystoreFiles
        mevBoostContext extraParams).cmdOverride := by
  unfold getValidatorContainerConfig
  dsimp only
  rw [validatorCmdArgs_eq]
  apply List.mem_append_left
  apply List.mem_append_left
  simp [validatorBaseArgs]

/-- What a successful run of `Launch` does with HTTP port numbers. The number
stored in the returned context is the constant `beaconHttpPortNum`, 4000, the
number the beacon container config declares for its `http` port. The REST
client stored in the context, the readiness wait, the identity request and
the `--beacon-nodes=` URL given to the validator use the number of the
private `http` port retrieved from the launched beacon service. -/
theorem launch_http_port_facts {σ : Type} (rt : Runtime σ)
    (GetClientLogLevelStrOrDefault :
      String → String → List (String × String) → Except TracedError String)
    (a : LaunchArgs) (w : σ) (ctx : CLClientContext)
    (hok : (launchRun rt GetClientLogLevelStrOrDefault a w).ret = .ok ctx) :
    ctx.httpPortNum = beaconHttpPortNum ∧
    beaconHttpPortNum = 4000 ∧
    ∃ (logLevel : String) (b : ServiceContext) (port : PortSpec) (v : ServiceContext)
        (identity : NodeIdentity),
      (launchRun rt GetClientLogLevelStrOrDefault a w).events =
        [Event.addService (beaconNodeServiceIdOf a.serviceId)
            (getBeaconContainerConfig a.launcher a.image a.bootnodeContext a.elClientContext
              a.mevBoostContext logLevel a.extraBeaconParams) (.ok b),
          Event.waitForBeaconClientAvailability ⟨b.privateIPAddress, port.number⟩
            maxNumHealthcheckRetries timeBetweenHealthcheckRetries none,
          Event.addService (validatorNodeServiceIdOf a.serviceId)
            (getValidatorContainerConfig a.launcher a.image logLevel
              ("http://" ++ b.privateIPAddress ++ ":" ++ toString port.number)
              a.nodeKeystoreFiles a.mevBoostContext a.extraValidatorParams) (.ok v),
          Event.getNodeIdentity ⟨b.privateIPAddress, port.number⟩ (.ok identity)] ∧
      (getBeaconContainerConfig a.launcher a.image a.bootnodeContext a.elClientContext
        a.mevBoostContext logLevel a.extraBeaconParams).usedPorts.lookup beaconHttpPortID =
        some ⟨beaconHttpPortNum, .TCP⟩ ∧
      b.privatePorts.lookup beaconHttpPortID = some port ∧
      ctx.restClient = ⟨b.privateIPAddress, port.number⟩ ∧
      "--beacon-nodes=" ++ ("http://" ++ b.privateIPAddress ++ ":" ++ toString port.number) ∈
        (getValidatorContainerConfig a.launcher a.image logLevel
          ("http://" ++ b.privateIPAddress ++ ":" ++ toString port.number)
          a.nodeKeystoreFiles a.mevBoostContext a.extraValidatorParams).cmdOverride ∧
      (ctx.httpPortNum = port.number ↔ port.number = beaconHttpPortNum) ∧
      (b.privatePorts =
          (getBeaconContainerConfig a.launcher a.image a.bootnodeContext a.elClientContext
            a.mevBoostContext logLevel a.extraBeaconParams).usedPorts →
        ctx.httpPortNum = port.number) := by
  obtain ⟨p, hev, hret, hports⟩ := launch_path rt GetClientLogLevelStrOrDefault a w
  rw [hret] at hok
  cases p <;> simp only [pathRet] at hok <;> try cases hok
  rename_i lv b port v identity bm vm
  have hnum : (launchResult a.serviceId identity b v bm vm (beaconClient b port)).httpPortNum =
      beaconHttpPortNum := rfl
  refine ⟨hnum, rfl, lv, b, port, v, identity, hev, rfl, hports.1, rfl,
    beacon_nodes_argument_mem _ _ _ _ _ _ _, ?_, ?_⟩
  · rw [hnum]
    exact eq_comm
  · intro hecho
    have hlookup := hports.1
    rw [hecho] at hlookup
    have hdecl : (getBeaconContainerConfig a.launcher a.image a.bootnodeContext a.elClientContext
        a.mevBoostContext lv a.extraBeaconParams).usedPorts.lookup beaconHttpPortID =
        some ⟨beaconHttpPortNum, .TCP⟩ := rfl
    rw [hdecl] at hlookup
    cases hlookup
    exact hnum

/-- C21: in a run of `Launch` that returns a context, let the beacon service
have been launched with the reply `b`, let `port` be the private `http` port
`Launch` retrieves from `b`, and let `b` report for `http` the port its
container config declares. Then the HTTP port number stored in the context is
the number of `port`, which is also the port number of the REST client in the
context, of the readiness wait and of the identity request, and the number in
the `--beacon-nodes=` URL of the validator service that was launched. -/
theorem context_http_port_is_retrieved_port {σ : Type} (rt : Runtime σ)
    (GetClientLogLevelStrOrDefault :
      String → String → List (String × String) → Except TracedError String)
    (a : LaunchArgs) (w : σ) (ctx : CLClientContext) (cfg : ContainerConfig)
    (b : ServiceContext) (port : PortSpec)
    (hok : (launchRun rt GetClientLogLevelStrOrDefault a w).ret = .ok ctx)
    (hlaunch : Event.addService (beaconNodeServiceIdOf a.serviceId) cfg (.ok b) ∈
      (launchRun rt GetClientLogLevelStrOrDefault a w).events)
    (hport : b.privatePorts.lookup beaconHttpPortID = some port)
    (hdeclared : b.privatePorts.lookup beaconHttpPortID =
      cfg.usedPorts.lookup beaconHttpPortID) :
    ctx.httpPortNum = port.number ∧
    ctx.restClient = ⟨b.privateIPAddress, port.number⟩ ∧
    Event.waitForBeaconClientAvailability ⟨b.privateIPAddress, port.number⟩
        maxNumHealthcheckRetries timeBetweenHealthcheckRetries none ∈
      (launchRun rt GetClientLogLevelStrOrDefault a w).events ∧
    (∃ (identity : NodeIdentity),
      Event.getNodeIdentity ⟨b.privateIPAddress, port.number⟩ (.ok identity) ∈
        (launchRun rt GetClientLogLevelStrOrDefault a w).events) ∧
    (∃ (cfgV : ContainerConfig) (v : ServiceContext),
      Event.addService (validatorNodeServiceIdOf a.serviceId) cfgV (.ok v) ∈
        (launchRun rt GetClientLogLevelStrOrDefault a w).events ∧
      "--beacon-nodes=" ++ ("http://" ++ b.privateIPAddress ++ ":" ++ toString port.number) ∈
        cfgV.cmdOverride) := by
  obtain ⟨lv, b2, port2, v, identity, hev, hdecl, hlookup, hrest, hmem, hiff, -⟩ :=
    (launch_http_port_facts rt GetClientLogLevelStrOrDefault a w ctx hok).2.2
  have hnum := (launch_http_port_facts rt GetClientLogLevelStrOrDefault a w ctx hok).1
  rw [hev] at hlaunch ⊢
  simp only [List.mem_cons, List.mem_singleton, List.not_mem_nil, or_false,
    Event.addService.injEq, Except.ok.injEq, beacon_id_eq_validator_id_iff, false_and,
    reduceCtorEq, false_or, true_and] at hlaunch
  obtain ⟨hcfg, hb⟩ := hlaunch
  subst hb
  rw [hlookup] at hport
  cases hport
  rw [hlookup, hcfg, hdecl] at hdeclared
  cases hdeclared
  refine ⟨hnum, hrest, ?_, ⟨identity, ?_⟩, ⟨_, v, ?_, hmem⟩⟩
  · exact List.mem_cons_of_mem _ (List.mem_cons_self _ _)
  · exact List.mem_cons_of_mem _ (List.mem_cons_of_mem _ (List.mem_cons_of_mem _
      (List.mem_cons_self _ _)))
  · exact List.mem_cons_of_mem _ (List.mem_cons_of_mem _ (List.mem_cons_self _ _))

/-- C21 on the sample launch, on the runtime that reports the declared ports:
the beacon service reports the `http` port 4000, the context holds 4000, and
the validator is given the URL `http://172.16.0.2:4000`. -/
theorem context_http_port_is_retrieved_port_witness :
    (launchRun okRuntime sampleGetClientLogLevel sampleLaunchArgs ()).ret =
      .ok sampleLaunchedContext ∧
    (⟨"cl-client-0-beacon", "172.16.0.2", beaconUsedPorts⟩ :
      ServiceContext).privatePorts.lookup beaconHttpPortID = some ⟨4000, .TCP⟩ ∧
    sampleLaunchedContext.httpPortNum = (⟨4000, .TCP⟩ : PortSpec).number ∧
    "--beacon-nodes=http://172.16.0.2:4000" ∈
      (getValidatorContainerConfig sampleLauncher "sigp/lighthouse" "info"
        "http://172.16.0.2:4000" sampleKeystore none (some [])).cmdOverride :=
  ⟨rfl, rfl,
    (context_http_port_is_retrieved_port okRuntime sampleGetClientLogLevel sampleLaunchArgs ()
      sampleLaunchedContext
      (getBeaconContainerConfig sampleLauncher "sigp/lighthouse" none sampleELContext none
        "info" (some []))
      ⟨"cl-client-0-beacon", "172.16.0.2", beaconUsedPorts⟩ ⟨4000, .TCP⟩ rfl
      (List.mem_cons_self _ _) rfl rfl).1,
    by decide⟩

end Lighthouse

namespace ParamsDeserializer

/-! ## C22: validating an accepted result again -/

theorem normalizeParticipant_idem (d : PackageDecls) (p : ParticipantParams) :
    normalizeParticipant d (normalizeParticipant d p) = normalizeParticipant d p := by
  obtain ⟨et, ei, ex, ct, ci, bx, vx⟩ := p
  unfold normalizeParticipant
  dsimp only
  congr 1
  · by_cases h : ei = d.useDefaultElImageKeyword
    · cases hl : List.lookup et d.defaultElImages <;> simp [h]
    · simp [h]
  · by_cases h : ci = d.useDefaultClImageKeyword
    · cases hl : List.lookup ct d.defaultClImages <;> simp [h]
    · simp [h]

theorem normalizeParams_idem (d : PackageDecls) (o : ExecuteParams) :
    normalizeParams d (normalizeParams d o) = normalizeParams d o := by
  unfold normalizeParams
  dsimp only
  congr 1
  rw [List.map_map]
  apply List.map_congr_left
  intro p _
  exact normalizeParticipant_idem d p

theorem bodyChecksPass_normalize (d : PackageDecls) (idx : Nat) (p : ParticipantParams)
    (h : bodyChecksPass d idx p) : bodyChecksPass d idx (normalizeParticipant d p) := by
  obtain ⟨h1, h2, h3, h4, h5⟩ := h
  refine ⟨h1, h2, ?_, h4, ?_⟩
  · intro himg
    by_cases hk : p.ELClientImage = d.useDefaultElImageKeyword
    · exact h3 hk
    · exfalso
      simp [normalizeParticipant, hk] at himg
  · intro himg
    by_cases hk : p.CLClientImage = d.useDefaultClImageKeyword
    · exact h5 hk
    · exfalso
      simp [normalizeParticipant, hk] at himg

theorem allChecksPass_normalize (d : PackageDecls) (o : ExecuteParams)
    (h : allChecksPass d o) : allChecksPass d (normalizeParams d o) := by
  obtain ⟨h1, h2, h3, h4, h5, h6, h7, h8, h9, h10, h11⟩ := h
  refine ⟨h1, ?_, ?_, h4, h5, h6, h7, h8, ?_, h10, ?_⟩
  · simpa [normalizeParams] using h2
  · intro i hi
    have hi2 : i < o.Participants.length := by simpa [normalizeParams] using hi
    have := bodyChecksPass_normalize d i _ (h3 i hi2)
    simpa [normalizeParams] using this
  · simpa [normalizeParams] using h9
  · simpa [normalizeParams, hasNethermind_map_normalize] using h11

/-- C22: when `DeserializeAndValidateParams` accepts a document and returns
the params `r`, the validation of `r` taken as the parsed params object
accepts it and returns `r` itself, so the participants, their order, their
images and their extra-args lists are the same; hence every document that
decodes to `r` is accepted with the result `r`, and validating the result of
the second validation gives `r` once more. -/
theorem normalization_is_idempotent (d : PackageDecls) (paramsStr : String) (r : ExecuteParams)
    (hok : (DeserializeAndValidateParams d paramsStr).ret = .ok r) :
    (validateParamsObj d r).ret = .ok r ∧
    (∀ r2, (validateParamsObj d r).ret = .ok r2 →
      r2.Participants = r.Participants ∧
      r2.Participants.map (fun p => (p.ELClientImage, p.CLClientImage)) =
        r.Participants.map (fun p => (p.ELClientImage, p.CLClientImage)) ∧
      r2.Participants.map
          (fun p => (p.ELExtraParams, p.BeaconExtraParams, p.ValidatorExtraParams)) =
        r.Participants.map
          (fun p => (p.ELExtraParams, p.BeaconExtraParams, p.ValidatorExtraParams)) ∧
      (validateParamsObj d r2).ret = .ok r) ∧
    (∀ paramsStr2, d.yamlUnmarshal paramsStr2 d.GetDefaultExecuteParams = .ok r →
      (DeserializeAndValidateParams d paramsStr2).ret = .ok r) := by
  have hself : (validateParamsObj d r).ret = .ok r := by
    unfold DeserializeAndValidateParams at hok
    cases hparse : d.yamlUnmarshal paramsStr d.GetDefaultExecuteParams with
    | error err =>
      rw [hparse] at hok
      cases hok
    | ok o =>
      rw [hparse] at hok
      obtain ⟨hall, hr⟩ := (validateParamsObj_ok_iff d o r).1 hok
      subst hr
      exact (validateParamsObj_ok_iff d _ _).2
        ⟨allChecksPass_normalize d o hall, (normalizeParams_idem d o).symm⟩
  refine ⟨hself, ?_, ?_⟩
  · intro r2 h2
    rw [hself] at h2
    cases h2
    exact ⟨rfl, rfl, rfl, hself⟩
  · intro paramsStr2 hparse2
    rw [deserialize_of_parse d paramsStr2 r hparse2]
    exact hself

/-- C22 on the document with one Geth and Lighthouse participant whose EL image
and beacon extra-args list are unset: the params it is accepted with are
accepted again, unchanged. -/
theorem normalization_is_idempotent_witness :
    (DeserializeAndValidateParams sampleDecls "participants: geth with args").ret =
      .ok (normalizeParams sampleDecls objArgs) ∧
    (normalizeParams sampleDecls objArgs).Participants =
      [{ ELClientType := "geth"
         ELClientImage := "ethereum/client-go"
         ELExtraParams := some ["--syncmode=full"]
         CLClientType := "lighthouse"
         CLClientImage := "sigp/lighthouse:v3"
         BeaconExtraParams := some []
         ValidatorExtraParams := some [] }] ∧
    (validateParamsObj sampleDecls (normalizeParams sampleDecls objArgs)).ret =
      .ok (normalizeParams sampleDecls objArgs) :=
  ⟨rfl, by decide,
    (normalization_is_idempotent sampleDecls "participants: geth with args"
      (normalizeParams sampleDecls objArgs) rfl).1⟩

end ParamsDeserializer

namespace Lighthouse

open Kurtosis CLGenesis

/-! ## C23: the extra params close the command line -/

/-- C23: for every list of extra beacon params, given as a non-`nil` slice,
the command line `getBeaconContainerConfig` builds is the 27 built-in
arguments (from `lighthouse` to `--metrics-port=5054`), then the boot-nodes
argument if a bootnode context is given, then `--builder` and the endpoint if
an MEV-relay context is given, then the extra params themselves in the given
order, so that dropping the arguments in front leaves exactly the extra
params; with a `nil` or an empty list it is the built-in arguments and the
optional ones. The same holds for `getValidatorContainerConfig`, with 17
built-in arguments (from `lighthouse` to `--metrics-port=5064`) and the
optional `--builder-proposals`. -/
theorem extra_params_close_command_line (launcher : LighthouseCLClientLauncher)
    (image logLevel beaconClientHttpUrl : String) (bootClClientCtx : Option CLClientContext)
    (elClientCtx : ELClientContext) (mevBoostContext : Option MEVBoostContext)
    (nodeKeystoreFiles : KeystoreFiles) (extraBeaconParams extraValidatorParams : List String) :
    ((getBeaconContainerConfig launcher image bootClClientCtx elClientCtx mevBoostContext
        logLevel (some extraBeaconParams)).cmdOverride =
      beaconBaseArgs launcher elClientCtx logLevel ++
        (match bootClClientCtx with
          | some ctx => ["--boot-nodes=" ++ ctx.enr]
          | none => []) ++
        (match mevBoostContext with
          | some mev => ["--builder", mev.endpoint]
          | none => []) ++
        extraBeaconParams) ∧
    ((getBeaconContainerConfig launcher image bootClClientCtx elClientCtx mevBoostContext
        logLevel (some extraBeaconParams)).cmdOverride.drop
        (27 + (if bootClClientCtx.isSome then 1 else 0) +
          (if mevBoostContext.isSome then 2 else 0)) = extraBeaconParams) ∧
    ((getBeaconContainerConfig launcher image bootClClientCtx elClientCtx mevBoostContext
        logLevel none).cmdOverride =
      beaconBaseArgs launcher elClientCtx logLevel ++
        (match bootClClientCtx with
          | some ctx => ["--boot-nodes=" ++ ctx.enr]
          | none => []) ++
        (match mevBoostContext with
          | some mev => ["--builder", mev.endpoint]
          | none => [])) ∧
    ((getBeaconContainerConfig launcher image bootClClientCtx elClientCtx mevBoostContext
        logLevel (some [])).cmdOverride =
      (getBeaconContainerConfig launcher image bootClClientCtx elClientCtx mevBoostContext
        logLevel none).cmdOverride) ∧
    ((beaconBaseArgs launcher elClientCtx logLevel).length = 27 ∧
      (beaconBaseArgs launcher elClientCtx logLevel).head? = some "lighthouse" ∧
      (beaconBaseArgs launcher elClientCtx logLevel).getLast? = some "--metrics-port=5054") ∧
    ((getValidatorContainerConfig launcher image logLevel beaconClientHttpUrl nodeKeystoreFiles
        mevBoostContext (some extraValidatorParams)).cmdOverride =
      validatorBaseArgs launcher logLevel beaconClientHttpUrl nodeKeystoreFiles ++
        (match mevBoostContext with
          | some _ => ["--builder-proposals"]
          | none => []) ++
        extraValidatorParams) ∧
    ((getValidatorContainerConfig launcher image logLevel beaconClientHttpUrl nodeKeystoreFiles
        mevBoostContext (some extraValidatorParams)).cmdOverride.drop
        (17 + (if mevBoostContext.isSome then 1 else 0)) = extraValidatorParams) ∧
    ((getValidatorContainerConfig launcher image logLevel beaconClientHttpUrl nodeKeystoreFiles
        mevBoostContext none).cmdOverride =
      validatorBaseArgs launcher logLevel beaconClientHttpUrl nodeKeystoreFiles ++
        (match mevBoostContext with
          | some _ => ["--builder-proposals"]
          | none => [])) ∧
    ((getValidatorContainerConfig launcher image logLevel beaconClientHttpUrl nodeKeystoreFiles
        mevBoostContext (some [])).cmdOverride =
      (getValidatorContainerConfig launcher image logLevel beaconClientHttpUrl nodeKeystoreFiles
        mevBoostContext none).cmdOverride) ∧
    ((validatorBaseArgs launcher logLevel beaconClientHttpUrl nodeKeystoreFiles).length = 17 ∧
      (validatorBaseArgs launcher logLevel beaconClientHttpUrl nodeKeystoreFiles).head? =
        some "lighthouse" ∧
      (validatorBaseArgs launcher logLevel beaconClientHttpUrl nodeKeystoreFiles).getLast? =
        some "--metrics-port=5064") := by
  have hb := fun extra => beaconCmdArgs_eq launcher bootClClientCtx elClientCtx mevBoostContext
    logLevel extra
  have hv := fun extra => validatorCmdArgs_eq launcher logLevel beaconClientHttpUrl
    nodeKeystoreFiles mevBoostContext extra
  change ∀ extra, (getBeaconContainerConfig launcher image bootClClientCtx elClientCtx
    mevBoostContext logLevel extra).cmdOverride = _ at hb
  change ∀ extra, (getValidatorContainerConfig launcher image logLevel beaconClientHttpUrl
    nodeKeystoreFiles mevBoostContext extra).cmdOverride = _ at hv
  have hnone : sliceElems (none : Option (List String)) = [] := rfl
  have hsome : ∀ l : List String, sliceElems (some l) = l := fun _ => rfl
  have hblen : (beaconBaseArgs launcher elClientCtx logLevel).length = 27 := rfl
  have hvlen : (validatorBaseArgs launcher logLevel beaconClientHttpUrl
      nodeKeystoreFiles).length = 17 := rfl
  refine ⟨?_, ?_, ?_, ?_, ⟨hblen, rfl, rfl⟩, ?_, ?_, ?_, ?_, ⟨hvlen, rfl, rfl⟩⟩
  · rw [hb, hsome]
  · rw [hb, hsome]
    apply List.drop_left'
    cases bootClClientCtx <;> cases mevBoostContext <;> simp [hblen]
  · rw [hb, hnone, List.append_nil]
  · rw [hb, hb, hnone, hsome]
  · rw [hv, hsome]
  · rw [hv, hsome]
    apply List.drop_left'
    cases mevBoostContext <;> simp [hvlen]
  · rw [hv, hnone, List.append_nil]
  · rw [hv, hv, hnone, hsome]

/-- C23 on the sample beacon and validator command lines with two extra
params each: dropping the arguments in front leaves the two extra params, in
the given order, and the whole tail of each command line is as listed. -/
theorem extra_params_close_command_line_witness :
    (getBeaconContainerConfig sampleLauncher "sigp/lighthouse" (some sampleBootnode)
        sampleELContext (some sampleMev) "info"
        (some ["--target-peers=8", "--disable-upnp"])).cmdOverride.drop 30 =
      ["--target-peers=8", "--disable-upnp"] ∧
    (getValidatorContainerConfig sampleLauncher "sigp/lighthouse" "info"
        "http://172.16.0.11:4000" sampleKeystore (some sampleMev)
        (some ["--graffiti=b", "--graffiti=a"])).cmdOverride.drop 18 =
      ["--graffiti=b", "--graffiti=a"] ∧
    (getBeaconContainerConfig sampleLauncher "sigp/lighthouse" (some sampleBootnode)
        sampleELContext (some sampleMev) "info"
        (some ["--target-peers=8", "--disable-upnp"])).cmdOverride.drop 26 =
      ["--metrics-port=5054", "--boot-nodes=enr:-boot", "--builder",
        "http://172.16.0.12:18550", "--target-peers=8", "--disable-upnp"] ∧
    (getValidatorContainerConfig sampleLauncher "sigp/lighthouse" "info"
        "http://172.16.0.11:4000" sampleKeystore (some sampleMev)
        (some ["--graffiti=b", "--graffiti=a"])).cmdOverride.drop 16 =
      ["--metrics-port=5064", "--builder-proposals", "--graffiti=b", "--graffiti=a"] :=
  ⟨(extra_params_close_command_line sampleLauncher "sigp/lighthouse" "info"
      "http://172.16.0.11:4000" (some sampleBootnode) sampleELContext (some sampleMev)
      sampleKeystore ["--target-peers=8", "--disable-upnp"]
      ["--graffiti=b", "--graffiti=a"]).2.1,
    (extra_params_close_command_line sampleLauncher "sigp/lighthouse" "info"
      "http://172.16.0.11:4000" (some sampleBootnode) sampleELContext (some sampleMev)
      sampleKeystore ["--target-peers=8", "--disable-upnp"]
      ["--graffiti=b", "--graffiti=a"]).2.2.2.2.2.2.1,
    by decide, by decide⟩

end Lighthouse
